import Mathlib

/-!
# Report decoders and session handlers of `usb_hidx.h`

A shallow embedding of `src/usb_hidx.h`: the boot-protocol keyboard path
(`hid_to_ascii`, `process_keyboard_report`, `update_keyboard_leds`), the gamepad
callback with the vendor commands it issues (`gamepad_transfer_cb`,
`poll_switch_controller`, `send_switch_command`, `set_switch_rumble`,
`init_switch_controller`), the other completion callbacks (`mouse_transfer_cb`,
`keyboard_transfer_cb`, `media_transfer_cb`, `touchpad_transfer_cb`) and the attach and
detach handlers of `client_event_cb` with `setup_media_interface`, and the walks over
the configuration descriptor those handlers make.

* `uint8_t` and `char` values are natural numbers (every value that occurs is
  below 256, no arithmetic here can wrap).
* The ESPHome globals (`id(caps_lock_state)`, `id(keyboard_buffer)`, ...) and
  the function-local statics `prev_keys` / `prev_shift` are the fields of
  `KbState`, passed explicitly.
* Everything the code sends to a collaborator (log lines, sensor publishes,
  USB control transfers) is recorded, in program order, as a list of events
  (`Event`, `PadEvent`, `MouseEvent`, `MediaEvent`, `TouchpadEvent`, `UsbCall`).
* Function-local statics of a callback are fields of that callback's own state
  (`PadState`, `MouseState`, `MediaState`, `TouchpadState`): no other function can
  name them.
* The file-level statics `dev_hdl`, `client_hdl`, `active_transfers` and the engine
  statics are the fields of `Session`; what the USB host library answers during a
  notification is a field of the notification record (`NewDev`).
* The configuration descriptor is what a read through a pointer at each byte offset
  yields (`ConfigDesc`); a loop over it is its body run under a bound on the number of
  iterations (`run_loop`), so that a walk that is never left can be told from one that
  finds nothing.
* The `float` arguments of `set_switch_rumble` are rationals: the code only compares
  them with zero.
-/

namespace UsbHidx

/-! ## Data model -/

/-- The `uint8_t keycode[6]` array of a boot report (also the static `prev_keys[6]`). -/
structure Keys where
  k0 : Nat
  k1 : Nat
  k2 : Nat
  k3 : Nat
  k4 : Nat
  k5 : Nat
deriving DecidableEq, Repr

/-- The six slots in index order `0 .. 5`. -/
def Keys.toList (k : Keys) : List Nat := [k.k0, k.k1, k.k2, k.k3, k.k4, k.k5]

/-- The packed struct `hid_keyboard_report_t`. -/
structure hid_keyboard_report_t where
  modifier : Nat
  reserved : Nat
  keycode : Keys
deriving DecidableEq, Repr

/-- What `process_keyboard_report` reads and writes between calls: its two statics
and the ESPHome globals it touches. -/
structure KbState where
  prev_keys : Keys
  prev_shift : Bool
  caps_lock_state : Bool
  num_lock_state : Bool
  scroll_lock_state : Bool
  keyboard_esc_pressed : Bool
  keyboard_enter_pressed : Bool
  keyboard_buffer : List Nat
deriving DecidableEq, Repr

/-- The part of the USB host the LED routine depends on: the two global handles
(`none` is the null handle) and whether the transport's allocation and control
submission succeed. -/
structure Host where
  dev_hdl : Option Nat
  client_hdl : Option Nat
  alloc_ok : Bool
  submit_ok : Bool
deriving DecidableEq, Repr

/-- Effects of the keyboard path that leave the decoder, in program order. -/
inductive Event where
  /-- The line "Modifier keys: ..." -/
  | log_modifier (m : Nat)
  /-- The line "Key detected: 0x..", written for every handled slot. -/
  | key_detected (k : Nat)
  /-- The line "... Lock pressed! State now: ..", with the toggled key and its new state. -/
  | lock_toggled (k : Nat) (now : Bool)
  /-- The line "Media key pressed: name (code)". -/
  | media_key (name : String) (k : Nat)
  /-- The call `id(keyboard_esc_sensor).publish_state(b)`. -/
  | esc_sensor (b : Bool)
  /-- The call `id(keyboard_enter_sensor).publish_state(b)`. -/
  | enter_sensor (b : Bool)
  /-- The line "Keyboard input: text", written when enter flushes the buffer. -/
  | log_input (text : List Nat)
  /-- The call `id(keyboard_input).publish_state(id(keyboard_buffer))`. -/
  | text_published (text : List Nat)
  /-- The warning "Cannot update LEDs - device or client not available". -/
  | led_unavailable
  /-- The line "Updating keyboard LEDs: 0x..". -/
  | log_leds (led_report : Nat)
  /-- A control transfer handed to `usb_host_transfer_submit_control`: its
  `data_buffer[0 .. num_bytes)`, and whether the submission was accepted. -/
  | led_control (bytes : List Nat) (accepted : Bool)
  /-- The error "Failed to allocate transfer for LED update". -/
  | led_alloc_failed
deriving DecidableEq, Repr

/-! ## `hid_to_ascii` (lines 64-116) -/

/-- The table `numbers[] = "1234567890"`. -/
def numbers : List Nat := "1234567890".toList.map Char.toNat

/-- The table `shifted[] = "!@#$%^&*()"`. -/
def shifted : List Nat := "!@#$%^&*()".toList.map Char.toNat

/-- Convert a HID keycode to ASCII; `0` is "no character".  The two globals the C
function reads, `id(caps_lock_state)` and `id(num_lock_state)`, are the first two
arguments. -/
def hid_to_ascii (caps_lock_state num_lock_state : Bool) (keycode : Nat) (shift : Bool) : Nat :=
  if 0x04 ≤ keycode ∧ keycode ≤ 0x1D then
    let c := 'a'.toNat + (keycode - 0x04)
    let make_uppercase := xor shift caps_lock_state
    if make_uppercase then c - 32 else c
  else if 0x1E ≤ keycode ∧ keycode ≤ 0x27 then
    if shift then shifted.getD (keycode - 0x1E) 0 else numbers.getD (keycode - 0x1E) 0
  else
    match keycode with
    | 0x2C => ' '.toNat
    | 0x28 => 10                                  -- '\n'
    | 0x2A => 8                                   -- '\b'
    | 0x2D => if shift then '_'.toNat else '-'.toNat
    | 0x2E => if shift then '+'.toNat else '='.toNat
    | 0x2F => if shift then 0x7B else '['.toNat   -- left brace
    | 0x30 => if shift then 0x7D else ']'.toNat   -- right brace
    | 0x31 => if shift then '|'.toNat else 0x5C   -- backslash
    | 0x33 => if shift then ':'.toNat else ';'.toNat
    | 0x34 => if shift then 0x22 else 0x27        -- double quote, apostrophe
    | 0x35 => if shift then '~'.toNat else 0x60   -- grave accent
    | 0x36 => if shift then '<'.toNat else ','.toNat
    | 0x37 => if shift then '>'.toNat else '.'.toNat
    | 0x38 => if shift then '?'.toNat else '/'.toNat
    | 0x2B => 9                                   -- '\t'
    | 0x59 => if num_lock_state then '1'.toNat else 0
    | 0x5A => if num_lock_state then '2'.toNat else 0
    | 0x5B => if num_lock_state then '3'.toNat else 0
    | 0x5C => if num_lock_state then '4'.toNat else 0
    | 0x5D => if num_lock_state then '5'.toNat else 0
    | 0x5E => if num_lock_state then '6'.toNat else 0
    | 0x5F => if num_lock_state then '7'.toNat else 0
    | 0x60 => if num_lock_state then '8'.toNat else 0
    | 0x61 => if num_lock_state then '9'.toNat else 0
    | 0x62 => if num_lock_state then '0'.toNat else 0
    | 0x63 => if num_lock_state then '.'.toNat else 0
    | 0x54 => '/'.toNat
    | 0x55 => '*'.toNat
    | 0x56 => '-'.toNat
    | 0x57 => '+'.toNat
    | 0x58 => 10                                  -- '\n'
    | _ => 0

/-! ## `update_keyboard_leds` (lines 994-1041) -/

/-- The byte `led_report`: bit 0 = Num Lock, bit 1 = Caps Lock, bit 2 = Scroll Lock. -/
def led_report (s : KbState) : Nat :=
  let r0 := 0
  let r1 := if s.num_lock_state then r0 ||| 0x01 else r0
  let r2 := if s.caps_lock_state then r1 ||| 0x02 else r1
  if s.scroll_lock_state then r2 ||| 0x04 else r2

/-- The 8 bytes of the `usb_setup_packet_t` of the SET_REPORT request, little-endian:
`bmRequestType = 0x21`, `bRequest = 0x09`, `wValue = 0x0200`, `wIndex = 0`, `wLength = 1`. -/
def led_setup_pkt : List Nat := [0x21, 0x09, 0x00, 0x02, 0x00, 0x00, 0x01, 0x00]

/-- Send the LED status to the keyboard.  Returns what the routine emits. -/
def update_keyboard_leds (h : Host) (s : KbState) : List Event :=
  if h.dev_hdl.isNone || h.client_hdl.isNone then
    [Event.led_unavailable]
  else
    let r := led_report s
    if h.alloc_ok then
      [Event.log_leds r, Event.led_control (led_setup_pkt ++ [r]) h.submit_ok]
    else
      [Event.log_leds r, Event.led_alloc_failed]

/-! ## `process_keyboard_report` (lines 119-260) -/

/-- The `switch` of lines 172-199: the name of a media key, if the code is one. -/
def media_key (k : Nat) : Option String :=
  match k with
  | 0x81 => some "Volume Up"
  | 0x82 => some "Volume Down"
  | 0x83 => some "Mute"
  | 0xB5 => some "Next Track"
  | 0xB6 => some "Previous Track"
  | 0xB7 => some "Stop"
  | 0xCD => some "Play/Pause"
  | 0x65 => some "Menu"
  | 0x66 => some "Power"
  | 0x67 => some "Sleep"
  | 0x68 => some "Wake"
  | 0x8A => some "Mail"
  | 0x94 => some "My Computer"
  | 0x92 => some "Calculator"
  | 0x40 => some "F13"
  | 0x41 => some "F14"
  | 0x42 => some "F15"
  | 0x43 => some "F16"
  | 0x44 => some "F17"
  | 0x45 => some "F18"
  | 0x46 => some "F19"
  | 0x47 => some "F20"
  | 0x48 => some "F21"
  | 0x49 => some "F22"
  | 0x4A => some "F23"
  | 0x4B => some "F24"
  | _ => none

/-- Lines 218-233: the edit of `id(keyboard_buffer)` by a mapped character
`ascii != 0`, followed by the publish of the buffer. -/
def apply_ascii (s : KbState) (ascii : Nat) : KbState × List Event :=
  let current := s.keyboard_buffer
  if ascii = 8 then
    let s1 := if current ≠ [] then { s with keyboard_buffer := current.dropLast } else s
    (s1, [Event.text_published s1.keyboard_buffer])
  else if ascii = 10 then
    let s1 := { s with keyboard_buffer := [] }
    (s1, [Event.log_input current, Event.text_published s1.keyboard_buffer])
  else
    let s1 := { s with keyboard_buffer := current ++ [ascii] }
    (s1, [Event.text_published s1.keyboard_buffer])

/-- Lines 153-236: the body run for a slot that passed the new-key test. -/
def handle_key (h : Host) (shift : Bool) (s : KbState) (k : Nat) : KbState × List Event :=
  if k = 0x39 then
    let s1 := { s with caps_lock_state := !s.caps_lock_state }
    (s1, [Event.key_detected k, Event.lock_toggled k s1.caps_lock_state] ++ update_keyboard_leds h s1)
  else if k = 0x53 then
    let s1 := { s with num_lock_state := !s.num_lock_state }
    (s1, [Event.key_detected k, Event.lock_toggled k s1.num_lock_state] ++ update_keyboard_leds h s1)
  else if k = 0x47 then
    let s1 := { s with scroll_lock_state := !s.scroll_lock_state }
    (s1, [Event.key_detected k, Event.lock_toggled k s1.scroll_lock_state] ++ update_keyboard_leds h s1)
  else
    match media_key k with
    | some name => (s, [Event.key_detected k, Event.media_key name k])
    | none =>
      let (s1, ev1) :=
        if k = 0x29 then
          ({ s with keyboard_esc_pressed := true }, [Event.esc_sensor true])
        else if k = 0x28 then
          ({ s with keyboard_enter_pressed := true }, [Event.enter_sensor true])
        else (s, [])
      let ascii := hid_to_ascii s1.caps_lock_state s1.num_lock_state k shift
      if ascii ≠ 0 then
        let (s2, ev2) := apply_ascii s1 ascii
        (s2, [Event.key_detected k] ++ ev1 ++ ev2)
      else
        (s1, [Event.key_detected k] ++ ev1)

/-- Lines 143-149: the inner loop over `prev_keys`. -/
def was_pressed (prev_keys : Keys) (k : Nat) : Bool :=
  prev_keys.toList.any (fun p => p == k)

/-- Lines 141-238: one iteration of the outer loop, on the slot value `k`.
The statics `prev_keys` and `prev_shift` are read from the state; the loop never
writes them. -/
def process_slot (h : Host) (shift : Bool) (acc : KbState × List Event) (k : Nat) :
    KbState × List Event :=
  let s := acc.1
  if k ≠ 0 then
    if !was_pressed s.prev_keys k || (shift != s.prev_shift) then
      let (s1, ev) := handle_key h shift s k
      (s1, acc.2 ++ ev)
    else acc
  else acc

/-- Line 122: left or right shift. -/
def shift_of (report : hid_keyboard_report_t) : Bool :=
  (report.modifier &&& 0x22) != 0

/-- Lines 241-255: reset the Enter/ESC flags when their keys are not in the report. -/
def reset_enter_esc (report : hid_keyboard_report_t) (s : KbState) : KbState × List Event :=
  let enter_still_pressed := report.keycode.toList.any (fun k => k == 0x28)
  let esc_still_pressed := report.keycode.toList.any (fun k => k == 0x29)
  let (s1, ev1) :=
    if !enter_still_pressed && s.keyboard_enter_pressed then
      ({ s with keyboard_enter_pressed := false }, [Event.enter_sensor false])
    else (s, [])
  let (s2, ev2) :=
    if !esc_still_pressed && s1.keyboard_esc_pressed then
      ({ s1 with keyboard_esc_pressed := false }, [Event.esc_sensor false])
    else (s1, [])
  (s2, ev1 ++ ev2)

/-- Process one keyboard report: the new state and the events emitted. -/
def process_keyboard_report (h : Host) (s : KbState) (report : hid_keyboard_report_t) :
    KbState × List Event :=
  let shift := shift_of report
  let ev0 := if report.modifier ≠ 0 then [Event.log_modifier report.modifier] else []
  let (s1, ev1) := report.keycode.toList.foldl (process_slot h shift) (s, ev0)
  let (s2, ev2) := reset_enter_esc report s1
  ({ s2 with prev_keys := report.keycode, prev_shift := shift }, ev1 ++ ev2)

/-- The keyboard state before the first report: `prev_keys = {0}`, `prev_shift = false`,
all locks off, no flag set, empty text buffer. -/
def kb_init : KbState :=
  { prev_keys := ⟨0, 0, 0, 0, 0, 0⟩, prev_shift := false,
    caps_lock_state := false, num_lock_state := false, scroll_lock_state := false,
    keyboard_esc_pressed := false, keyboard_enter_pressed := false,
    keyboard_buffer := [] }

/-- A report from its eight bytes. -/
def report_of (modifier reserved k0 k1 k2 k3 k4 k5 : Nat) : hid_keyboard_report_t :=
  { modifier := modifier, reserved := reserved, keycode := ⟨k0, k1, k2, k3, k4, k5⟩ }

/-- The texts handed to the text sensor during one call. -/
def published_texts : List Event → List (List Nat)
  | [] => []
  | Event.text_published t :: es => t :: published_texts es
  | _ :: es => published_texts es

/-- The codes for which the slot body ran during one call (the "Key detected" lines). -/
def handled_keys : List Event → List Nat
  | [] => []
  | Event.key_detected k :: es => k :: handled_keys es
  | _ :: es => handled_keys es

/-- A C string literal as its bytes. -/
def bytes (text : String) : List Nat := text.toList.map Char.toNat

/-- The claim's wording of the buffer edit by a mapped character `c` (`0` = no
character): backspace removes the last character, enter empties the buffer, any other
character is appended. -/
def buffer_after (buf : List Nat) (c : Nat) : List Nat :=
  if c = 0 then buf
  else if c = 8 then buf.dropLast
  else if c = 10 then []
  else buf ++ [c]

/-- The new-key test of line 152 for a code `k`, against the statics of state `s`. -/
def is_new (s : KbState) (shift : Bool) (k : Nat) : Bool :=
  !was_pressed s.prev_keys k || (shift != s.prev_shift)

/-- The control transfers handed to `usb_host_transfer_submit_control` during one call
(their data bytes). -/
def submitted_transfers : List Event → List (List Nat)
  | [] => []
  | Event.led_control b _ :: es => b :: submitted_transfers es
  | _ :: es => submitted_transfers es

/-- The loop of one call, from the state and the first events of that call. -/
def key_loop (h : Host) (s : KbState) (r : hid_keyboard_report_t) : KbState × List Event :=
  r.keycode.toList.foldl (process_slot h (shift_of r))
    (s, if r.modifier ≠ 0 then [Event.log_modifier r.modifier] else [])

/-- A transport on which both handles are open and every call succeeds. -/
def host_ok : Host := { dev_hdl := some 1, client_hdl := some 1, alloc_ok := true, submit_ok := true }

/-! ## Transfers and the vendor command engine -/

/-- What a completion callback reads of a `usb_transfer_t`: whether `status` is
`USB_TRANSFER_STATUS_COMPLETED`, `actual_num_bytes`, and the content of `data_buffer`. -/
structure Transfer where
  completed : Bool
  actual_num_bytes : Nat
  data_buffer : List Nat
deriving DecidableEq, Repr

/-- The read `transfer->data_buffer[i]` (a read past the end of the buffer, undefined
in C, gives 0). -/
def Transfer.byte (t : Transfer) (i : Nat) : Nat := t.data_buffer.getD i 0

/-- The file-level statics of the vendor command engine. -/
structure SwitchState where
  switch_packet_counter : Nat
  is_official_switch : Bool
  last_switch_poll : Nat
  rumble_data : List Nat
deriving DecidableEq, Repr

/-- The function-local statics of `gamepad_transfer_cb` (`last_buttons[3]`, `last_dpad`,
the last reported stick values, `first_read`) and the three ESPHome button globals. -/
structure PadState where
  last_buttons0 : Nat
  last_buttons1 : Nat
  last_buttons2 : Nat
  last_dpad : Nat
  last_lx : Nat
  last_ly : Nat
  last_rx : Nat
  last_ry : Nat
  first_read : Bool
  gamepad_button_a : Bool
  gamepad_button_b : Bool
  gamepad_button_home : Bool
deriving DecidableEq, Repr

/-- Effects of the gamepad path, in program order. -/
inductive PadEvent where
  /-- The line "D-Pad: dir[dpad]". -/
  | dpad (d : Nat)
  /-- A line "Button: name". -/
  | button (name : String)
  /-- The call `id(gamepad_b_sensor).publish_state(b)`. -/
  | b_sensor (b : Bool)
  /-- The call `id(gamepad_a_sensor).publish_state(b)`. -/
  | a_sensor (b : Bool)
  /-- The call `id(gamepad_home_sensor).publish_state(b)`. -/
  | home_sensor (b : Bool)
  /-- The line "Stick center: L(lx,ly) R(rx,ry)". -/
  | stick_center (lx ly rx ry : Nat)
  /-- The line "Left Stick: X=.. Y=..". -/
  | left_stick (x y : Nat)
  /-- The line "Right Stick: X=.. Y=..". -/
  | right_stick (x y : Nat)
  /-- A control transfer handed to `usb_host_transfer_submit_control` by
  `send_switch_command`: its data bytes, and whether the submission was accepted. -/
  | control (data : List Nat) (accepted : Bool)
  /-- The call `usb_host_transfer_submit(transfer)` that re-arms the endpoint. -/
  | resubmit
deriving DecidableEq, Repr

/-- The strong envelope written by `set_switch_rumble`. -/
def rumble_strong : List Nat := [0x28, 0x88, 0x60, 0x61, 0x28, 0x88, 0x60, 0x61]

/-- The idle envelope written by `set_switch_rumble` (also the initial `rumble_data`). -/
def rumble_idle : List Nat := [0x00, 0x01, 0x40, 0x40, 0x00, 0x01, 0x40, 0x40]

/-- Lines 313-338.  The two amplitudes are floats; the function only tests
`amp_low > 0 || amp_high > 0`, and that test is the argument `amp_positive`. -/
def set_switch_rumble (sw : SwitchState) (amp_positive : Bool) : SwitchState :=
  if !sw.is_official_switch then sw
  else if amp_positive then { sw with rumble_data := rumble_strong }
  else { sw with rumble_data := rumble_idle }

/-- The setup packet of `send_switch_command`, little-endian: `bmRequestType = 0x21`,
`bRequest = 0x09`, `wValue = 0x0301`, `wIndex = 0`, `wLength = 64`. -/
def switch_setup_pkt : List Nat := [0x21, 0x09, 0x01, 0x03, 0x00, 0x00, 0x40, 0x00]

/-- The array `report[64]` of `send_switch_command`: zero-filled, then the report id,
the counter, the rumble envelope, the command and the `len` data bytes. -/
def switch_report (sw : SwitchState) (cmd : Nat) (data : List Nat) : List Nat :=
  let body := [0x01, sw.switch_packet_counter] ++ sw.rumble_data ++ [cmd] ++ data
  (body ++ List.replicate (64 - body.length) 0).take 64

/-- Lines 1106-1139.  `data` holds the `len` bytes behind the pointer (`[]` for
`nullptr, 0`). -/
def send_switch_command (h : Host) (sw : SwitchState) (cmd : Nat) (data : List Nat) :
    SwitchState × List PadEvent :=
  if h.dev_hdl.isNone || h.client_hdl.isNone then (sw, [])
  else if h.alloc_ok then
    ({ sw with switch_packet_counter := (sw.switch_packet_counter + 1) % 256 },
      [PadEvent.control (switch_setup_pkt ++ switch_report sw cmd data) h.submit_ok])
  else (sw, [])

/-- Lines 341-350.  `now` is `esp_timer_get_time() / 1000`; the subtraction is the
`uint64_t` one. -/
def poll_switch_controller (h : Host) (now : Nat) (sw : SwitchState) :
    SwitchState × List PadEvent :=
  if !sw.is_official_switch then (sw, [])
  else if (now + 2 ^ 64 - sw.last_switch_poll) % 2 ^ 64 < 15 then (sw, [])
  else send_switch_command h { sw with last_switch_poll := now } 0x00 []

/-! ## `gamepad_transfer_cb` (lines 353-497) -/

/-- The C test `(v & mask)` as a condition. -/
def bit_set (v mask : Nat) : Bool := (v &&& mask) != 0

/-- The edge test `(now & mask) && !(last & mask)`. -/
def pressed (now last mask : Nat) : Bool := bit_set now mask && !bit_set last mask

/-- The edge test `!(now & mask) && (last & mask)`. -/
def released (now last mask : Nat) : Bool := !bit_set now mask && bit_set last mask

/-- Line 364: the framing test. -/
def is_official (t : Transfer) : Bool :=
  t.actual_num_bytes == 64 && (t.byte 0 == 0x30 || t.byte 0 == 0x21)

/-- Line 365: the offset of the button bytes. -/
def pad_offset (t : Transfer) : Nat := if is_official t then 3 else 0

/-- Lines 371-373: the bytes read as `btn_right`, `btn_shared`, `btn_left`. -/
def pad_buttons (t : Transfer) : Nat × Nat × Nat :=
  (t.byte (pad_offset t), t.byte (pad_offset t + 1), t.byte (pad_offset t + 2))

/-- Lines 376-384: the D-pad value of the left-cluster byte. -/
def dpad_of (btn_left : Nat) : Nat :=
  let d0 := 0x0F
  let d1 := if bit_set btn_left 0x01 then 4 else if bit_set btn_left 0x02 then 0 else d0
  let d2 := if bit_set btn_left 0x04 then 2 else if bit_set btn_left 0x08 then 6 else d1
  let d3 := if bit_set btn_left 0x01 && bit_set btn_left 0x04 then 3 else d2
  let d4 := if bit_set btn_left 0x01 && bit_set btn_left 0x08 then 5 else d3
  let d5 := if bit_set btn_left 0x02 && bit_set btn_left 0x04 then 1 else d4
  if bit_set btn_left 0x02 && bit_set btn_left 0x08 then 7 else d5

/-- Lines 390 and 393: the 12-bit X of a stick from its first two bytes, stored in a
`uint16_t`. -/
def stick_x (b0 b1 : Nat) : Nat := (b0 ||| ((b1 &&& 0x0F) <<< 8)) % 65536

/-- Lines 391 and 394: the 12-bit Y of a stick from its last two bytes, stored in a
`uint16_t`. -/
def stick_y (b1 b2 : Nat) : Nat := ((b1 >>> 4) ||| (b2 <<< 4)) % 65536

/-- Lines 387-400: `(lx, ly, rx, ry)`. -/
def stick_values (t : Transfer) : Nat × Nat × Nat × Nat :=
  if is_official t then
    (stick_x (t.byte 6) (t.byte 7), stick_y (t.byte 7) (t.byte 8),
      stick_x (t.byte 9) (t.byte 10), stick_y (t.byte 10) (t.byte 11))
  else
    (t.byte (pad_offset t + 3), t.byte (pad_offset t + 4),
      t.byte (pad_offset t + 5), t.byte (pad_offset t + 6))

/-- Lines 403-410: the D-pad section. -/
def pad_dpad (st : PadState) (dpad : Nat) : PadState × List PadEvent :=
  if dpad ≠ st.last_dpad ∧ dpad ≠ 0x0F then
    ({ st with last_dpad := dpad }, if dpad < 8 then [PadEvent.dpad dpad] else [])
  else if dpad = 0x0F ∧ st.last_dpad ≠ 0x0F then
    ({ st with last_dpad := 0x0F }, [])
  else (st, [])

/-- Lines 413-439: the right cluster. -/
def pad_right (st : PadState) (btn_right : Nat) : PadState × List PadEvent :=
  if btn_right ≠ st.last_buttons0 then
    let l := st.last_buttons0
    ({ st with
        gamepad_button_b :=
          if released btn_right l 0x04 then false
          else if pressed btn_right l 0x04 then true else st.gamepad_button_b
        gamepad_button_a :=
          if released btn_right l 0x08 then false
          else if pressed btn_right l 0x08 then true else st.gamepad_button_a
        last_buttons0 := btn_right },
      (if pressed btn_right l 0x01 then [PadEvent.button "Y"] else [])
      ++ (if pressed btn_right l 0x02 then [PadEvent.button "X"] else [])
      ++ (if pressed btn_right l 0x04 then [PadEvent.button "B", PadEvent.b_sensor true] else [])
      ++ (if released btn_right l 0x04 then [PadEvent.b_sensor false] else [])
      ++ (if pressed btn_right l 0x08 then [PadEvent.button "A", PadEvent.a_sensor true] else [])
      ++ (if released btn_right l 0x08 then [PadEvent.a_sensor false] else [])
      ++ (if pressed btn_right l 0x40 then [PadEvent.button "R"] else [])
      ++ (if pressed btn_right l 0x80 then [PadEvent.button "ZR"] else []))
  else (st, [])

/-- Lines 442-462: the shared cluster; Home drives `set_switch_rumble`. -/
def pad_shared (st : PadState) (sw : SwitchState) (btn_shared : Nat) :
    PadState × SwitchState × List PadEvent :=
  if btn_shared ≠ st.last_buttons1 then
    let l := st.last_buttons1
    let sw1 := if pressed btn_shared l 0x10 then set_switch_rumble sw true else sw
    let sw2 := if released btn_shared l 0x10 then set_switch_rumble sw1 false else sw1
    ({ st with
        gamepad_button_home :=
          if released btn_shared l 0x10 then false
          else if pressed btn_shared l 0x10 then true else st.gamepad_button_home
        last_buttons1 := btn_shared },
      sw2,
      (if pressed btn_shared l 0x01 then [PadEvent.button "Minus"] else [])
      ++ (if pressed btn_shared l 0x02 then [PadEvent.button "Plus"] else [])
      ++ (if pressed btn_shared l 0x04 then [PadEvent.button "R-Stick"] else [])
      ++ (if pressed btn_shared l 0x08 then [PadEvent.button "L-Stick"] else [])
      ++ (if pressed btn_shared l 0x10 then
            [PadEvent.button "Home - Rumble ON", PadEvent.home_sensor true] else [])
      ++ (if released btn_shared l 0x10 then
            [PadEvent.button "Home Released - Rumble OFF", PadEvent.home_sensor false] else [])
      ++ (if pressed btn_shared l 0x20 then [PadEvent.button "Capture"] else []))
  else (st, sw, [])

/-- Lines 465-469: the left cluster (L, ZL). -/
def pad_left (st : PadState) (btn_left : Nat) : PadState × List PadEvent :=
  if btn_left ≠ st.last_buttons2 then
    let l := st.last_buttons2
    ({ st with last_buttons2 := btn_left },
      (if pressed btn_left l 0x40 then [PadEvent.button "L"] else [])
      ++ (if pressed btn_left l 0x80 then [PadEvent.button "ZL"] else []))
  else (st, [])

/-- The value `abs((int)a - (int)b)`. -/
def abs_diff (a b : Nat) : Nat := ((a : Int) - (b : Int)).natAbs

/-- Lines 475-482: the first read stores the stick values as the reference. -/
def pad_center (st : PadState) (lx ly rx ry : Nat) : PadState × List PadEvent :=
  if st.first_read then
    ({ st with last_lx := lx, last_ly := ly, last_rx := rx, last_ry := ry, first_read := false },
      [PadEvent.stick_center lx ly rx ry])
  else (st, [])

/-- Lines 485-489: the left stick. -/
def pad_stick_left (st : PadState) (lx ly : Nat) : PadState × List PadEvent :=
  if abs_diff lx st.last_lx > 300 ∨ abs_diff ly st.last_ly > 300 then
    ({ st with last_lx := lx, last_ly := ly }, [PadEvent.left_stick lx ly])
  else (st, [])

/-- Lines 490-494: the right stick. -/
def pad_stick_right (st : PadState) (rx ry : Nat) : PadState × List PadEvent :=
  if abs_diff rx st.last_rx > 300 ∨ abs_diff ry st.last_ry > 300 then
    ({ st with last_rx := rx, last_ry := ry }, [PadEvent.right_stick rx ry])
  else (st, [])

/-- Lines 471-494: the stick section. -/
def pad_sticks (st : PadState) (v : Nat × Nat × Nat × Nat) : PadState × List PadEvent :=
  let c := pad_center st v.1 v.2.1 v.2.2.1 v.2.2.2
  let l := pad_stick_left c.1 v.1 v.2.1
  let r := pad_stick_right l.1 v.2.2.1 v.2.2.2
  (r.1, c.2 ++ l.2 ++ r.2)

/-- Lines 367-495: the decode of a report that passed the length guard. -/
def pad_decode (st : PadState) (sw : SwitchState) (t : Transfer) :
    PadState × SwitchState × List PadEvent :=
  let b := pad_buttons t
  let d := pad_dpad st (dpad_of b.2.2)
  let r := pad_right d.1 b.1
  let s := pad_shared r.1 sw b.2.1
  let l := pad_left s.1 b.2.2
  let k := pad_sticks l.1 (stick_values t)
  (k.1, s.2.1, d.2 ++ r.2 ++ s.2.2 ++ l.2 ++ k.2)

/-- The gamepad completion callback: the new decoder statics, the new engine statics and
the events.  `now` is the millisecond clock read by `poll_switch_controller`. -/
def gamepad_transfer_cb (h : Host) (now : Nat) (st : PadState) (sw : SwitchState)
    (t : Transfer) : PadState × SwitchState × List PadEvent :=
  if !t.completed then (st, sw, [PadEvent.resubmit])
  else
    let p := poll_switch_controller h now sw
    if t.actual_num_bytes ≥ pad_offset t + 6 then
      let d := pad_decode st p.1 t
      (d.1, d.2.1, p.2 ++ d.2.2 ++ [PadEvent.resubmit])
    else (st, p.1, p.2 ++ [PadEvent.resubmit])

/-- The statics of `gamepad_transfer_cb` as initialised at program start, with the three
button globals off. -/
def pad_init : PadState :=
  { last_buttons0 := 0, last_buttons1 := 0, last_buttons2 := 0, last_dpad := 0x0F,
    last_lx := 2048, last_ly := 2048, last_rx := 2048, last_ry := 2048, first_read := true,
    gamepad_button_a := false, gamepad_button_b := false, gamepad_button_home := false }

/-- The engine statics as initialised at program start. -/
def switch_init : SwitchState :=
  { switch_packet_counter := 0, is_official_switch := false, last_switch_poll := 0,
    rumble_data := rumble_idle }

/-- The stick lines of a trace ("Left Stick" / "Right Stick"). -/
def stick_events : List PadEvent → List PadEvent
  | [] => []
  | PadEvent.left_stick x y :: es => PadEvent.left_stick x y :: stick_events es
  | PadEvent.right_stick x y :: es => PadEvent.right_stick x y :: stick_events es
  | _ :: es => stick_events es

/-- The three bytes a controller sends for a stick at `(x, y)`: low 8 bits of X, high 4
bits of X with the low 4 bits of Y, high 8 bits of Y. -/
def stick_pack (x y : Nat) : List Nat :=
  [x &&& 0xFF, (x >>> 8) ||| ((y &&& 0x0F) <<< 4), y >>> 4]

/-- A completed 64-byte full report (id 0x30) with the three button bytes and the two
sticks given, every other byte zero. -/
def official_report (btn_right btn_shared btn_left lx ly rx ry : Nat) : Transfer :=
  { completed := true, actual_num_bytes := 64,
    data_buffer := [0x30, 0, 0, btn_right, btn_shared, btn_left] ++ stick_pack lx ly
      ++ stick_pack rx ry ++ List.replicate 52 0 }

/-- Feed a sequence of `(clock, transfer)` completions to `gamepad_transfer_cb`,
collecting the events. -/
def gamepad_run (h : Host) (st : PadState) (sw : SwitchState) :
    List (Nat × Transfer) → PadState × SwitchState × List PadEvent
  | [] => (st, sw, [])
  | (now, t) :: rest =>
    let a := gamepad_transfer_cb h now st sw t
    let b := gamepad_run h a.1 a.2.1 rest
    (b.1, b.2.1, a.2.2 ++ b.2.2)

/-! ## `mouse_transfer_cb` (lines 263-310) -/

/-- The cast `(int8_t)b` of a byte. -/
def to_int8 (b : Nat) : Int := if b % 256 < 128 then (b % 256 : Nat) else (b % 256 : Nat) - 256

/-- The static `last_buttons` of `mouse_transfer_cb` and the two ESPHome button globals. -/
structure MouseState where
  last_buttons : Nat
  mouse_left_button : Bool
  mouse_right_button : Bool
deriving DecidableEq, Repr

/-- Effects of the mouse path, in program order. -/
inductive MouseEvent where
  /-- A fixed log line ("Mouse: Left Click", ...). -/
  | log (line : String)
  /-- The call `id(mouse_left_sensor).publish_state(b)`. -/
  | left_sensor (b : Bool)
  /-- The call `id(mouse_right_sensor).publish_state(b)`. -/
  | right_sensor (b : Bool)
  /-- The line "Mouse: Movement X=.. Y=..". -/
  | movement (x y : Int)
  /-- The line "Mouse: Wheel Up" (`true`) or "Mouse: Wheel Down" (`false`). -/
  | wheel (up : Bool)
  /-- The call `usb_host_transfer_submit(transfer)`. -/
  | resubmit
deriving DecidableEq, Repr

/-- Lines 272-299: the button section. -/
def mouse_buttons (st : MouseState) (buttons : Nat) : MouseState × List MouseEvent :=
  if buttons ≠ st.last_buttons then
    let l := st.last_buttons
    ({ last_buttons := buttons
       mouse_left_button :=
         if released buttons l 0x01 then false
         else if pressed buttons l 0x01 then true else st.mouse_left_button
       mouse_right_button :=
         if released buttons l 0x02 then false
         else if pressed buttons l 0x02 then true else st.mouse_right_button },
      (if pressed buttons l 0x01 then
          [MouseEvent.log "Mouse: Left Click", MouseEvent.left_sensor true] else [])
      ++ (if released buttons l 0x01 then
          [MouseEvent.log "Mouse: Left Release", MouseEvent.left_sensor false] else [])
      ++ (if pressed buttons l 0x02 then
          [MouseEvent.log "Mouse: Right Click", MouseEvent.right_sensor true] else [])
      ++ (if released buttons l 0x02 then
          [MouseEvent.log "Mouse: Right Release", MouseEvent.right_sensor false] else [])
      ++ (if pressed buttons l 0x04 then [MouseEvent.log "Mouse: Middle Click"] else [])
      ++ (if released buttons l 0x04 then [MouseEvent.log "Mouse: Middle Release"] else []))
  else (st, [])

/-- The boot-mouse completion callback. -/
def mouse_transfer_cb (st : MouseState) (t : Transfer) : MouseState × List MouseEvent :=
  if t.completed && decide (t.actual_num_bytes ≥ 3) then
    let buttons := t.byte 0
    let x_delta := to_int8 (t.byte 1)
    let y_delta := to_int8 (t.byte 2)
    let wheel := if t.actual_num_bytes ≥ 4 then to_int8 (t.byte 3) else 0
    let b := mouse_buttons st buttons
    (b.1, b.2
      ++ (if x_delta ≠ 0 ∨ y_delta ≠ 0 then [MouseEvent.movement x_delta y_delta] else [])
      ++ (if wheel ≠ 0 then [MouseEvent.wheel (decide (wheel > 0))] else [])
      ++ [MouseEvent.resubmit])
  else (st, [MouseEvent.resubmit])

/-! ## `media_transfer_cb` (lines 509-629) -/

/-- The statics of `media_transfer_cb` (`last_report_id` of the relative branch;
`last_buttons`, `last_x`, `last_y`, `click_x`, `click_y` of the absolute branch) and the
ESPHome globals `touchpad_clicked`, `touchpad_x`, `touchpad_y`.  The two position
globals are declared outside this file; they are taken as integers. -/
structure MediaState where
  last_report_id : Nat
  last_buttons : Nat
  last_x : Nat
  last_y : Nat
  click_x : Nat
  click_y : Nat
  touchpad_clicked : Bool
  touchpad_x : Int
  touchpad_y : Int
deriving DecidableEq, Repr

/-- Effects of the media/touchpad path, in program order. -/
inductive MediaEvent where
  /-- A fixed touchpad log line ("Touchpad: Left Click", "Touchpad: Right Release", ...). -/
  | touch_log (line : String)
  /-- A touchpad click line with the click position ("Touchpad: Left Click at X=.. Y=.."). -/
  | click_at (line : String) (x y : Nat)
  /-- The call `id(touchpad_click_sensor).publish_state(b)`. -/
  | click_sensor (b : Bool)
  /-- The line "Touchpad: X=.. Y=.. (delta X=.. Y=..)". -/
  | touch_moved (x y dx dy : Int)
  /-- The line "Touchpad: Position X=.. Y=..". -/
  | touch_position (x y : Nat)
  /-- The line "Media key: name (code)". -/
  | media_key (name : String) (key : Nat)
  /-- The call `usb_host_transfer_submit(transfer)`. -/
  | resubmit
deriving DecidableEq, Repr

/-- The `switch` of lines 603-619. -/
def media_name (key : Nat) : String :=
  match key with
  | 0xE9 => "Volume Up"
  | 0xEA => "Volume Down"
  | 0xE2 => "Mute"
  | 0xCD => "Play/Pause"
  | 0xB5 => "Next Track"
  | 0xB6 => "Previous Track"
  | 0xB7 => "Stop"
  | 0x8A => "Mail"
  | 0x92 => "Calculator"
  | 0x94 => "My Computer"
  | 0x23 => "WWW Home"
  | 0x21 => "WWW Search"
  | 0x24 => "WWW Back"
  | 0x25 => "WWW Forward"
  | _ => "Unknown"

/-- Lines 523-549: the relative-movement branch. -/
def media_relative (st : MediaState) (t : Transfer) : MediaState × List MediaEvent :=
  let report_id := t.byte 0
  let x_delta := to_int8 (t.byte 1)
  let y_delta := to_int8 (t.byte 2)
  let l := st.last_report_id
  let b : MediaState × List MediaEvent :=
    if report_id ≠ l then
      ({ st with
          touchpad_clicked :=
            if report_id = 0x01 then true else if l = 0x01 then false else st.touchpad_clicked
          last_report_id := report_id },
        (if report_id = 0x01 then
            [MediaEvent.touch_log "Touchpad: Left Click", MediaEvent.click_sensor true]
          else if l = 0x01 then
            [MediaEvent.touch_log "Touchpad: Left Release", MediaEvent.click_sensor false]
          else [])
        ++ (if report_id = 0x02 then [MediaEvent.touch_log "Touchpad: Right Click"] else [])
        ++ (if l = 0x02 then [MediaEvent.touch_log "Touchpad: Right Release"] else []))
    else (st, [])
  if x_delta ≠ 0 ∨ y_delta ≠ 0 then
    ({ b.1 with touchpad_x := b.1.touchpad_x + x_delta, touchpad_y := b.1.touchpad_y + y_delta },
      b.2 ++ [MediaEvent.touch_moved (b.1.touchpad_x + x_delta) (b.1.touchpad_y + y_delta)
        x_delta y_delta])
  else b

/-- Lines 550-595: the absolute-position branch. -/
def media_absolute (st : MediaState) (t : Transfer) : MediaState × List MediaEvent :=
  let buttons := t.byte 1
  let x_raw := (t.byte 2 ||| (t.byte 3 <<< 8)) % 65536
  let y_raw := (t.byte 4 ||| (t.byte 5 <<< 8)) % 65536
  let x_coord := x_raw &&& 0x0FFF
  let y_coord := y_raw &&& 0x0FFF
  let s1 : MediaState :=
    if x_coord ≠ 0 ∨ y_coord ≠ 0 then { st with click_x := x_coord, click_y := y_coord } else st
  let l := s1.last_buttons
  let b : MediaState × List MediaEvent :=
    if buttons ≠ l then
      ({ s1 with
          touchpad_clicked :=
            if released buttons l 0x01 then false
            else if pressed buttons l 0x01 then true else s1.touchpad_clicked
          last_buttons := buttons },
        (if pressed buttons l 0x01 then
            [MediaEvent.click_at "Touchpad: Left Click" s1.click_x s1.click_y,
              MediaEvent.click_sensor true] else [])
        ++ (if released buttons l 0x01 then
            [MediaEvent.touch_log "Touchpad: Left Release", MediaEvent.click_sensor false] else [])
        ++ (if pressed buttons l 0x02 then
            [MediaEvent.click_at "Touchpad: Right Click" s1.click_x s1.click_y] else [])
        ++ (if released buttons l 0x02 then
            [MediaEvent.touch_log "Touchpad: Right Release"] else [])
        ++ (if pressed buttons l 0x04 then
            [MediaEvent.click_at "Touchpad: Middle Click" s1.click_x s1.click_y] else [])
        ++ (if released buttons l 0x04 then
            [MediaEvent.touch_log "Touchpad: Middle Release"] else []))
    else (s1, [])
  if (x_coord ≠ 0 ∨ y_coord ≠ 0)
      ∧ (abs_diff x_coord b.1.last_x > 200 ∨ abs_diff y_coord b.1.last_y > 200) then
    ({ b.1 with
        touchpad_x := (x_coord : Int)
        touchpad_y := (y_coord : Int)
        last_x := x_coord
        last_y := y_coord },
      b.2 ++ [MediaEvent.touch_position x_coord y_coord])
  else b

/-- Lines 598-621: the media-key loop over the bytes `1 .. actual_num_bytes - 1`. -/
def media_keys (t : Transfer) : List MediaEvent :=
  (List.range' 1 (t.actual_num_bytes - 1)).filterMap (fun i =>
    let key := t.byte i
    if key = 0 then none else some (MediaEvent.media_key (media_name key) key))

/-- The media/touchpad completion callback. -/
def media_transfer_cb (st : MediaState) (t : Transfer) : MediaState × List MediaEvent :=
  if t.completed && decide (t.actual_num_bytes > 0) then
    let report_id := t.byte 0
    if t.actual_num_bytes ≥ 4 then
      let r := media_relative st t
      (r.1, r.2 ++ [MediaEvent.resubmit])
    else if report_id = 0x02 ∧ t.actual_num_bytes ≥ 8 then
      let a := media_absolute st t
      (a.1, a.2 ++ [MediaEvent.resubmit])
    else if report_id = 0x03 then
      (st, media_keys t ++ [MediaEvent.resubmit])
    else (st, [MediaEvent.resubmit])
  else (st, [MediaEvent.resubmit])

/-- The statics of `media_transfer_cb` as initialised at program start, with the
touchpad globals cleared. -/
def media_init : MediaState :=
  { last_report_id := 0, last_buttons := 0, last_x := 0, last_y := 0, click_x := 0,
    click_y := 0, touchpad_clicked := false, touchpad_x := 0, touchpad_y := 0 }

/-- The statics of `mouse_transfer_cb` as initialised at program start, with the button
globals off. -/
def mouse_init : MouseState :=
  { last_buttons := 0, mouse_left_button := false, mouse_right_button := false }

/-- A completed transfer holding exactly the given bytes. -/
def completed_report (data : List Nat) : Transfer :=
  { completed := true, actual_num_bytes := data.length, data_buffer := data }

/-- The media-key lines of a trace. -/
def media_key_events : List MediaEvent → List MediaEvent
  | [] => []
  | MediaEvent.media_key n k :: es => MediaEvent.media_key n k :: media_key_events es
  | _ :: es => media_key_events es

/-- Whether an event is a touchpad event (a touchpad line or a click-sensor publish). -/
def is_touch_event : MediaEvent → Bool
  | MediaEvent.touch_log _ => true
  | MediaEvent.click_at _ _ _ => true
  | MediaEvent.click_sensor _ => true
  | MediaEvent.touch_moved _ _ _ _ => true
  | MediaEvent.touch_position _ _ => true
  | _ => false

/-- The decoder statics just before the stick section of a decoded report: the button
bytes of the report are remembered, and the D-pad value and the three button globals
are the given ones. -/
def pad_pre (st : PadState) (t : Transfer) (d : Nat) (a b m : Bool) : PadState :=
  { st with
    last_dpad := d
    gamepad_button_a := a
    gamepad_button_b := b
    gamepad_button_home := m
    last_buttons0 := (pad_buttons t).1
    last_buttons1 := (pad_buttons t).2.1
    last_buttons2 := (pad_buttons t).2.2 }

/-- All four stick values of a report are within 300 of the last reported values. -/
@[reducible] def stick_near (st : PadState) (v : Nat × Nat × Nat × Nat) : Prop :=
  abs_diff v.1 st.last_lx ≤ 300 ∧ abs_diff v.2.1 st.last_ly ≤ 300
    ∧ abs_diff v.2.2.1 st.last_rx ≤ 300 ∧ abs_diff v.2.2.2 st.last_ry ≤ 300

/-! ## The vendor command engine: sequences, `init_switch_controller` -/

/-- Issue the commands `(cmd, data)` of a list one after the other through
`send_switch_command`. -/
def send_switch_commands (h : Host) (sw : SwitchState) :
    List (Nat × List Nat) → SwitchState × List PadEvent
  | [] => (sw, [])
  | (cmd, data) :: rest =>
    let a := send_switch_command h sw cmd data
    let b := send_switch_commands h a.1 rest
    (b.1, a.2 ++ b.2)

/-- Call `poll_switch_controller` at each clock value of a list, in order; the result
is the final engine state and the clock values at which a command was handed to the
transport. -/
def poll_run (h : Host) (sw : SwitchState) : List Nat → SwitchState × List Nat
  | [] => (sw, [])
  | now :: rest =>
    let p := poll_switch_controller h now sw
    let r := poll_run h p.1 rest
    (r.1, (if p.2 ≠ [] then [now] else []) ++ r.2)

/-- The call `set_switch_rumble(freq_low, amp_low, freq_high, amp_high)` of lines
313-338.  The float arguments are taken as rationals (every finite float is one); the
function only compares the two amplitudes with 0. -/
def set_switch_rumble_call (sw : SwitchState) (freq_low amp_low freq_high amp_high : ℚ) :
    SwitchState :=
  set_switch_rumble sw (decide (amp_low > 0 ∨ amp_high > 0))

/-- The setup packet of the handshake of `init_switch_controller`, little-endian:
`bmRequestType = 0x21`, `bRequest = 0x09`, `wValue = 0x0380`, `wIndex = 0`,
`wLength = 2`. -/
def handshake_setup_pkt : List Nat := [0x21, 0x09, 0x80, 0x03, 0x00, 0x00, 0x02, 0x00]

/-- Lines 1142-1191.  `hs_alloc_ok` and `hs_submit_ok` are the transport's answers for
the handshake transfer; `h` gives the handles and the answers for the three
`send_switch_command` calls.  The two log lines and the delays are not recorded. -/
def init_switch_controller (h : Host) (hs_alloc_ok hs_submit_ok : Bool) (sw : SwitchState) :
    SwitchState × List PadEvent :=
  if h.dev_hdl.isNone || h.client_hdl.isNone then (sw, [])
  else if hs_alloc_ok && !hs_submit_ok then
    (sw, [PadEvent.control (handshake_setup_pkt ++ [0x80, 0x02]) false])
  else
    let ev0 := if hs_alloc_ok then [PadEvent.control (handshake_setup_pkt ++ [0x80, 0x02]) true]
      else []
    let a := send_switch_command h sw 0x03 [0x30]
    let b := send_switch_command h a.1 0x40 [0x01]
    let c := send_switch_command h b.1 0x30 [0x01]
    (c.1, ev0 ++ a.2 ++ b.2 ++ c.2)

/-! ## `keyboard_transfer_cb` (lines 500-506) and `touchpad_transfer_cb` (lines 632-661) -/

/-- The cast `(hid_keyboard_report_t*)transfer->data_buffer`. -/
def keyboard_report_of (t : Transfer) : hid_keyboard_report_t :=
  { modifier := t.byte 0, reserved := t.byte 1,
    keycode := ⟨t.byte 2, t.byte 3, t.byte 4, t.byte 5, t.byte 6, t.byte 7⟩ }

/-- Effects of `keyboard_transfer_cb`: those of `process_keyboard_report`, and the
resubmission. -/
inductive KeyboardCbEvent where
  /-- An effect of `process_keyboard_report`. -/
  | decoded (e : Event)
  /-- The call `usb_host_transfer_submit(transfer)`. -/
  | resubmit
deriving DecidableEq, Repr

/-- The keyboard completion callback (`sizeof(hid_keyboard_report_t)` is 8). -/
def keyboard_transfer_cb (h : Host) (s : KbState) (t : Transfer) :
    KbState × List KeyboardCbEvent :=
  if t.completed && decide (t.actual_num_bytes ≥ 8) then
    let p := process_keyboard_report h s (keyboard_report_of t)
    (p.1, p.2.map KeyboardCbEvent.decoded ++ [KeyboardCbEvent.resubmit])
  else (s, [KeyboardCbEvent.resubmit])

/-- The statics `last_buttons`, `last_x` of `touchpad_transfer_cb` and the ESPHome
globals `touchpad_clicked`, `touchpad_x` it writes (the globals of `MediaState`). -/
structure TouchpadState where
  last_buttons : Nat
  last_x : Nat
  touchpad_clicked : Bool
  touchpad_x : Int
deriving DecidableEq, Repr

/-- Effects of the touchpad path, in program order. -/
inductive TouchpadEvent where
  /-- A fixed log line ("Touchpad: Click", "Touchpad: Release"). -/
  | touch_log (line : String)
  /-- The call `id(touchpad_click_sensor).publish_state(b)`. -/
  | click_sensor (b : Bool)
  /-- The line "Touchpad: Movement X=..". -/
  | movement (x : Nat)
  /-- The call `usb_host_transfer_submit(transfer)`. -/
  | resubmit
deriving DecidableEq, Repr

/-- The touchpad completion callback. -/
def touchpad_transfer_cb (st : TouchpadState) (t : Transfer) :
    TouchpadState × List TouchpadEvent :=
  if t.completed && decide (t.actual_num_bytes ≥ 8) then
    let buttons := t.byte 0
    let x_coord := ((t.byte 4 <<< 8) ||| t.byte 3) % 65536
    let l := st.last_buttons
    let b : TouchpadState × List TouchpadEvent :=
      if buttons ≠ l then
        ({ st with
            touchpad_clicked :=
              if released buttons l 0x02 then false
              else if pressed buttons l 0x02 then true else st.touchpad_clicked
            last_buttons := buttons },
          (if pressed buttons l 0x02 then
              [TouchpadEvent.touch_log "Touchpad: Click", TouchpadEvent.click_sensor true]
            else [])
          ++ (if released buttons l 0x02 then
              [TouchpadEvent.touch_log "Touchpad: Release", TouchpadEvent.click_sensor false]
            else []))
      else (st, [])
    let m : TouchpadState × List TouchpadEvent :=
      if abs_diff x_coord b.1.last_x > 1000 then
        ({ b.1 with
            touchpad_x := (x_coord : Int)
            last_x := x_coord },
          b.2 ++ [TouchpadEvent.movement x_coord])
      else b
    (m.1, m.2 ++ [TouchpadEvent.resubmit])
  else (st, [TouchpadEvent.resubmit])

/-- The statics of `touchpad_transfer_cb` as initialised at program start, with the
touchpad globals cleared. -/
def touchpad_init : TouchpadState :=
  { last_buttons := 0, last_x := 0, touchpad_clicked := false, touchpad_x := 0 }

/-- A transfer that did not complete (any other status), holding the given bytes. -/
def failed_report (data : List Nat) : Transfer :=
  { completed := false, actual_num_bytes := data.length, data_buffer := data }

/-- The data bytes of the control transfers of a trace, in order. -/
def control_frames : List PadEvent → List (List Nat)
  | [] => []
  | PadEvent.control data _ :: es => data :: control_frames es
  | _ :: es => control_frames es

/-! ## `client_event_cb` (lines 664-942) and `setup_media_interface` (lines 1046-1098)

The walks over the configuration descriptor are not part of these definitions: their
results (`intf_desc`, `ep_desc`, `has_interface_1`) are fields of the notification
record, next to the transport's answers.  Log lines are not recorded. -/

/-- The completion callback bound to a transfer. -/
inductive Callback where
  | mouse
  | keyboard
  | gamepad
  | media
  | touchpad
deriving DecidableEq, Repr

/-- What the handlers use of a transfer kept in `active_transfers`: its endpoint address
and its callback. -/
structure Bound where
  bEndpointAddress : Nat
  callback : Callback
deriving DecidableEq, Repr

/-- The file-level statics `client_hdl`, `dev_hdl`, `active_transfers[3]`, the engine
statics, and the three lock globals written when a keyboard is attached (the globals of
`KbState`). -/
structure Session where
  client_hdl : Option Nat
  dev_hdl : Option Nat
  active_transfers0 : Option Bound
  active_transfers1 : Option Bound
  active_transfers2 : Option Bound
  sw : SwitchState
  caps_lock_state : Bool
  num_lock_state : Bool
  scroll_lock_state : Bool
deriving DecidableEq, Repr

/-- Calls into the USB host library made by the handlers, in program order. -/
inductive UsbCall where
  /-- The call `usb_host_interface_release(client_hdl, dev_hdl, intf)`. -/
  | interface_release (intf : Nat)
  /-- The call `usb_host_device_close(client_hdl, dev_hdl)`. -/
  | device_close
  /-- The call `usb_host_device_open(client_hdl, address, &dev_hdl)` and whether it
  succeeded. -/
  | device_open (address : Nat) (ok : Bool)
  /-- The call `usb_host_get_device_descriptor` and whether it succeeded. -/
  | get_device_descriptor (ok : Bool)
  /-- The call `usb_host_get_active_config_descriptor` and whether it succeeded. -/
  | get_config_descriptor (ok : Bool)
  /-- The call `usb_host_interface_claim(client_hdl, dev_hdl, intf, 0)` and whether it
  succeeded. -/
  | interface_claim (intf : Nat) (ok : Bool)
  /-- A control transfer handed to `usb_host_transfer_submit_control`: its data bytes,
  and whether the submission was accepted. -/
  | control (data : List Nat) (accepted : Bool)
  /-- An interrupt transfer handed to `usb_host_transfer_submit`, and whether the
  submission was accepted. -/
  | submit (b : Bound) (accepted : Bool)
  /-- The call `usb_host_endpoint_halt(dev_hdl, ep)`. -/
  | endpoint_halt (ep : Nat)
  /-- The call `usb_host_endpoint_flush(dev_hdl, ep)`. -/
  | endpoint_flush (ep : Nat)
  /-- The call `vTaskDelay(pdMS_TO_TICKS(ms))`. -/
  | delay (ms : Nat)
deriving DecidableEq, Repr

/-- The fields of `usb_device_desc_t` the handler decides on. -/
structure DeviceDesc where
  bDeviceClass : Nat
  idVendor : Nat
  idProduct : Nat
deriving DecidableEq, Repr

/-- The fields of the selected `usb_intf_desc_t` the handler uses after the walk. -/
structure IntfDesc where
  bInterfaceNumber : Nat
  bInterfaceProtocol : Nat
deriving DecidableEq, Repr

/-- The fields of the selected `usb_ep_desc_t` the handler uses after the walk. -/
structure EpDesc where
  bEndpointAddress : Nat
  wMaxPacketSize : Nat
deriving DecidableEq, Repr

/-- The transport's answers to `setup_media_interface`, and the result of its walk. -/
structure MediaSetup where
  config_ok : Bool
  has_interface_1 : Bool
  claim_ok : Bool
  alloc_ok : Bool
  submit_ok : Bool
deriving DecidableEq, Repr

/-- One `USB_HOST_CLIENT_EVENT_NEW_DEV` notification with everything the transport
answers while it is handled: the result of `usb_host_device_open` (`none` is an error),
of the two `usb_host_get_device_descriptor` calls, of
`usb_host_get_active_config_descriptor`, the pointers `intf_desc` and `ep_desc` left by
the walks of lines 711-784 (`none` is the null pointer), and the answers to the claim,
the allocations and the submissions. -/
structure NewDev where
  address : Nat
  open_result : Option Nat
  dev_desc : Option DeviceDesc
  config_ok : Bool
  intf_desc : Option IntfDesc
  ep_desc : Option EpDesc
  claim_ok : Bool
  idle_alloc_ok : Bool
  idle_submit_ok : Bool
  proto_alloc_ok : Bool
  proto_submit_ok : Bool
  alloc_ok : Bool
  submit_ok : Bool
  dev_desc2 : Option DeviceDesc
  hs_alloc_ok : Bool
  hs_submit_ok : Bool
  cmd_alloc_ok : Bool
  cmd_submit_ok : Bool
  media : MediaSetup
deriving DecidableEq, Repr

/-- The control transfers of a vendor-engine trace as transport calls. -/
def engine_calls : List PadEvent → List UsbCall
  | [] => []
  | PadEvent.control data accepted :: es => UsbCall.control data accepted :: engine_calls es
  | _ :: es => engine_calls es

/-- Lines 918-923, the body of the loop over `active_transfers`: a bound slot has its
endpoint halted and flushed, followed by a 10 ms delay; an empty slot is skipped. -/
def halt_calls : Option Bound → List UsbCall
  | some x => [UsbCall.endpoint_halt x.bEndpointAddress,
      UsbCall.endpoint_flush x.bEndpointAddress, UsbCall.delay 10]
  | none => []

/-- Lines 913-938: the handler of `USB_HOST_CLIENT_EVENT_DEV_GONE`. -/
def client_event_dev_gone (s : Session) : Session × List UsbCall :=
  match s.dev_hdl with
  | none => (s, [])
  | some _ =>
    ({ s with
        active_transfers0 := none
        active_transfers1 := none
        active_transfers2 := none
        dev_hdl := none
        sw := { s.sw with is_official_switch := false } },
      halt_calls s.active_transfers0 ++ halt_calls s.active_transfers1
      ++ halt_calls s.active_transfers2
      ++ [UsbCall.interface_release 0, UsbCall.interface_release 1,
          UsbCall.interface_release 2, UsbCall.device_close])

/-- Lines 1046-1098: `setup_media_interface`. -/
def setup_media_interface (s : Session) (m : MediaSetup) : Session × List UsbCall :=
  if s.dev_hdl.isNone || s.client_hdl.isNone then (s, [])
  else if !m.config_ok then (s, [UsbCall.get_config_descriptor false])
  else if !m.has_interface_1 then (s, [UsbCall.get_config_descriptor true])
  else if !m.claim_ok then
    (s, [UsbCall.get_config_descriptor true, UsbCall.interface_claim 1 false])
  else if !m.alloc_ok then
    (s, [UsbCall.get_config_descriptor true, UsbCall.interface_claim 1 true])
  else if !m.submit_ok then
    (s, [UsbCall.get_config_descriptor true, UsbCall.interface_claim 1 true,
      UsbCall.submit ⟨0x82, Callback.media⟩ false])
  else
    ({ s with active_transfers1 := some ⟨0x82, Callback.media⟩ },
      [UsbCall.get_config_descriptor true, UsbCall.interface_claim 1 true,
        UsbCall.submit ⟨0x82, Callback.media⟩ true])

/-- Lines 803-852: SET_IDLE and SET_PROTOCOL(boot) on the claimed interface, each
followed by a 50 ms delay when its transfer could be allocated. -/
def boot_protocol_requests (d : NewDev) (intf : IntfDesc) : List UsbCall :=
  (if d.idle_alloc_ok then
      [UsbCall.control [0x21, 0x0A, 0x00, 0x00, intf.bInterfaceNumber % 256,
          intf.bInterfaceNumber / 256, 0x00, 0x00] d.idle_submit_ok, UsbCall.delay 50]
    else [])
  ++ (if d.proto_alloc_ok then
      [UsbCall.control [0x21, 0x0B, 0x00, 0x00, intf.bInterfaceNumber % 256,
          intf.bInterfaceNumber / 256, 0x00, 0x00] d.proto_submit_ok, UsbCall.delay 50]
    else [])

/-- Lines 865-871: the callback chosen by the interface protocol. -/
def callback_of (proto : Nat) : Callback :=
  if proto = 0x02 then Callback.mouse
  else if proto = 0x01 then Callback.keyboard
  else Callback.gamepad

/-- Lines 881-904: what follows a successful first submission, by interface protocol:
nothing for a mouse, the lock globals cleared for a keyboard, and for anything else the
check for the vendor controller 057E:2009 with its initialisation. -/
def after_first_submit (s : Session) (d : NewDev) (intf : IntfDesc) : Session × List UsbCall :=
  if intf.bInterfaceProtocol = 0x02 then (s, [])
  else if intf.bInterfaceProtocol = 0x01 then
    ({ s with
        caps_lock_state := false
        num_lock_state := false
        scroll_lock_state := false }, [])
  else
    match d.dev_desc2 with
    | none => (s, [UsbCall.get_device_descriptor false])
    | some dd =>
      if dd.idVendor = 0x057E ∧ dd.idProduct = 0x2009 then
        let i := init_switch_controller
          { dev_hdl := s.dev_hdl, client_hdl := s.client_hdl, alloc_ok := d.cmd_alloc_ok,
            submit_ok := d.cmd_submit_ok }
          d.hs_alloc_ok d.hs_submit_ok { s.sw with is_official_switch := true }
        ({ s with sw := i.1 },
          [UsbCall.get_device_descriptor true, UsbCall.delay 50] ++ engine_calls i.2)
      else (s, [UsbCall.get_device_descriptor true])

/-- Lines 700-910: the handling of a device of class 0x03 or 0x00 once it is open and
its device descriptor read. -/
def attach_hid (s : Session) (d : NewDev) : Session × List UsbCall :=
  if !d.config_ok then (s, [UsbCall.get_config_descriptor false])
  else
    match d.intf_desc, d.ep_desc with
    | none, _ => (s, [UsbCall.get_config_descriptor true])
    | some _, none => (s, [UsbCall.get_config_descriptor true])
    | some intf, some ep =>
      if !d.claim_ok then
        (s, [UsbCall.get_config_descriptor true,
          UsbCall.interface_claim intf.bInterfaceNumber false])
      else
        let ev := [UsbCall.get_config_descriptor true,
            UsbCall.interface_claim intf.bInterfaceNumber true]
          ++ (if intf.bInterfaceProtocol = 0x01 ∨ intf.bInterfaceProtocol = 0x02
              then boot_protocol_requests d intf else [])
        if !d.alloc_ok then (s, ev)
        else
          let b : Bound := ⟨ep.bEndpointAddress, callback_of intf.bInterfaceProtocol⟩
          if !d.submit_ok then (s, ev ++ [UsbCall.submit b false])
          else
            let a := after_first_submit { s with active_transfers0 := some b } d intf
            let m := setup_media_interface a.1 d.media
            (m.1, ev ++ [UsbCall.submit b true] ++ a.2 ++ [UsbCall.delay 50] ++ m.2)

/-- Lines 666-912: the handler of `USB_HOST_CLIENT_EVENT_NEW_DEV`. -/
def client_event_new_dev (s : Session) (d : NewDev) : Session × List UsbCall :=
  let c : Session × List UsbCall :=
    match s.dev_hdl with
    | some _ =>
      ({ s with dev_hdl := none },
        [UsbCall.interface_release 0, UsbCall.interface_release 1,
          UsbCall.interface_release 2, UsbCall.device_close, UsbCall.delay 100])
    | none => (s, [])
  match d.open_result with
  | none => (c.1, c.2 ++ [UsbCall.device_open d.address false])
  | some hdl =>
    let s2 : Session := { c.1 with dev_hdl := some hdl }
    match d.dev_desc with
    | none =>
      (s2, c.2 ++ [UsbCall.device_open d.address true, UsbCall.get_device_descriptor false])
    | some dd =>
      if dd.bDeviceClass = 0x03 ∨ dd.bDeviceClass = 0x00 then
        let a := attach_hid s2 d
        (a.1, c.2 ++ [UsbCall.device_open d.address true, UsbCall.get_device_descriptor true]
          ++ a.2)
      else
        (s2, c.2 ++ [UsbCall.device_open d.address true, UsbCall.get_device_descriptor true])

/-- The two notifications handled by `client_event_cb`. -/
inductive ClientEvent where
  | new_dev (d : NewDev)
  | dev_gone
deriving DecidableEq, Repr

/-- The callback `client_event_cb`. -/
def client_event_cb (s : Session) : ClientEvent → Session × List UsbCall
  | ClientEvent.new_dev d => client_event_new_dev s d
  | ClientEvent.dev_gone => client_event_dev_gone s

/-- Handle a sequence of notifications, collecting the transport calls. -/
def client_events (s : Session) : List ClientEvent → Session × List UsbCall
  | [] => (s, [])
  | e :: rest =>
    let a := client_event_cb s e
    let b := client_events a.1 rest
    (b.1, a.2 ++ b.2)

/-- The statics at program start, once the client is registered: no device, no bound
transfer, the engine statics of program start, the lock globals off. -/
def session_init : Session :=
  { client_hdl := some 1, dev_hdl := none, active_transfers0 := none,
    active_transfers1 := none, active_transfers2 := none, sw := switch_init,
    caps_lock_state := false, num_lock_state := false, scroll_lock_state := false }

/-- A gamepad-like device (device class 0, one HID interface 0 with protocol 0 and an
interrupt IN endpoint 0x81 of 64 bytes, no interface 1) with the given vendor and
product ids, for which every transport call succeeds and opens handle `hdl`. -/
def gamepad_attach (hdl idVendor idProduct : Nat) : NewDev :=
  { address := 1, open_result := some hdl,
    dev_desc := some ⟨0x00, idVendor, idProduct⟩, config_ok := true,
    intf_desc := some ⟨0, 0⟩, ep_desc := some ⟨0x81, 64⟩, claim_ok := true,
    idle_alloc_ok := true, idle_submit_ok := true, proto_alloc_ok := true,
    proto_submit_ok := true, alloc_ok := true, submit_ok := true,
    dev_desc2 := some ⟨0x00, idVendor, idProduct⟩, hs_alloc_ok := true, hs_submit_ok := true,
    cmd_alloc_ok := true, cmd_submit_ok := true,
    media := ⟨true, false, true, true, true⟩ }

/-! ## The walks over the configuration descriptor (lines 714-784, 1053-1065, 1234-1255)

The configuration descriptor is the memory at `config_desc`, read by the walks through
a pointer `(uint8_t *)config_desc + offset`.  The structure declarations and the
descriptor type constants belong to the host library, so the model keeps what a read
through such a pointer yields as a record and the type code as a three-valued type.
A loop is its body, run under a bound on the number of iterations: `none` says the loop
is still running when the bound is reached. -/

/-- The field `bDescriptorType` compared with the two constants the walks use,
`USB_B_DESCRIPTOR_TYPE_INTERFACE` and `USB_B_DESCRIPTOR_TYPE_ENDPOINT`. -/
inductive DescriptorType where
  | interface
  | endpoint
  | other
deriving DecidableEq, Repr

/-- What the walks read through a pointer into the descriptor: the two fields of
`usb_standard_desc_t`, and the fields read after the cast to `usb_intf_desc_t` or to
`usb_ep_desc_t`. -/
structure StdDesc where
  bLength : Nat
  bDescriptorType : DescriptorType
  bInterfaceNumber : Nat
  bInterfaceClass : Nat
  bInterfaceProtocol : Nat
  bEndpointAddress : Nat
  bmAttributes : Nat
  wMaxPacketSize : Nat
deriving DecidableEq, Repr

/-- The configuration descriptor: its field `wTotalLength` and what is read at each
byte offset from `config_desc`. -/
structure ConfigDesc where
  wTotalLength : Nat
  desc_at : Nat → StdDesc

/-- A `while` loop with an exit value: `body` maps the loop variables either to their
values for the next iteration (`Sum.inl`) or to the value the loop is left with
(`Sum.inr`); `none` when the loop has not been left after `fuel` iterations. -/
def run_loop {σ ρ : Type} (body : σ → σ ⊕ ρ) : Nat → σ → Option ρ
  | 0, _ => none
  | fuel + 1, s =>
    match body s with
    | Sum.inl s1 => run_loop body fuel s1
    | Sum.inr r => some r

/-- Lines 718-743, one iteration on `offset`: the loop is left with `intf_desc` at the
first interface descriptor of class 0x03 numbered 0, or with the null pointer at the
end of the table. -/
def primary_body (c : ConfigDesc) (offset : Nat) : Nat ⊕ Option Nat :=
  if offset < c.wTotalLength then
    if (c.desc_at offset).bDescriptorType = DescriptorType.interface
        ∧ (c.desc_at offset).bInterfaceClass = 0x03
        ∧ (c.desc_at offset).bInterfaceNumber = 0 then
      Sum.inr (some offset)
    else Sum.inl (offset + (c.desc_at offset).bLength)
  else Sum.inr none

/-- Lines 749-760, one iteration of the fallback walk: any interface descriptor of
class 0x03. -/
def fallback_body (c : ConfigDesc) (offset : Nat) : Nat ⊕ Option Nat :=
  if offset < c.wTotalLength then
    if (c.desc_at offset).bDescriptorType = DescriptorType.interface
        ∧ (c.desc_at offset).bInterfaceClass = 0x03 then
      Sum.inr (some offset)
    else Sum.inl (offset + (c.desc_at offset).bLength)
  else Sum.inr none

/-- Lines 714-766: the offset of `intf_desc` after the first walk and, when that leaves
the null pointer, after the fallback walk. -/
def select_interface (c : ConfigDesc) (fuel : Nat) : Option (Option Nat) :=
  match run_loop (primary_body c) fuel 0 with
  | none => none
  | some (some intf) => some (some intf)
  | some none => run_loop (fallback_body c) fuel 0

/-- Lines 775-776: the test for an interrupt IN endpoint. -/
def is_interrupt_in (d : StdDesc) : Bool :=
  (d.bEndpointAddress &&& 0x80 != 0) && (d.bmAttributes &&& 0x03 == 0x03)

/-- Lines 770-784, one iteration on `offset` and `ep_desc`: every endpoint descriptor
met is stored in `ep_desc` before it is tested; the loop is left at an interrupt IN
endpoint, at the next interface descriptor, or at the end of the table. -/
def endpoint_body (c : ConfigDesc) (s : Nat × Option Nat) : (Nat × Option Nat) ⊕ Option Nat :=
  if s.1 < c.wTotalLength then
    if (c.desc_at s.1).bDescriptorType = DescriptorType.endpoint then
      if is_interrupt_in (c.desc_at s.1) then Sum.inr (some s.1)
      else Sum.inl (s.1 + (c.desc_at s.1).bLength, some s.1)
    else if (c.desc_at s.1).bDescriptorType = DescriptorType.interface then Sum.inr s.2
    else Sum.inl (s.1 + (c.desc_at s.1).bLength, s.2)
  else Sum.inr s.2

/-- Lines 769-784: the offset of `ep_desc` after the walk that starts behind the
interface descriptor at offset `intf`. -/
def find_endpoint (c : ConfigDesc) (fuel : Nat) (intf : Nat) : Option (Option Nat) :=
  run_loop (endpoint_body c) fuel (intf + (c.desc_at intf).bLength, none)

/-- Lines 1055-1065 of `setup_media_interface`, one iteration: the loop is left with
`has_interface_1`. -/
def interface_1_body (c : ConfigDesc) (offset : Nat) : Nat ⊕ Bool :=
  if offset < c.wTotalLength then
    if (c.desc_at offset).bDescriptorType = DescriptorType.interface
        ∧ (c.desc_at offset).bInterfaceNumber = 1 then
      Sum.inr true
    else Sum.inl (offset + (c.desc_at offset).bLength)
  else Sum.inr false

/-- Lines 1053-1065: `has_interface_1`. -/
def has_interface_1 (c : ConfigDesc) (fuel : Nat) : Option Bool :=
  run_loop (interface_1_body c) fuel 0

/-- Lines 1238-1255 of `setup_mouse_interface`, one iteration on `offset`, `intf_desc`
and `ep_desc`: the loop is left with the two pointers. -/
def interface_2_body (c : ConfigDesc) (s : Nat × Option Nat × Option Nat) :
    (Nat × Option Nat × Option Nat) ⊕ (Option Nat × Option Nat) :=
  if s.1 < c.wTotalLength then
    if (c.desc_at s.1).bDescriptorType = DescriptorType.interface then
      if (c.desc_at s.1).bInterfaceNumber = 2 then
        Sum.inl (s.1 + (c.desc_at s.1).bLength, some s.1, s.2.2)
      else Sum.inl (s.1 + (c.desc_at s.1).bLength, s.2.1, s.2.2)
    else if (c.desc_at s.1).bDescriptorType = DescriptorType.endpoint ∧ s.2.1.isSome then
      if is_interrupt_in (c.desc_at s.1) then Sum.inr (s.2.1, some s.1)
      else Sum.inl (s.1 + (c.desc_at s.1).bLength, s.2.1, some s.1)
    else Sum.inl (s.1 + (c.desc_at s.1).bLength, s.2.1, s.2.2)
  else Sum.inr (s.2.1, s.2.2)

/-- Lines 1234-1255: `intf_desc` and `ep_desc` of `setup_mouse_interface` after its
walk. -/
def find_interface_2 (c : ConfigDesc) (fuel : Nat) : Option (Option Nat × Option Nat) :=
  run_loop (interface_2_body c) fuel (0, none, none)

/-- The fields of an interface descriptor the handler uses after the walk. -/
def intf_of (d : StdDesc) : IntfDesc :=
  { bInterfaceNumber := d.bInterfaceNumber, bInterfaceProtocol := d.bInterfaceProtocol }

/-- The fields of an endpoint descriptor the handler uses after the walk. -/
def ep_of (d : StdDesc) : EpDesc :=
  { bEndpointAddress := d.bEndpointAddress, wMaxPacketSize := d.wMaxPacketSize }

/-- The notification `d` with the results of the walks over the table `c` in its
fields `intf_desc`, `ep_desc` and `media.has_interface_1`; `none` when a walk is still
running after `fuel` iterations. -/
def new_dev_on (c : ConfigDesc) (fuel : Nat) (d : NewDev) : Option NewDev :=
  match select_interface c fuel with
  | none => none
  | some none =>
    match has_interface_1 c fuel with
    | none => none
    | some m =>
      some { d with
        intf_desc := none
        ep_desc := none
        media := { d.media with has_interface_1 := m } }
  | some (some intf) =>
    match find_endpoint c fuel intf, has_interface_1 c fuel with
    | some ep, some m =>
      some { d with
        intf_desc := some (intf_of (c.desc_at intf))
        ep_desc := ep.map (fun o => ep_of (c.desc_at o))
        media := { d.media with has_interface_1 := m } }
    | _, _ => none

/-- A record that is neither an interface nor an endpoint descriptor (the configuration
header, a HID class descriptor), of the given length. -/
def other_rec (bLength : Nat) : StdDesc :=
  { bLength := bLength, bDescriptorType := DescriptorType.other, bInterfaceNumber := 0,
    bInterfaceClass := 0, bInterfaceProtocol := 0, bEndpointAddress := 0, bmAttributes := 0,
    wMaxPacketSize := 0 }

/-- An interface descriptor (9 bytes). -/
def intf_rec (number cls protocol : Nat) : StdDesc :=
  { bLength := 9, bDescriptorType := DescriptorType.interface, bInterfaceNumber := number,
    bInterfaceClass := cls, bInterfaceProtocol := protocol, bEndpointAddress := 0,
    bmAttributes := 0, wMaxPacketSize := 0 }

/-- An endpoint descriptor (7 bytes). -/
def ep_rec (address attributes size : Nat) : StdDesc :=
  { bLength := 7, bDescriptorType := DescriptorType.endpoint, bInterfaceNumber := 0,
    bInterfaceClass := 0, bInterfaceProtocol := 0, bEndpointAddress := address,
    bmAttributes := attributes, wMaxPacketSize := size }

/-- What is read at `offset` in a table laid out as the records `recs` one after the
other: the record that starts there (the first such one when records of length 0 share
the offset), and an `other` record of length 0 inside a record or behind the table. -/
def view_at : List StdDesc → Nat → StdDesc
  | [], _ => other_rec 0
  | r :: rest, offset =>
    if offset = 0 then r
    else if offset < r.bLength then other_rec 0
    else view_at rest (offset - r.bLength)

/-- The configuration descriptor laid out as the records `recs`, with `wTotalLength` the
sum of their lengths. -/
def table_of (recs : List StdDesc) : ConfigDesc :=
  { wTotalLength := (recs.map (fun r => r.bLength)).sum, desc_at := view_at recs }

/-- The interface numbers handed to `usb_host_interface_claim` in a trace. -/
def claimed : List UsbCall → List Nat
  | [] => []
  | UsbCall.interface_claim intf _ :: es => intf :: claimed es
  | _ :: es => claimed es

/-- The transfers handed to `usb_host_transfer_submit` in a trace. -/
def submitted : List UsbCall → List Bound
  | [] => []
  | UsbCall.submit b _ :: es => b :: submitted es
  | _ :: es => submitted es

/-- The endpoints halted or flushed in a trace. -/
def halted : List UsbCall → List Nat
  | [] => []
  | UsbCall.endpoint_halt ep :: es => ep :: halted es
  | UsbCall.endpoint_flush ep :: es => ep :: halted es
  | _ :: es => halted es

/-- The first record of `recs`, in table order, that satisfies `p`, with its offset from
`base`. -/
def locate (p : StdDesc → Bool) : List StdDesc → Nat → Option (Nat × StdDesc)
  | [], _ => none
  | r :: rest, base => if p r then some (base, r) else locate p rest (base + r.bLength)

/-- The claim's wording of the primary test: an interface descriptor of class 0x03
numbered 0. -/
def is_hid_interface_0 (d : StdDesc) : Bool :=
  d.bDescriptorType == DescriptorType.interface && d.bInterfaceClass == 0x03
    && d.bInterfaceNumber == 0

/-- The claim's wording of the fallback test: an interface descriptor of class 0x03. -/
def is_hid_interface (d : StdDesc) : Bool :=
  d.bDescriptorType == DescriptorType.interface && d.bInterfaceClass == 0x03

/-- Lines 669-678: the cleanup of a device that is still open when a new one is
announced. -/
def new_dev_cleanup (s : Session) : Session × List UsbCall :=
  match s.dev_hdl with
  | some _ =>
    ({ s with dev_hdl := none },
      [UsbCall.interface_release 0, UsbCall.interface_release 1,
        UsbCall.interface_release 2, UsbCall.device_close, UsbCall.delay 100])
  | none => (s, [])

/-- Whether the handler reaches line 881: the device opened, its descriptor read, its
class accepted, the configuration read, interface and endpoint selected, and the claim,
the allocation and the first submission all successful. -/
def primary_bound (d : NewDev) : Bool :=
  d.open_result.isSome
    && (match d.dev_desc with
        | some dd => dd.bDeviceClass == 0x03 || dd.bDeviceClass == 0x00
        | none => false)
    && d.config_ok && d.intf_desc.isSome && d.ep_desc.isSome
    && d.claim_ok && d.alloc_ok && d.submit_ok

/-- A boot keyboard with a media interface (device class 0, HID interface 0 with
protocol 1 and an interrupt IN endpoint 0x81 of 8 bytes, and an interface 1), for which
every transport call succeeds and opens handle `hdl`. -/
def keyboard_attach (hdl : Nat) : NewDev :=
  { address := 1, open_result := some hdl,
    dev_desc := some ⟨0x00, 0x046D, 0xC31C⟩, config_ok := true,
    intf_desc := some ⟨0, 1⟩, ep_desc := some ⟨0x81, 8⟩, claim_ok := true,
    idle_alloc_ok := true, idle_submit_ok := true, proto_alloc_ok := true,
    proto_submit_ok := true, alloc_ok := true, submit_ok := true,
    dev_desc2 := some ⟨0x00, 0x046D, 0xC31C⟩, hs_alloc_ok := true, hs_submit_ok := true,
    cmd_alloc_ok := true, cmd_submit_ok := true,
    media := ⟨true, true, true, true, true⟩ }

/-- The table of a composite device: the configuration header, then the HID interfaces
0, 1 and 2, each with its HID class descriptor and one interrupt IN endpoint (0x81,
0x82, 0x83). -/
def composite_table : List StdDesc :=
  [other_rec 9,
   intf_rec 0 0x03 0, other_rec 9, ep_rec 0x81 0x03 64,
   intf_rec 1 0x03 0, other_rec 9, ep_rec 0x82 0x03 8,
   intf_rec 2 0x03 0, other_rec 9, ep_rec 0x83 0x03 8]

/-! ## The claim's wording of the slot body -/

/-- The claim's wording of handling a code, on the globals: a lock code (0x39, 0x53,
0x47) toggles its lock state, ESC and Enter set their flags, and the character the code
maps to under the current lock states and the shift of the report edits the text buffer
(`buffer_after`; lock and media codes map to no character). -/
def key_effect (shift : Bool) (s : KbState) (k : Nat) : KbState :=
  { s with
    caps_lock_state := xor s.caps_lock_state (k == 0x39)
    num_lock_state := xor s.num_lock_state (k == 0x53)
    scroll_lock_state := xor s.scroll_lock_state (k == 0x47)
    keyboard_esc_pressed := s.keyboard_esc_pressed || (k == 0x29)
    keyboard_enter_pressed := s.keyboard_enter_pressed || (k == 0x28)
    keyboard_buffer :=
      buffer_after s.keyboard_buffer (hid_to_ascii s.caps_lock_state s.num_lock_state k shift) }

/-- The claim's wording of the media match of a handled code: the name in the table of
lines 172-199, for a code that is not one of the three lock codes (0x47 is taken as
Scroll Lock before the table is consulted). -/
def media_match (k : Nat) : Option (String × Nat) :=
  if k = 0x39 ∨ k = 0x53 ∨ k = 0x47 then none
  else (media_key k).map (fun name => (name, k))

/-- The "Media key pressed" lines of one call: name and code. -/
def media_events : List Event → List (String × Nat)
  | [] => []
  | Event.media_key name k :: es => (name, k) :: media_events es
  | _ :: es => media_events es

/-- The lock codes for which a "Lock pressed" line was written during one call. -/
def toggled_locks : List Event → List Nat
  | [] => []
  | Event.lock_toggled k _ :: es => k :: toggled_locks es
  | _ :: es => toggled_locks es

/-! ## Lemmas -/

/-! ### The slot body -/

theorem media_key_some (k : Nat) (n : String) (h : media_key k = some n) :
    k ∈ [0x81, 0x82, 0x83, 0xB5, 0xB6, 0xB7, 0xCD, 0x65, 0x66, 0x67, 0x68, 0x8A, 0x94, 0x92,
      0x40, 0x41, 0x42, 0x43, 0x44, 0x45, 0x46, 0x47, 0x48, 0x49, 0x4A, 0x4B] := by
  unfold media_key at h
  split at h <;> simp_all

theorem hid_to_ascii_media (caps num shift : Bool) (k : Nat) (n : String)
    (h : media_key k = some n) : hid_to_ascii caps num k shift = 0 := by
  have hk := media_key_some k n h
  simp only [List.mem_cons, List.mem_singleton, List.not_mem_nil, or_false] at hk
  rcases hk with h | h | h | h | h | h | h | h | h | h | h | h | h | h | h | h | h | h | h | h
    | h | h | h | h | h | h <;> subst h <;> rfl

/-- The state after the slot body, field by field. -/
theorem handle_key_state (h : Host) (shift : Bool) (s : KbState) (k : Nat) :
    (handle_key h shift s k).1 =
      { s with
        caps_lock_state := xor s.caps_lock_state (k == 0x39)
        num_lock_state := xor s.num_lock_state (k == 0x53)
        scroll_lock_state := xor s.scroll_lock_state (k == 0x47)
        keyboard_esc_pressed := s.keyboard_esc_pressed || (k == 0x29)
        keyboard_enter_pressed := s.keyboard_enter_pressed || (k == 0x28)
        keyboard_buffer :=
          buffer_after s.keyboard_buffer (hid_to_ascii s.caps_lock_state s.num_lock_state k shift) } := by
  obtain ⟨pk, ps, caps, num, scroll, esc, enter, buf⟩ := s
  by_cases h39 : k = 0x39
  · subst h39; simp [handle_key, hid_to_ascii, buffer_after]
  by_cases h53 : k = 0x53
  · subst h53; simp [handle_key, hid_to_ascii, buffer_after]
  by_cases h47 : k = 0x47
  · subst h47; simp [handle_key, hid_to_ascii, buffer_after]
  have e39 : (k == 0x39) = false := by simpa using h39
  have e53 : (k == 0x53) = false := by simpa using h53
  have e47 : (k == 0x47) = false := by simpa using h47
  cases hm : media_key k with
  | some n =>
    have hz := hid_to_ascii_media caps num shift k n hm
    have hk := media_key_some k n hm
    have h29 : (k == 0x29) = false := by
      rw [beq_eq_false_iff_ne]; rintro rfl; simp at hk
    have h28 : (k == 0x28) = false := by
      rw [beq_eq_false_iff_ne]; rintro rfl; simp at hk
    simp [handle_key, h39, h53, h47, hm, hz, buffer_after, e39, e53, e47, h29, h28]
  | none =>
    by_cases h29 : k = 0x29
    · subst h29; simp [handle_key, hid_to_ascii, buffer_after, media_key]
    by_cases h28 : k = 0x28
    · subst h28; simp [handle_key, hid_to_ascii, buffer_after, media_key, apply_ascii]
    have e29 : (k == 0x29) = false := by simpa using h29
    have e28 : (k == 0x28) = false := by simpa using h28
    simp only [handle_key, h39, h53, h47, hm, h29, h28, if_false]
    generalize hid_to_ascii caps num k shift = c
    by_cases c0 : c = 0
    · simp [c0, buffer_after, e39, e53, e47, e29, e28]
    by_cases c8 : c = 8
    · subst c8
      cases buf <;> simp [apply_ascii, buffer_after, e39, e53, e47, e29, e28]
    by_cases c10 : c = 10
    · simp [c10, apply_ascii, buffer_after, e39, e53, e47, e29, e28]
    simp [c0, c8, c10, apply_ascii, buffer_after, e39, e53, e47, e29, e28]

theorem handled_keys_append (a b : List Event) :
    handled_keys (a ++ b) = handled_keys a ++ handled_keys b := by
  induction a with
  | nil => rfl
  | cons e a ih => cases e <;> simp [handled_keys, ih]

theorem published_texts_append (a b : List Event) :
    published_texts (a ++ b) = published_texts a ++ published_texts b := by
  induction a with
  | nil => rfl
  | cons e a ih => cases e <;> simp [published_texts, ih]

theorem handled_keys_leds (h : Host) (s : KbState) :
    handled_keys (update_keyboard_leds h s) = [] := by
  unfold update_keyboard_leds
  split_ifs <;> rfl

theorem published_texts_leds (h : Host) (s : KbState) :
    published_texts (update_keyboard_leds h s) = [] := by
  unfold update_keyboard_leds
  split_ifs <;> rfl

theorem handled_keys_apply_ascii (s : KbState) (c : Nat) :
    handled_keys (apply_ascii s c).2 = [] := by
  unfold apply_ascii
  split_ifs <;> rfl

/-- The slot body writes exactly one "Key detected" line, for its own code. -/
theorem handled_keys_handle_key (h : Host) (shift : Bool) (s : KbState) (k : Nat) :
    handled_keys (handle_key h shift s k).2 = [k] := by
  by_cases h39 : k = 0x39
  · simp [handle_key, h39, handled_keys, handled_keys_append, handled_keys_leds]
  by_cases h53 : k = 0x53
  · simp [handle_key, h53, handled_keys, handled_keys_append, handled_keys_leds]
  by_cases h47 : k = 0x47
  · simp [handle_key, h47, handled_keys, handled_keys_append, handled_keys_leds]
  cases hm : media_key k with
  | some n => simp [handle_key, h39, h53, h47, hm, handled_keys]
  | none =>
    by_cases h29 : k = 0x29
    · subst h29
      simp [handle_key, hid_to_ascii, media_key, handled_keys]
    by_cases h28 : k = 0x28
    · subst h28
      simp [handle_key, hid_to_ascii, media_key, handled_keys, apply_ascii]
    simp only [handle_key, h39, h53, h47, hm, h29, h28, if_false]
    generalize hid_to_ascii s.caps_lock_state s.num_lock_state k shift = c
    by_cases c0 : c = 0
    · simp [c0, handled_keys]
    · simp [c0, handled_keys, handled_keys_append, handled_keys_apply_ascii]

theorem is_new_congr (s t : KbState) (shift : Bool) (k : Nat)
    (hk : t.prev_keys = s.prev_keys) (hs : t.prev_shift = s.prev_shift) :
    is_new t shift k = is_new s shift k := by
  simp [is_new, hk, hs]

theorem process_slot_eq (h : Host) (shift : Bool) (acc : KbState × List Event) (k : Nat) :
    process_slot h shift acc k =
      if (k != 0 && is_new acc.1 shift k) = true then
        ((handle_key h shift acc.1 k).1, acc.2 ++ (handle_key h shift acc.1 k).2)
      else acc := by
  unfold process_slot is_new
  by_cases h0 : k = 0
  · simp [h0]
  · by_cases hn : (!was_pressed acc.1.prev_keys k || (shift != acc.1.prev_shift)) = true
    · simp [h0, hn]
    · simp [h0, hn]

/-- What the outer loop leaves behind: the statics are untouched, the handled codes are
the non-zero slots passing the new-key test, and the Enter/ESC flags are raised by a
handled 0x28 / 0x29. -/
theorem fold_spec (h : Host) (shift : Bool) (l : List Nat) :
    ∀ (s : KbState) (ev : List Event),
      (l.foldl (process_slot h shift) (s, ev)).1.prev_keys = s.prev_keys
      ∧ (l.foldl (process_slot h shift) (s, ev)).1.prev_shift = s.prev_shift
      ∧ handled_keys (l.foldl (process_slot h shift) (s, ev)).2
          = handled_keys ev ++ l.filter (fun k => k != 0 && is_new s shift k)
      ∧ (l.foldl (process_slot h shift) (s, ev)).1.keyboard_enter_pressed
          = (s.keyboard_enter_pressed || l.any (fun k => k == 0x28 && is_new s shift k))
      ∧ (l.foldl (process_slot h shift) (s, ev)).1.keyboard_esc_pressed
          = (s.keyboard_esc_pressed || l.any (fun k => k == 0x29 && is_new s shift k)) := by
  induction l with
  | nil => intro s ev; simp
  | cons k l ih =>
    intro s ev
    rw [List.foldl_cons, process_slot_eq]
    by_cases hn : (k != 0 && is_new s shift k) = true
    · have hst := handle_key_state h shift s k
      have hpk : (handle_key h shift s k).1.prev_keys = s.prev_keys := by rw [hst]
      have hps : (handle_key h shift s k).1.prev_shift = s.prev_shift := by rw [hst]
      have hen : (handle_key h shift s k).1.keyboard_enter_pressed
          = (s.keyboard_enter_pressed || (k == 0x28)) := by rw [hst]
      have hes : (handle_key h shift s k).1.keyboard_esc_pressed
          = (s.keyboard_esc_pressed || (k == 0x29)) := by rw [hst]
      have hnew : is_new s shift k = true := by
        simp only [Bool.and_eq_true] at hn; exact hn.2
      rw [if_pos hn]
      obtain ⟨i1, i2, i3, i4, i5⟩ := ih (handle_key h shift s k).1 (ev ++ (handle_key h shift s k).2)
      have hcg : ∀ c, is_new (handle_key h shift s k).1 shift c = is_new s shift c :=
        fun c => is_new_congr _ _ _ _ hpk hps
      simp only [hcg] at i3 i4 i5
      refine ⟨i1.trans hpk, i2.trans hps, ?_, ?_, ?_⟩
      · rw [i3, handled_keys_append, handled_keys_handle_key, List.filter_cons, hn]
        simp
      · rw [i4, hen, List.any_cons, hnew]
        simp [Bool.or_assoc]
      · rw [i5, hes, List.any_cons, hnew]
        simp [Bool.or_assoc]
    · rw [if_neg hn]
      obtain ⟨i1, i2, i3, i4, i5⟩ := ih s ev
      refine ⟨i1, i2, ?_, ?_, ?_⟩
      · rw [i3, List.filter_cons]; simp [hn]
      · rw [i4, List.any_cons]
        have : (k == 0x28 && is_new s shift k) = false := by
          by_cases hk : k = 0x28
          · subst hk; simpa using hn
          · simp [hk]
        simp [this]
      · rw [i5, List.any_cons]
        have : (k == 0x29 && is_new s shift k) = false := by
          by_cases hk : k = 0x29
          · subst hk; simpa using hn
          · simp [hk]
        simp [this]

theorem was_pressed_iff (pk : Keys) (k : Nat) : was_pressed pk k = true ↔ k ∈ pk.toList := by
  unfold was_pressed
  rw [List.any_eq_true]
  constructor
  · rintro ⟨p, hp, he⟩
    have : p = k := by simpa using he
    exact this ▸ hp
  · intro hk
    exact ⟨k, hk, by simp⟩

theorem is_new_iff (s : KbState) (shift : Bool) (k : Nat) :
    is_new s shift k = true ↔ (k ∉ s.prev_keys.toList ∨ shift ≠ s.prev_shift) := by
  unfold is_new
  rw [Bool.or_eq_true, ← was_pressed_iff]
  simp

/-- The outer loop changes neither the buffer nor the published texts when every slot
is empty, fails the new-key test, or is the Caps Lock code. -/
theorem fold_buffer_frame (h : Host) (shift : Bool) (l : List Nat) :
    ∀ (s : KbState) (ev : List Event),
      (∀ k ∈ l, k = 0 ∨ is_new s shift k = false ∨ k = 0x39) →
      (l.foldl (process_slot h shift) (s, ev)).1.keyboard_buffer = s.keyboard_buffer
      ∧ published_texts (l.foldl (process_slot h shift) (s, ev)).2 = published_texts ev := by
  induction l with
  | nil => intro s ev _; simp
  | cons k l ih =>
    intro s ev hl
    rw [List.foldl_cons, process_slot_eq]
    by_cases hn : (k != 0 && is_new s shift k) = true
    · rw [if_pos hn]
      have hk : k = 0x39 := by
        rcases hl k (List.mem_cons_self _ _) with h0 | h1 | h2
        · simp [h0] at hn
        · simp [h1] at hn
        · exact h2
      subst hk
      have hst := handle_key_state h shift s 0x39
      have hpk : (handle_key h shift s 0x39).1.prev_keys = s.prev_keys := by rw [hst]
      have hps : (handle_key h shift s 0x39).1.prev_shift = s.prev_shift := by rw [hst]
      have hbuf : (handle_key h shift s 0x39).1.keyboard_buffer = s.keyboard_buffer := by
        rw [hst]; simp [hid_to_ascii, buffer_after]
      have hpub : published_texts (handle_key h shift s 0x39).2 = [] := by
        simp [handle_key, published_texts, published_texts_append, published_texts_leds]
      have hl2 : ∀ c ∈ l, c = 0 ∨ is_new (handle_key h shift s 0x39).1 shift c = false ∨ c = 0x39 := by
        intro c hc
        rw [is_new_congr _ _ _ _ hpk hps]
        exact hl c (List.mem_cons_of_mem _ hc)
      obtain ⟨i1, i2⟩ := ih _ (ev ++ (handle_key h shift s 0x39).2) hl2
      refine ⟨i1.trans hbuf, ?_⟩
      rw [i2, published_texts_append, hpub, List.append_nil]
    · rw [if_neg hn]
      exact ih s ev (fun c hc => hl c (List.mem_cons_of_mem _ hc))

theorem reset_enter_esc_state (r : hid_keyboard_report_t) (s : KbState) :
    (reset_enter_esc r s).1 =
      { s with
        keyboard_enter_pressed :=
          s.keyboard_enter_pressed && r.keycode.toList.any (fun k => k == 0x28)
        keyboard_esc_pressed :=
          s.keyboard_esc_pressed && r.keycode.toList.any (fun k => k == 0x29) } := by
  obtain ⟨pk, ps, caps, num, scroll, esc, enter, buf⟩ := s
  unfold reset_enter_esc
  cases hE : r.keycode.toList.any (fun k => k == 0x28) <;>
    cases hS : r.keycode.toList.any (fun k => k == 0x29) <;>
    cases esc <;> cases enter <;> simp [hE, hS]

theorem reset_enter_esc_events (r : hid_keyboard_report_t) (s : KbState) :
    handled_keys (reset_enter_esc r s).2 = [] ∧ published_texts (reset_enter_esc r s).2 = [] := by
  obtain ⟨pk, ps, caps, num, scroll, esc, enter, buf⟩ := s
  unfold reset_enter_esc
  cases r.keycode.toList.any (fun k => k == 0x28) <;>
    cases r.keycode.toList.any (fun k => k == 0x29) <;>
    cases esc <;> cases enter <;> simp [handled_keys, published_texts]

theorem process_keyboard_report_eq (h : Host) (s : KbState) (r : hid_keyboard_report_t) :
    process_keyboard_report h s r =
      ({ (reset_enter_esc r (key_loop h s r).1).1 with
          prev_keys := r.keycode, prev_shift := shift_of r },
        (key_loop h s r).2 ++ (reset_enter_esc r (key_loop h s r).1).2) := rfl

theorem ev0_empty (r : hid_keyboard_report_t) :
    handled_keys (if r.modifier ≠ 0 then [Event.log_modifier r.modifier] else []) = []
    ∧ published_texts (if r.modifier ≠ 0 then [Event.log_modifier r.modifier] else []) = [] := by
  split_ifs <;> simp [handled_keys, published_texts]

/-- One call handles exactly the non-zero slots that pass the new-key test. -/
theorem handled_keys_process (h : Host) (s : KbState) (r : hid_keyboard_report_t) :
    handled_keys (process_keyboard_report h s r).2
      = r.keycode.toList.filter (fun k => k != 0 && is_new s (shift_of r) k) := by
  rw [process_keyboard_report_eq]
  simp only [handled_keys_append, (reset_enter_esc_events r _).1, List.append_nil, key_loop]
  rw [(fold_spec h (shift_of r) r.keycode.toList s _).2.2.1, (ev0_empty r).1, List.nil_append]

theorem process_prev (h : Host) (s : KbState) (r : hid_keyboard_report_t) :
    (process_keyboard_report h s r).1.prev_keys = r.keycode
    ∧ (process_keyboard_report h s r).1.prev_shift = shift_of r := ⟨rfl, rfl⟩

theorem any_beq_iff (l : List Nat) (c : Nat) : l.any (fun k => k == c) = true ↔ c ∈ l := by
  rw [List.any_eq_true]
  constructor
  · rintro ⟨p, hp, he⟩
    have : p = c := by simpa using he
    exact this ▸ hp
  · intro hk
    exact ⟨c, hk, by simp⟩

theorem any_new_iff (l : List Nat) (s : KbState) (shift : Bool) (c : Nat) :
    l.any (fun k => k == c && is_new s shift k) = true ↔ (c ∈ l ∧ is_new s shift c = true) := by
  rw [List.any_eq_true]
  constructor
  · rintro ⟨p, hp, he⟩
    rw [Bool.and_eq_true] at he
    have : p = c := by simpa using he.1
    subst this
    exact ⟨hp, he.2⟩
  · rintro ⟨hk, hn⟩
    exact ⟨c, hk, by simp [hn]⟩

/-- The Enter and ESC flags after one call. -/
theorem process_flags (h : Host) (s : KbState) (r : hid_keyboard_report_t) :
    (process_keyboard_report h s r).1.keyboard_enter_pressed
        = ((s.keyboard_enter_pressed
            || r.keycode.toList.any (fun k => k == 0x28 && is_new s (shift_of r) k))
          && r.keycode.toList.any (fun k => k == 0x28))
    ∧ (process_keyboard_report h s r).1.keyboard_esc_pressed
        = ((s.keyboard_esc_pressed
            || r.keycode.toList.any (fun k => k == 0x29 && is_new s (shift_of r) k))
          && r.keycode.toList.any (fun k => k == 0x29)) := by
  rw [process_keyboard_report_eq]
  have hf := fold_spec h (shift_of r) r.keycode.toList s
    (if r.modifier ≠ 0 then [Event.log_modifier r.modifier] else [])
  simp only [reset_enter_esc_state, key_loop]
  exact ⟨by rw [hf.2.2.2.1], by rw [hf.2.2.2.2]⟩

/-- The buffer and the published texts of one call in which every slot is empty, fails
the new-key test, or is the Caps Lock code. -/
theorem process_buffer_frame (h : Host) (s : KbState) (r : hid_keyboard_report_t)
    (hl : ∀ k ∈ r.keycode.toList, k = 0 ∨ is_new s (shift_of r) k = false ∨ k = 0x39) :
    (process_keyboard_report h s r).1.keyboard_buffer = s.keyboard_buffer
    ∧ published_texts (process_keyboard_report h s r).2 = [] := by
  rw [process_keyboard_report_eq]
  have hf := fold_buffer_frame h (shift_of r) r.keycode.toList s
    (if r.modifier ≠ 0 then [Event.log_modifier r.modifier] else []) hl
  simp only [reset_enter_esc_state, key_loop, published_texts_append,
    (reset_enter_esc_events r _).2, List.append_nil]
  exact ⟨hf.1, by rw [hf.2, (ev0_empty r).2]⟩



theorem is_new_held (h : Host) (s : KbState) (r1 r2 : hid_keyboard_report_t) (k : Nat)
    (hr1 : k ∈ r1.keycode.toList) (hs : shift_of r2 = shift_of r1) :
    is_new (process_keyboard_report h s r1).1 (shift_of r2) k = false := by
  rw [← Bool.not_eq_true, is_new_iff]
  have e1 : (process_keyboard_report h s r1).1.prev_keys = r1.keycode := rfl
  have e2 : (process_keyboard_report h s r1).1.prev_shift = shift_of r1 := rfl
  rw [e1, e2]
  simp [hr1, hs]

/-! ### The effects of the handled slots -/

theorem handle_key_effect (h : Host) (shift : Bool) (s : KbState) (k : Nat) :
    (handle_key h shift s k).1 = key_effect shift s k :=
  handle_key_state h shift s k

theorem media_events_append (a b : List Event) :
    media_events (a ++ b) = media_events a ++ media_events b := by
  induction a with
  | nil => rfl
  | cons e a ih => cases e <;> simp [media_events, ih]

theorem toggled_locks_append (a b : List Event) :
    toggled_locks (a ++ b) = toggled_locks a ++ toggled_locks b := by
  induction a with
  | nil => rfl
  | cons e a ih => cases e <;> simp [toggled_locks, ih]

theorem leds_no_key_lines (h : Host) (s : KbState) :
    media_events (update_keyboard_leds h s) = []
    ∧ toggled_locks (update_keyboard_leds h s) = [] := by
  unfold update_keyboard_leds
  split_ifs <;> exact ⟨rfl, rfl⟩

theorem apply_ascii_no_key_lines (s : KbState) (c : Nat) :
    media_events (apply_ascii s c).2 = [] ∧ toggled_locks (apply_ascii s c).2 = [] := by
  unfold apply_ascii
  split_ifs <;> exact ⟨rfl, rfl⟩

/-- The media and lock lines of the slot body: the media match of the code, and the
code itself when it is a lock code. -/
theorem handle_key_lines (h : Host) (shift : Bool) (s : KbState) (k : Nat) :
    media_events (handle_key h shift s k).2 = (media_match k).toList
    ∧ toggled_locks (handle_key h shift s k).2
      = (if k = 0x39 ∨ k = 0x53 ∨ k = 0x47 then [k] else []) := by
  by_cases h39 : k = 0x39
  · subst h39
    simp [handle_key, media_events, toggled_locks, media_events_append, toggled_locks_append,
      leds_no_key_lines, media_match]
  by_cases h53 : k = 0x53
  · subst h53
    simp [handle_key, media_events, toggled_locks, media_events_append, toggled_locks_append,
      leds_no_key_lines, media_match]
  by_cases h47 : k = 0x47
  · subst h47
    simp [handle_key, media_events, toggled_locks, media_events_append, toggled_locks_append,
      leds_no_key_lines, media_match]
  have hno : ¬ (k = 0x39 ∨ k = 0x53 ∨ k = 0x47) := by
    rintro (hx | hx | hx)
    · exact h39 hx
    · exact h53 hx
    · exact h47 hx
  cases hm : media_key k with
  | some n =>
    simp [handle_key, h39, h53, h47, hm, media_events, toggled_locks, media_match]
  | none =>
    by_cases h29 : k = 0x29
    · subst h29
      simp [handle_key, hid_to_ascii, media_key, media_events, toggled_locks, media_match,
        apply_ascii]
    by_cases h28 : k = 0x28
    · subst h28
      simp [handle_key, hid_to_ascii, media_key, media_events, toggled_locks, media_match,
        apply_ascii]
    simp only [handle_key, h39, h53, h47, hm, h29, h28, if_false, media_match, if_neg hno,
      Option.map_none', Option.toList]
    generalize hid_to_ascii s.caps_lock_state s.num_lock_state k shift = c
    by_cases c0 : c = 0
    · simp [c0, media_events, toggled_locks]
    · simp [c0, media_events, toggled_locks, media_events_append, toggled_locks_append,
        apply_ascii_no_key_lines]

theorem key_effect_prev (shift : Bool) (s : KbState) (k : Nat) :
    (key_effect shift s k).prev_keys = s.prev_keys
    ∧ (key_effect shift s k).prev_shift = s.prev_shift := ⟨rfl, rfl⟩

/-- The loop over the slots runs the slot body on exactly the slots that pass the
new-key test of the state it starts from, in slot order. -/
theorem fold_effects (h : Host) (shift : Bool) (l : List Nat) :
    ∀ (s : KbState) (ev : List Event),
      (l.foldl (process_slot h shift) (s, ev)).1
          = (l.filter (fun k => k != 0 && is_new s shift k)).foldl (key_effect shift) s
      ∧ media_events (l.foldl (process_slot h shift) (s, ev)).2
          = media_events ev
            ++ (l.filter (fun k => k != 0 && is_new s shift k)).filterMap media_match
      ∧ toggled_locks (l.foldl (process_slot h shift) (s, ev)).2
          = toggled_locks ev
            ++ (l.filter (fun k => k != 0 && is_new s shift k)).filter
                (fun k => decide (k = 0x39 ∨ k = 0x53 ∨ k = 0x47)) := by
  induction l with
  | nil => intro s ev; simp
  | cons k l ih =>
    intro s ev
    rw [List.foldl_cons, process_slot_eq]
    by_cases hn : (k != 0 && is_new s shift k) = true
    · rw [if_pos hn]
      obtain ⟨i1, i2, i3⟩ := ih (handle_key h shift s k).1 (ev ++ (handle_key h shift s k).2)
      have hcg : ∀ c, is_new (handle_key h shift s k).1 shift c = is_new s shift c := by
        intro c
        rw [handle_key_effect]
        exact is_new_congr _ _ _ _ rfl rfl
      simp only [hcg] at i1 i2 i3
      obtain ⟨m1, m2⟩ := handle_key_lines h shift s k
      refine ⟨?_, ?_, ?_⟩
      · rw [i1, List.filter_cons, if_pos hn, List.foldl_cons, handle_key_effect]
      · rw [i2, media_events_append, m1, List.filter_cons, if_pos hn, List.filterMap_cons]
        cases media_match k <;> simp
      · rw [i3, toggled_locks_append, m2, List.filter_cons, if_pos hn, List.filter_cons]
        by_cases hk : k = 0x39 ∨ k = 0x53 ∨ k = 0x47
        · simp [hk]
        · simp [hk]
    · rw [if_neg hn]
      obtain ⟨i1, i2, i3⟩ := ih s ev
      rw [List.filter_cons, if_neg hn]
      exact ⟨i1, i2, i3⟩

theorem reset_enter_esc_no_key_lines (r : hid_keyboard_report_t) (s : KbState) :
    media_events (reset_enter_esc r s).2 = [] ∧ toggled_locks (reset_enter_esc r s).2 = [] := by
  obtain ⟨pk, ps, caps, num, scroll, esc, enter, buf⟩ := s
  unfold reset_enter_esc
  cases r.keycode.toList.any (fun k => k == 0x28) <;>
    cases r.keycode.toList.any (fun k => k == 0x29) <;>
    cases esc <;> cases enter <;> simp [media_events, toggled_locks]

/-- One call: the locks and the buffer are those left by the slot body run on the slots
that pass the new-key test, and the media and lock lines are those of these slots. -/
theorem process_effects (h : Host) (s : KbState) (r : hid_keyboard_report_t) :
    (process_keyboard_report h s r).1.caps_lock_state
        = ((r.keycode.toList.filter (fun k => k != 0 && is_new s (shift_of r) k)).foldl
            (key_effect (shift_of r)) s).caps_lock_state
    ∧ (process_keyboard_report h s r).1.num_lock_state
        = ((r.keycode.toList.filter (fun k => k != 0 && is_new s (shift_of r) k)).foldl
            (key_effect (shift_of r)) s).num_lock_state
    ∧ (process_keyboard_report h s r).1.scroll_lock_state
        = ((r.keycode.toList.filter (fun k => k != 0 && is_new s (shift_of r) k)).foldl
            (key_effect (shift_of r)) s).scroll_lock_state
    ∧ (process_keyboard_report h s r).1.keyboard_buffer
        = ((r.keycode.toList.filter (fun k => k != 0 && is_new s (shift_of r) k)).foldl
            (key_effect (shift_of r)) s).keyboard_buffer
    ∧ media_events (process_keyboard_report h s r).2
        = (r.keycode.toList.filter (fun k => k != 0 && is_new s (shift_of r) k)).filterMap
            media_match
    ∧ toggled_locks (process_keyboard_report h s r).2
        = (r.keycode.toList.filter (fun k => k != 0 && is_new s (shift_of r) k)).filter
            (fun k => decide (k = 0x39 ∨ k = 0x53 ∨ k = 0x47)) := by
  obtain ⟨f1, f2, f3⟩ := fold_effects h (shift_of r) r.keycode.toList s
    (if r.modifier ≠ 0 then [Event.log_modifier r.modifier] else [])
  have e0 : media_events (if r.modifier ≠ 0 then [Event.log_modifier r.modifier] else []) = []
      ∧ toggled_locks (if r.modifier ≠ 0 then [Event.log_modifier r.modifier] else []) = [] := by
    split_ifs <;> exact ⟨rfl, rfl⟩
  rw [process_keyboard_report_eq, reset_enter_esc_state]
  simp only [media_events_append, toggled_locks_append, reset_enter_esc_no_key_lines,
    List.append_nil]
  unfold key_loop
  rw [f1, f2, f3, e0.1, e0.2]
  exact ⟨rfl, rfl, rfl, rfl, rfl, rfl⟩

theorem new_slot_filter (s : KbState) (shift : Bool) (l : List Nat) :
    l.filter (fun k => k != 0 && is_new s shift k)
      = l.filter (fun k => decide (k ≠ 0 ∧ (k ∉ s.prev_keys.toList ∨ shift ≠ s.prev_shift))) := by
  apply List.filter_congr
  intro k _
  rw [Bool.eq_iff_iff, Bool.and_eq_true, is_new_iff]
  simp

/-! ## The claims -/

/-- C1: from a state with no previous keycodes, previous shift false, Caps Lock off and
an empty buffer, the report `{0x02, 0, 0x04, 0, 0, 0, 0, 0}` (shift + 'a') yields the
character 'A': the buffer becomes exactly "A", and "A" is the one text published. -/
theorem process_keyboard_report_shift_a (h : Host) (s : KbState)
    (hk : s.prev_keys = ⟨0, 0, 0, 0, 0, 0⟩) (hs : s.prev_shift = false)
    (hc : s.caps_lock_state = false) (hb : s.keyboard_buffer = []) :
    (process_keyboard_report h s (report_of 0x02 0 0x04 0 0 0 0 0)).1.keyboard_buffer
        = bytes "A"
    ∧ published_texts (process_keyboard_report h s (report_of 0x02 0 0x04 0 0 0 0 0)).2
        = [bytes "A"] := by
  obtain ⟨pk, ps, caps, num, scroll, esc, enter, buf⟩ := s
  simp only at hk hs hc hb
  subst hk hs hc hb
  cases esc <;> cases enter <;> exact ⟨rfl, rfl⟩

/-- Witness of C1: the initial state `kb_init`. -/
theorem process_keyboard_report_shift_a_witness :
    (process_keyboard_report host_ok kb_init (report_of 0x02 0 0x04 0 0 0 0 0)).1.keyboard_buffer
        = bytes "A"
    ∧ published_texts (process_keyboard_report host_ok kb_init
        (report_of 0x02 0 0x04 0 0 0 0 0)).2 = [bytes "A"] :=
  process_keyboard_report_shift_a host_ok kb_init rfl rfl rfl rfl

/-- C2: with the buffer equal to "A" and no previous keycodes, the backspace report
`{0, 0, 0x2A, 0, 0, 0, 0, 0}` empties the buffer and yields no character: the one text
published by the call is the empty text. -/
theorem process_keyboard_report_backspace (h : Host) (s : KbState)
    (hk : s.prev_keys = ⟨0, 0, 0, 0, 0, 0⟩) (hb : s.keyboard_buffer = bytes "A") :
    (process_keyboard_report h s (report_of 0 0 0x2A 0 0 0 0 0)).1.keyboard_buffer = []
    ∧ published_texts (process_keyboard_report h s (report_of 0 0 0x2A 0 0 0 0 0)).2
        = [[]] := by
  obtain ⟨pk, ps, caps, num, scroll, esc, enter, buf⟩ := s
  simp only at hk hb
  subst hk hb
  cases ps <;> cases esc <;> cases enter <;> exact ⟨rfl, rfl⟩

/-- Witness of C2: the initial state with "A" in the buffer; the whole trace is the
key-detected line and the publish of the empty text. -/
theorem process_keyboard_report_backspace_witness :
    ((process_keyboard_report host_ok { kb_init with keyboard_buffer := bytes "A" }
        (report_of 0 0 0x2A 0 0 0 0 0)).1.keyboard_buffer = []
      ∧ published_texts (process_keyboard_report host_ok
          { kb_init with keyboard_buffer := bytes "A" } (report_of 0 0 0x2A 0 0 0 0 0)).2
          = [[]])
    ∧ (process_keyboard_report host_ok { kb_init with keyboard_buffer := bytes "A" }
        (report_of 0 0 0x2A 0 0 0 0 0)).2
        = [Event.key_detected 0x2A, Event.text_published []] :=
  ⟨process_keyboard_report_backspace host_ok { kb_init with keyboard_buffer := bytes "A" }
    rfl rfl, rfl⟩

/-- C3: one call handles exactly the non-zero slots whose code is absent from the
statics `prev_keys` or whose shift differs from `prev_shift`; the statics are those
of the immediately preceding report, so across two consecutive reports the handled
slots of the second are those absent from the first or seen under another shift
state; and a code present in report N, absent in N+1 and present in N+2 is handled
in N+2.  Handling is the slot body: after the second report the lock states and the
text buffer are those left by toggling the locks and mapping the characters of exactly
these slots, in slot order, from the state the first report left; the "Media key" lines
are the media matches of exactly these slots and the "Lock pressed" lines the lock codes
among them; a slot that fails the test contributes nothing. -/
theorem new_key_rule (h0 h1 h2 : Host) (s : KbState) (r0 r1 r2 : hid_keyboard_report_t) :
    handled_keys (process_keyboard_report h1 s r1).2
        = r1.keycode.toList.filter (fun k =>
            decide (k ≠ 0 ∧ (k ∉ s.prev_keys.toList ∨ shift_of r1 ≠ s.prev_shift)))
    ∧ handled_keys (process_keyboard_report h2 (process_keyboard_report h1 s r1).1 r2).2
        = r2.keycode.toList.filter (fun k =>
            decide (k ≠ 0 ∧ (k ∉ r1.keycode.toList ∨ shift_of r2 ≠ shift_of r1)))
    ∧ (∀ k, k ≠ 0 → k ∈ r0.keycode.toList → k ∉ r1.keycode.toList → k ∈ r2.keycode.toList →
        k ∈ handled_keys (process_keyboard_report h2
          (process_keyboard_report h1 (process_keyboard_report h0 s r0).1 r1).1 r2).2)
    ∧ (process_keyboard_report h2 (process_keyboard_report h1 s r1).1 r2).1.caps_lock_state
        = ((r2.keycode.toList.filter (fun k =>
              decide (k ≠ 0 ∧ (k ∉ r1.keycode.toList ∨ shift_of r2 ≠ shift_of r1)))).foldl
            (key_effect (shift_of r2)) (process_keyboard_report h1 s r1).1).caps_lock_state
    ∧ (process_keyboard_report h2 (process_keyboard_report h1 s r1).1 r2).1.num_lock_state
        = ((r2.keycode.toList.filter (fun k =>
              decide (k ≠ 0 ∧ (k ∉ r1.keycode.toList ∨ shift_of r2 ≠ shift_of r1)))).foldl
            (key_effect (shift_of r2)) (process_keyboard_report h1 s r1).1).num_lock_state
    ∧ (process_keyboard_report h2 (process_keyboard_report h1 s r1).1 r2).1.scroll_lock_state
        = ((r2.keycode.toList.filter (fun k =>
              decide (k ≠ 0 ∧ (k ∉ r1.keycode.toList ∨ shift_of r2 ≠ shift_of r1)))).foldl
            (key_effect (shift_of r2)) (process_keyboard_report h1 s r1).1).scroll_lock_state
    ∧ (process_keyboard_report h2 (process_keyboard_report h1 s r1).1 r2).1.keyboard_buffer
        = ((r2.keycode.toList.filter (fun k =>
              decide (k ≠ 0 ∧ (k ∉ r1.keycode.toList ∨ shift_of r2 ≠ shift_of r1)))).foldl
            (key_effect (shift_of r2)) (process_keyboard_report h1 s r1).1).keyboard_buffer
    ∧ media_events (process_keyboard_report h2 (process_keyboard_report h1 s r1).1 r2).2
        = (r2.keycode.toList.filter (fun k =>
              decide (k ≠ 0 ∧ (k ∉ r1.keycode.toList ∨ shift_of r2 ≠ shift_of r1)))).filterMap
            media_match
    ∧ toggled_locks (process_keyboard_report h2 (process_keyboard_report h1 s r1).1 r2).2
        = (r2.keycode.toList.filter (fun k =>
              decide (k ≠ 0 ∧ (k ∉ r1.keycode.toList ∨ shift_of r2 ≠ shift_of r1)))).filter
            (fun k => decide (k = 0x39 ∨ k = 0x53 ∨ k = 0x47)) := by
  have key : ∀ (h : Host) (t : KbState) (r : hid_keyboard_report_t),
      handled_keys (process_keyboard_report h t r).2
        = r.keycode.toList.filter (fun k =>
            decide (k ≠ 0 ∧ (k ∉ t.prev_keys.toList ∨ shift_of r ≠ t.prev_shift))) := by
    intro h t r
    rw [handled_keys_process]
    exact new_slot_filter t (shift_of r) _
  obtain ⟨e1, e2, e3, e4, e5, e6⟩ :=
    process_effects h2 (process_keyboard_report h1 s r1).1 r2
  have hf := new_slot_filter (process_keyboard_report h1 s r1).1 (shift_of r2)
    r2.keycode.toList
  have hp : (process_keyboard_report h1 s r1).1.prev_keys = r1.keycode := rfl
  have hq : (process_keyboard_report h1 s r1).1.prev_shift = shift_of r1 := rfl
  rw [hp, hq] at hf
  rw [hf] at e1 e2 e3 e4 e5 e6
  refine ⟨key h1 s r1, ?_, ?_, e1, e2, e3, e4, e5, e6⟩
  · rw [key]; rfl
  · intro k hk0 _ hk1 hk2
    rw [key, List.mem_filter]
    refine ⟨hk2, ?_⟩
    have : (process_keyboard_report h1 (process_keyboard_report h0 s r0).1 r1).1.prev_keys
        = r1.keycode := rfl
    rw [this]
    simp [hk0, hk1]

/-- Witness of C3: 'a' is pressed, released, then pressed again together with Caps Lock
and Volume Up: the third report handles all three codes, appends a second 'a', turns
Caps Lock on and writes the "Volume Up" line; the same three codes held in a fourth
report are handled no more. -/
theorem new_key_rule_witness :
    0x04 ∈ handled_keys (process_keyboard_report host_ok
      (process_keyboard_report host_ok
        (process_keyboard_report host_ok kb_init (report_of 0 0 0x04 0 0 0 0 0)).1
        (report_of 0 0 0 0 0 0 0 0)).1
      (report_of 0 0 0x04 0x39 0x81 0 0 0)).2
    ∧ (process_keyboard_report host_ok
        (process_keyboard_report host_ok
          (process_keyboard_report host_ok kb_init (report_of 0 0 0x04 0 0 0 0 0)).1
          (report_of 0 0 0 0 0 0 0 0)).1
        (report_of 0 0 0x04 0x39 0x81 0 0 0)).1.caps_lock_state = true
    ∧ (process_keyboard_report host_ok
        (process_keyboard_report host_ok
          (process_keyboard_report host_ok kb_init (report_of 0 0 0x04 0 0 0 0 0)).1
          (report_of 0 0 0 0 0 0 0 0)).1
        (report_of 0 0 0x04 0x39 0x81 0 0 0)).1.keyboard_buffer = bytes "aa"
    ∧ media_events (process_keyboard_report host_ok
        (process_keyboard_report host_ok
          (process_keyboard_report host_ok kb_init (report_of 0 0 0x04 0 0 0 0 0)).1
          (report_of 0 0 0 0 0 0 0 0)).1
        (report_of 0 0 0x04 0x39 0x81 0 0 0)).2 = [("Volume Up", 0x81)]
    ∧ toggled_locks (process_keyboard_report host_ok
        (process_keyboard_report host_ok
          (process_keyboard_report host_ok kb_init (report_of 0 0 0x04 0 0 0 0 0)).1
          (report_of 0 0 0 0 0 0 0 0)).1
        (report_of 0 0 0x04 0x39 0x81 0 0 0)).2 = [0x39]
    ∧ handled_keys (process_keyboard_report host_ok
        (process_keyboard_report host_ok kb_init (report_of 0 0 0x04 0x39 0x81 0 0 0)).1
        (report_of 0 0 0x04 0x39 0x81 0 0 0)).2 = []
    ∧ media_events (process_keyboard_report host_ok
        (process_keyboard_report host_ok kb_init (report_of 0 0 0x04 0x39 0x81 0 0 0)).1
        (report_of 0 0 0x04 0x39 0x81 0 0 0)).2 = [] :=
  ⟨(new_key_rule host_ok host_ok host_ok kb_init (report_of 0 0 0x04 0 0 0 0 0)
      (report_of 0 0 0 0 0 0 0 0) (report_of 0 0 0x04 0x39 0x81 0 0 0)).2.2.1 0x04
      (by decide) (by decide) (by decide) (by decide),
   (new_key_rule host_ok host_ok host_ok
      (process_keyboard_report host_ok kb_init (report_of 0 0 0x04 0 0 0 0 0)).1
      (report_of 0 0 0 0 0 0 0 0) (report_of 0 0 0 0 0 0 0 0)
      (report_of 0 0 0x04 0x39 0x81 0 0 0)).2.2.2.1.trans (by decide),
   (new_key_rule host_ok host_ok host_ok
      (process_keyboard_report host_ok kb_init (report_of 0 0 0x04 0 0 0 0 0)).1
      (report_of 0 0 0 0 0 0 0 0) (report_of 0 0 0 0 0 0 0 0)
      (report_of 0 0 0x04 0x39 0x81 0 0 0)).2.2.2.2.2.2.1.trans (by decide),
   (new_key_rule host_ok host_ok host_ok
      (process_keyboard_report host_ok kb_init (report_of 0 0 0x04 0 0 0 0 0)).1
      (report_of 0 0 0 0 0 0 0 0) (report_of 0 0 0 0 0 0 0 0)
      (report_of 0 0 0x04 0x39 0x81 0 0 0)).2.2.2.2.2.2.2.1.trans (by decide),
   (new_key_rule host_ok host_ok host_ok
      (process_keyboard_report host_ok kb_init (report_of 0 0 0x04 0 0 0 0 0)).1
      (report_of 0 0 0 0 0 0 0 0) (report_of 0 0 0 0 0 0 0 0)
      (report_of 0 0 0x04 0x39 0x81 0 0 0)).2.2.2.2.2.2.2.2.trans (by decide),
   (new_key_rule host_ok host_ok host_ok kb_init (report_of 0 0 0 0 0 0 0 0)
      (report_of 0 0 0x04 0x39 0x81 0 0 0) (report_of 0 0 0x04 0x39 0x81 0 0 0)).2.1.trans
      (by decide),
   (new_key_rule host_ok host_ok host_ok kb_init (report_of 0 0 0 0 0 0 0 0)
      (report_of 0 0 0x04 0x39 0x81 0 0 0)
      (report_of 0 0 0x04 0x39 0x81 0 0 0)).2.2.2.2.2.2.2.1.trans (by decide)⟩

/-- C4: for a letter code `0x04 .. 0x1D`, `hid_to_ascii` gives the lower-case letter
`'a' + (k - 0x04)` when shift equals the Caps Lock state and the upper-case letter
when they differ. -/
theorem hid_to_ascii_letter (caps num shift : Bool) (k : Nat) (h1 : 0x04 ≤ k) (h2 : k ≤ 0x1D) :
    hid_to_ascii caps num k shift
      = if shift = caps then 'a'.toNat + (k - 0x04) else 'A'.toNat + (k - 0x04) := by
  have hk : 0x04 ≤ k ∧ k ≤ 0x1D := ⟨h1, h2⟩
  cases caps <;> cases shift <;> simp [hid_to_ascii, hk] <;> omega

/-- Witness of C4: code 0x04 with shift and no Caps Lock is 'A'. -/
theorem hid_to_ascii_letter_witness :
    0x04 ≤ 0x04 ∧ 0x04 ≤ 0x1D ∧ hid_to_ascii false false 0x04 true = 'A'.toNat + (0x04 - 0x04) :=
  ⟨by decide, by decide, hid_to_ascii_letter false false true 0x04 (by decide) (by decide)⟩

/-- C5: the slot body edits the buffer by the character its code maps to: backspace
removes the last character (an empty buffer stays empty), enter empties the buffer,
any other character is appended, and a code with no character leaves it as it was. -/
theorem handle_key_buffer (h : Host) (shift : Bool) (s : KbState) (k : Nat) :
    (handle_key h shift s k).1.keyboard_buffer
      = buffer_after s.keyboard_buffer
          (hid_to_ascii s.caps_lock_state s.num_lock_state k shift) := by
  rw [handle_key_state]

/-- C6 (counterexample): 'a' is pressed, then held while Caps Lock is pressed with shift
unchanged.  Caps Lock toggles from off to on, but the second report handles only the
Caps Lock code: no text is published and the buffer is still "a"; no 'A' is emitted. -/
theorem caps_toggle_held_letter_counterexample :
    (process_keyboard_report host_ok kb_init (report_of 0 0 0x04 0 0 0 0 0)).1.keyboard_buffer
        = bytes "a"
    ∧ (process_keyboard_report host_ok kb_init (report_of 0 0 0x04 0 0 0 0 0)).1.caps_lock_state
        = false
    ∧ (process_keyboard_report host_ok
        (process_keyboard_report host_ok kb_init (report_of 0 0 0x04 0 0 0 0 0)).1
        (report_of 0 0 0x04 0x39 0 0 0 0)).1.caps_lock_state = true
    ∧ handled_keys (process_keyboard_report host_ok
        (process_keyboard_report host_ok kb_init (report_of 0 0 0x04 0 0 0 0 0)).1
        (report_of 0 0 0x04 0x39 0 0 0 0)).2 = [0x39]
    ∧ published_texts (process_keyboard_report host_ok
        (process_keyboard_report host_ok kb_init (report_of 0 0 0x04 0 0 0 0 0)).1
        (report_of 0 0 0x04 0x39 0 0 0 0)).2 = []
    ∧ (process_keyboard_report host_ok
        (process_keyboard_report host_ok kb_init (report_of 0 0 0x04 0 0 0 0 0)).1
        (report_of 0 0 0x04 0x39 0 0 0 0)).1.keyboard_buffer = bytes "a" := by
  refine ⟨?_, ?_, ?_, ?_, ?_, ?_⟩ <;> rfl

/-- C6 (amended): a code (a letter in particular) held over from the preceding report
under the same shift state is not handled by the later report, whatever else that
report holds, a Caps Lock press included; and when every used slot of the later report
is held over or is the Caps Lock code, the later report leaves the buffer as it was
and publishes no text. -/
theorem held_letter_not_reemitted (h1 h2 : Host) (s : KbState)
    (r1 r2 : hid_keyboard_report_t) (k : Nat)
    (hr1 : k ∈ r1.keycode.toList) (hs : shift_of r2 = shift_of r1) :
    k ∉ handled_keys (process_keyboard_report h2 (process_keyboard_report h1 s r1).1 r2).2
    ∧ ((∀ c ∈ r2.keycode.toList, c = 0 ∨ c ∈ r1.keycode.toList ∨ c = 0x39) →
        (process_keyboard_report h2 (process_keyboard_report h1 s r1).1 r2).1.keyboard_buffer
            = (process_keyboard_report h1 s r1).1.keyboard_buffer
        ∧ published_texts
            (process_keyboard_report h2 (process_keyboard_report h1 s r1).1 r2).2 = []) := by
  constructor
  · rw [handled_keys_process, List.mem_filter, is_new_held h1 s r1 r2 k hr1 hs]
    simp
  · intro hl
    apply process_buffer_frame
    intro c hc
    rcases hl c hc with h0 | hm | h39
    · exact Or.inl h0
    · exact Or.inr (Or.inl (is_new_held h1 s r1 r2 c hm hs))
    · exact Or.inr (Or.inr h39)

/-- Witness of C6 (amended): 'a' held while Caps Lock is pressed. -/
theorem held_letter_not_reemitted_witness :
    0x04 ∉ handled_keys (process_keyboard_report host_ok
        (process_keyboard_report host_ok kb_init (report_of 0 0 0x04 0 0 0 0 0)).1
        (report_of 0 0 0x04 0x39 0 0 0 0)).2
    ∧ (process_keyboard_report host_ok
        (process_keyboard_report host_ok kb_init (report_of 0 0 0x04 0 0 0 0 0)).1
        (report_of 0 0 0x04 0x39 0 0 0 0)).1.keyboard_buffer
        = (process_keyboard_report host_ok kb_init
            (report_of 0 0 0x04 0 0 0 0 0)).1.keyboard_buffer
    ∧ published_texts (process_keyboard_report host_ok
        (process_keyboard_report host_ok kb_init (report_of 0 0 0x04 0 0 0 0 0)).1
        (report_of 0 0 0x04 0x39 0 0 0 0)).2 = [] :=
  ⟨(held_letter_not_reemitted host_ok host_ok kb_init (report_of 0 0 0x04 0 0 0 0 0)
      (report_of 0 0 0x04 0x39 0 0 0 0) 0x04 (by decide) (by decide)).1,
   (held_letter_not_reemitted host_ok host_ok kb_init (report_of 0 0 0x04 0 0 0 0 0)
      (report_of 0 0 0x04 0x39 0 0 0 0) 0x04 (by decide) (by decide)).2 (by decide)⟩

/-- C7 (counterexample): 'a' is pressed without shift, then the same six slots arrive
with left shift set.  The slots are identical and only the modifier byte differs, yet
the second report changes the buffer from "a" to "aA". -/
theorem modifier_only_change_counterexample :
    (report_of 0x02 0 0x04 0 0 0 0 0).keycode = (report_of 0 0 0x04 0 0 0 0 0).keycode
    ∧ (process_keyboard_report host_ok kb_init
        (report_of 0 0 0x04 0 0 0 0 0)).1.keyboard_buffer = bytes "a"
    ∧ (process_keyboard_report host_ok
        (process_keyboard_report host_ok kb_init (report_of 0 0 0x04 0 0 0 0 0)).1
        (report_of 0x02 0 0x04 0 0 0 0 0)).1.keyboard_buffer = bytes "aA"
    ∧ (process_keyboard_report host_ok
        (process_keyboard_report host_ok kb_init (report_of 0 0 0x04 0 0 0 0 0)).1
        (report_of 0x02 0 0x04 0 0 0 0 0)).1.keyboard_buffer
      ≠ (process_keyboard_report host_ok kb_init
          (report_of 0 0 0x04 0 0 0 0 0)).1.keyboard_buffer := by
  refine ⟨rfl, rfl, rfl, ?_⟩
  decide

/-- C7 (amended): when two consecutive reports have identical keycode slots and the
same shift state, the second report leaves the text buffer unchanged and publishes no
text. -/
theorem same_keys_same_shift_buffer (h1 h2 : Host) (s : KbState)
    (r1 r2 : hid_keyboard_report_t)
    (hk : r2.keycode = r1.keycode) (hs : shift_of r2 = shift_of r1) :
    (process_keyboard_report h2 (process_keyboard_report h1 s r1).1 r2).1.keyboard_buffer
        = (process_keyboard_report h1 s r1).1.keyboard_buffer
    ∧ published_texts
        (process_keyboard_report h2 (process_keyboard_report h1 s r1).1 r2).2 = [] := by
  apply process_buffer_frame
  intro c hc
  rw [hk] at hc
  exact Or.inr (Or.inl (is_new_held h1 s r1 r2 c hc hs))

/-- Witness of C7 (amended): 'a' held while left ctrl (0x01) is pressed. -/
theorem same_keys_same_shift_buffer_witness :
    (process_keyboard_report host_ok
        (process_keyboard_report host_ok kb_init (report_of 0 0 0x04 0 0 0 0 0)).1
        (report_of 0x01 0 0x04 0 0 0 0 0)).1.keyboard_buffer
        = (process_keyboard_report host_ok kb_init
            (report_of 0 0 0x04 0 0 0 0 0)).1.keyboard_buffer
    ∧ published_texts (process_keyboard_report host_ok
        (process_keyboard_report host_ok kb_init (report_of 0 0 0x04 0 0 0 0 0)).1
        (report_of 0x01 0 0x04 0 0 0 0 0)).2 = [] :=
  same_keys_same_shift_buffer host_ok host_ok kb_init (report_of 0 0 0x04 0 0 0 0 0)
    (report_of 0x01 0 0x04 0 0 0 0 0) rfl (by decide)

/-- C8: after one call from any state, the Enter flag is false when 0x28 is in none of
the six slots and the ESC flag is false when 0x29 is in none of them; a flag that was
set stays set while its code is in the report; and a 0x28 / 0x29 that passes the
new-key test sets its flag. -/
theorem enter_esc_flags (h : Host) (s : KbState) (r : hid_keyboard_report_t) :
    (0x28 ∉ r.keycode.toList → (process_keyboard_report h s r).1.keyboard_enter_pressed = false)
    ∧ (0x29 ∉ r.keycode.toList → (process_keyboard_report h s r).1.keyboard_esc_pressed = false)
    ∧ (0x28 ∈ r.keycode.toList → s.keyboard_enter_pressed = true →
        (process_keyboard_report h s r).1.keyboard_enter_pressed = true)
    ∧ (0x29 ∈ r.keycode.toList → s.keyboard_esc_pressed = true →
        (process_keyboard_report h s r).1.keyboard_esc_pressed = true)
    ∧ (0x28 ∈ handled_keys (process_keyboard_report h s r).2 →
        (process_keyboard_report h s r).1.keyboard_enter_pressed = true)
    ∧ (0x29 ∈ handled_keys (process_keyboard_report h s r).2 →
        (process_keyboard_report h s r).1.keyboard_esc_pressed = true) := by
  obtain ⟨he, hx⟩ := process_flags h s r
  refine ⟨?_, ?_, ?_, ?_, ?_, ?_⟩
  · intro hn
    have : r.keycode.toList.any (fun k => k == 0x28) = false := by
      rw [← Bool.not_eq_true, any_beq_iff]; exact hn
    rw [he, this, Bool.and_false]
  · intro hn
    have : r.keycode.toList.any (fun k => k == 0x29) = false := by
      rw [← Bool.not_eq_true, any_beq_iff]; exact hn
    rw [hx, this, Bool.and_false]
  · intro hm hs
    rw [he, hs, (any_beq_iff _ _).2 hm]; rfl
  · intro hm hs
    rw [hx, hs, (any_beq_iff _ _).2 hm]; rfl
  · intro hh
    rw [handled_keys_process, List.mem_filter, Bool.and_eq_true] at hh
    rw [he, (any_beq_iff _ _).2 hh.1, (any_new_iff _ _ _ _).2 ⟨hh.1, hh.2.2⟩]
    simp
  · intro hh
    rw [handled_keys_process, List.mem_filter, Bool.and_eq_true] at hh
    rw [hx, (any_beq_iff _ _).2 hh.1, (any_new_iff _ _ _ _).2 ⟨hh.1, hh.2.2⟩]
    simp

/-- Witness of C8: an empty report clears a set Enter flag; a fresh Enter press sets
it. -/
theorem enter_esc_flags_witness :
    (process_keyboard_report host_ok { kb_init with keyboard_enter_pressed := true }
        (report_of 0 0 0 0 0 0 0 0)).1.keyboard_enter_pressed = false
    ∧ (process_keyboard_report host_ok kb_init
        (report_of 0 0 0x28 0 0 0 0 0)).1.keyboard_enter_pressed = true :=
  ⟨(enter_esc_flags host_ok { kb_init with keyboard_enter_pressed := true }
      (report_of 0 0 0 0 0 0 0 0)).1 (by decide),
   (enter_esc_flags host_ok kb_init (report_of 0 0 0x28 0 0 0 0 0)).2.2.2.2.1 (by decide)⟩

/-- C9: the keypad codes 0x59 .. 0x63 give '1' .. '9', '0', '.' with Num Lock on and no
character with Num Lock off; the keypad codes 0x54 .. 0x58 give '/', '*', '-', '+' and
newline under every Num Lock, Caps Lock and shift state. -/
theorem hid_to_ascii_keypad (caps num shift : Bool) (k : Nat) :
    (0x59 ≤ k → k ≤ 0x63 →
      hid_to_ascii caps true k shift = (bytes "1234567890.").getD (k - 0x59) 0
      ∧ hid_to_ascii caps false k shift = 0)
    ∧ (0x54 ≤ k → k ≤ 0x58 →
      hid_to_ascii caps num k shift
        = ['/'.toNat, '*'.toNat, '-'.toNat, '+'.toNat, 10].getD (k - 0x54) 0) := by
  constructor
  · intro h1 h2
    interval_cases k <;> exact ⟨rfl, rfl⟩
  · intro h1 h2
    interval_cases k <;> rfl

/-- Witness of C9: keypad 5 with and without Num Lock, and keypad plus. -/
theorem hid_to_ascii_keypad_witness :
    (hid_to_ascii false true 0x5D false = '5'.toNat ∧ hid_to_ascii false false 0x5D false = 0)
    ∧ hid_to_ascii false false 0x57 true = '+'.toNat :=
  ⟨(hid_to_ascii_keypad false false false 0x5D).1 (by decide) (by decide),
   (hid_to_ascii_keypad false false true 0x57).2 (by decide) (by decide)⟩

/-- C10: the LED byte has bit 0 = Num Lock, bit 1 = Caps Lock, bit 2 = Scroll Lock and
no other bit, so it is below 8; with both handles open and a transfer allocated the
routine submits one control transfer, the SET_REPORT setup packet followed by that one
byte; with the device or the client handle null it submits nothing. -/
theorem update_keyboard_leds_report (h : Host) (s : KbState) :
    led_report s < 8
    ∧ (led_report s).testBit 0 = s.num_lock_state
    ∧ (led_report s).testBit 1 = s.caps_lock_state
    ∧ (led_report s).testBit 2 = s.scroll_lock_state
    ∧ (∀ i, 3 ≤ i → (led_report s).testBit i = false)
    ∧ (h.dev_hdl ≠ none → h.client_hdl ≠ none → h.alloc_ok = true →
        submitted_transfers (update_keyboard_leds h s) = [led_setup_pkt ++ [led_report s]])
    ∧ (h.dev_hdl = none ∨ h.client_hdl = none →
        update_keyboard_leds h s = [Event.led_unavailable]
        ∧ submitted_transfers (update_keyboard_leds h s) = []) := by
  have hlt : led_report s < 8 := by
    unfold led_report
    cases s.num_lock_state <;> cases s.caps_lock_state <;> cases s.scroll_lock_state <;> decide
  refine ⟨hlt, ?_, ?_, ?_, ?_, ?_, ?_⟩
  · unfold led_report
    cases s.num_lock_state <;> cases s.caps_lock_state <;> cases s.scroll_lock_state <;> decide
  · unfold led_report
    cases s.num_lock_state <;> cases s.caps_lock_state <;> cases s.scroll_lock_state <;> decide
  · unfold led_report
    cases s.num_lock_state <;> cases s.caps_lock_state <;> cases s.scroll_lock_state <;> decide
  · intro i hi
    apply Nat.testBit_eq_false_of_lt
    calc led_report s < 2 ^ 3 := hlt
      _ ≤ 2 ^ i := Nat.pow_le_pow_right (by decide) hi
  · intro hd hc ha
    obtain ⟨d, hd⟩ := Option.ne_none_iff_exists'.1 hd
    obtain ⟨c, hc⟩ := Option.ne_none_iff_exists'.1 hc
    simp [update_keyboard_leds, hd, hc, ha, submitted_transfers]
  · intro hn
    rcases hn with hn | hn <;> simp [update_keyboard_leds, hn, submitted_transfers]

/-- Witness of C10: Caps Lock alone gives the byte 0x02, sent when the handles are open
and not sent when the device handle is null. -/
theorem update_keyboard_leds_report_witness :
    submitted_transfers (update_keyboard_leds host_ok { kb_init with caps_lock_state := true })
        = [[0x21, 0x09, 0x00, 0x02, 0x00, 0x00, 0x01, 0x00, 0x02]]
    ∧ submitted_transfers (update_keyboard_leds { host_ok with dev_hdl := none }
        { kb_init with caps_lock_state := true }) = [] :=
  ⟨(update_keyboard_leds_report host_ok { kb_init with caps_lock_state := true }).2.2.2.2.2.1
      (by decide) (by decide) rfl,
   ((update_keyboard_leds_report { host_ok with dev_hdl := none }
      { kb_init with caps_lock_state := true }).2.2.2.2.2.2 (Or.inl rfl)).2⟩

/-! ## Lemmas on the gamepad, mouse and media decoders -/

theorem or_shiftLeft_eq_add (a b k : Nat) (ha : a < 2 ^ k) : a ||| (b <<< k) = a + b * 2 ^ k := by
  rw [Nat.shiftLeft_eq, Nat.or_comm, Nat.mul_comm, ← Nat.mul_add_lt_is_or ha, Nat.add_comm]

theorem and_ff_eq_mod (x : Nat) : x &&& 0xFF = x % 256 :=
  Nat.and_pow_two_sub_one_eq_mod x 8

theorem and_0f_eq_mod (x : Nat) : x &&& 0x0F = x % 16 :=
  Nat.and_pow_two_sub_one_eq_mod x 4

theorem stick_x_eq (b0 b1 : Nat) (h0 : b0 < 256) : stick_x b0 b1 = b0 + (b1 % 16) * 256 := by
  unfold stick_x
  rw [and_0f_eq_mod, or_shiftLeft_eq_add b0 (b1 % 16) 8 h0]
  omega

theorem stick_y_eq (b1 b2 : Nat) (h1 : b1 < 256) (h2 : b2 < 256) :
    stick_y b1 b2 = b1 / 16 + b2 * 16 := by
  unfold stick_y
  rw [Nat.shiftRight_eq_div_pow, or_shiftLeft_eq_add (b1 / 2 ^ 4) b2 4 (by omega)]
  omega

theorem bit_set_low (b m : Nat) (hm : m < 16) : bit_set (b &&& 0x0F) m = bit_set b m := by
  unfold bit_set
  rw [Nat.and_assoc]
  have : 0x0F &&& m = m := by interval_cases m <;> rfl
  rw [this]

theorem dpad_of_low (b : Nat) : dpad_of (b &&& 0x0F) = dpad_of b := by
  unfold dpad_of
  simp only [bit_set_low b 0x01 (by decide), bit_set_low b 0x02 (by decide),
    bit_set_low b 0x04 (by decide), bit_set_low b 0x08 (by decide)]

theorem dpad_table (n : Nat) (hn : n < 16) :
    dpad_of n = [15, 4, 0, 4, 2, 3, 1, 1, 6, 5, 7, 7, 2, 5, 7, 7].getD n 0 := by
  interval_cases n <;> rfl


/-! ### The gamepad callback -/

theorem stick_events_append (a b : List PadEvent) :
    stick_events (a ++ b) = stick_events a ++ stick_events b := by
  induction a with
  | nil => rfl
  | cons e a ih => cases e <;> simp [stick_events, ih]

theorem stick_events_ite (c : Prop) [Decidable c] (a b : List PadEvent) :
    stick_events (if c then a else b) = if c then stick_events a else stick_events b := by
  split <;> rfl

theorem pad_dpad_state (st : PadState) (x : Nat) :
    (∃ d, (pad_dpad st x).1 = { st with last_dpad := d })
    ∧ stick_events (pad_dpad st x).2 = [] := by
  unfold pad_dpad
  split_ifs
  · exact ⟨⟨x, rfl⟩, rfl⟩
  · exact ⟨⟨x, rfl⟩, rfl⟩
  · exact ⟨⟨0x0F, rfl⟩, rfl⟩
  · exact ⟨⟨st.last_dpad, rfl⟩, rfl⟩

theorem pad_right_state (st : PadState) (x : Nat) :
    (∃ a b, (pad_right st x).1
        = { st with gamepad_button_a := a, gamepad_button_b := b, last_buttons0 := x })
    ∧ stick_events (pad_right st x).2 = [] := by
  unfold pad_right
  by_cases hx : x = st.last_buttons0
  · refine ⟨⟨st.gamepad_button_a, st.gamepad_button_b, ?_⟩, ?_⟩
    · simp [hx]
    · simp [hx, stick_events]
  · refine ⟨⟨if released x st.last_buttons0 0x08 then false
        else if pressed x st.last_buttons0 0x08 then true else st.gamepad_button_a,
      if released x st.last_buttons0 0x04 then false
        else if pressed x st.last_buttons0 0x04 then true else st.gamepad_button_b, ?_⟩, ?_⟩
    · rw [if_pos hx]
    · rw [if_pos hx]
      simp [stick_events_append, stick_events_ite, stick_events]

theorem pad_shared_state (st : PadState) (sw : SwitchState) (x : Nat) :
    (∃ m, (pad_shared st sw x).1 = { st with gamepad_button_home := m, last_buttons1 := x })
    ∧ stick_events (pad_shared st sw x).2.2 = [] := by
  unfold pad_shared
  by_cases hx : x = st.last_buttons1
  · refine ⟨⟨st.gamepad_button_home, ?_⟩, ?_⟩
    · simp [hx]
    · simp [hx, stick_events]
  · refine ⟨⟨if released x st.last_buttons1 0x10 then false
        else if pressed x st.last_buttons1 0x10 then true else st.gamepad_button_home, ?_⟩, ?_⟩
    · rw [if_pos hx]
    · rw [if_pos hx]
      simp [stick_events_append, stick_events_ite, stick_events]

theorem pad_left_state (st : PadState) (x : Nat) :
    (pad_left st x).1 = { st with last_buttons2 := x }
    ∧ stick_events (pad_left st x).2 = [] := by
  unfold pad_left
  by_cases hx : x = st.last_buttons2
  · constructor
    · simp [hx]
    · simp [hx, stick_events]
  · constructor
    · rw [if_pos hx]
    · rw [if_pos hx]
      simp [stick_events_append, stick_events_ite, stick_events]

theorem send_switch_command_sticks (h : Host) (sw : SwitchState) (cmd : Nat) (data : List Nat) :
    stick_events (send_switch_command h sw cmd data).2 = [] := by
  unfold send_switch_command
  split_ifs <;> rfl

theorem poll_switch_controller_sticks (h : Host) (now : Nat) (sw : SwitchState) :
    stick_events (poll_switch_controller h now sw).2 = [] := by
  unfold poll_switch_controller
  split_ifs
  · rfl
  · rfl
  · exact send_switch_command_sticks _ _ _ _

theorem abs_diff_self (a : Nat) : abs_diff a a = 0 := by
  simp [abs_diff]

/-- The stick section once the reference is set (`first_read` false). -/
theorem pad_sticks_later (s : PadState) (v : Nat × Nat × Nat × Nat) (hf : s.first_read = false) :
    (pad_sticks s v).1 =
      { s with
        last_lx := if abs_diff v.1 s.last_lx > 300 ∨ abs_diff v.2.1 s.last_ly > 300
          then v.1 else s.last_lx
        last_ly := if abs_diff v.1 s.last_lx > 300 ∨ abs_diff v.2.1 s.last_ly > 300
          then v.2.1 else s.last_ly
        last_rx := if abs_diff v.2.2.1 s.last_rx > 300 ∨ abs_diff v.2.2.2 s.last_ry > 300
          then v.2.2.1 else s.last_rx
        last_ry := if abs_diff v.2.2.1 s.last_rx > 300 ∨ abs_diff v.2.2.2 s.last_ry > 300
          then v.2.2.2 else s.last_ry }
    ∧ (pad_sticks s v).2 =
      (if abs_diff v.1 s.last_lx > 300 ∨ abs_diff v.2.1 s.last_ly > 300
        then [PadEvent.left_stick v.1 v.2.1] else [])
      ++ (if abs_diff v.2.2.1 s.last_rx > 300 ∨ abs_diff v.2.2.2 s.last_ry > 300
        then [PadEvent.right_stick v.2.2.1 v.2.2.2] else []) := by
  obtain ⟨b0, b1, b2, dp, lx, ly, rx, ry, fr, ga, gb, gh⟩ := s
  simp only at hf
  subst hf
  by_cases hL : abs_diff v.1 lx > 300 ∨ abs_diff v.2.1 ly > 300 <;>
    by_cases hR : abs_diff v.2.2.1 rx > 300 ∨ abs_diff v.2.2.2 ry > 300 <;>
    simp [pad_sticks, pad_center, pad_stick_left, pad_stick_right, hL, hR]

/-- The stick section on the first read: the values become the reference, the only
line is "Stick center". -/
theorem pad_sticks_first (s : PadState) (v : Nat × Nat × Nat × Nat) (hf : s.first_read = true) :
    (pad_sticks s v).1 =
      { s with
        last_lx := v.1
        last_ly := v.2.1
        last_rx := v.2.2.1
        last_ry := v.2.2.2
        first_read := false }
    ∧ (pad_sticks s v).2 = [PadEvent.stick_center v.1 v.2.1 v.2.2.1 v.2.2.2] := by
  obtain ⟨b0, b1, b2, dp, lx, ly, rx, ry, fr, ga, gb, gh⟩ := s
  simp only at hf
  subst hf
  simp [pad_sticks, pad_center, pad_stick_left, pad_stick_right, abs_diff_self]

/-- A decoded report: the state before the stick section differs from the incoming one
only in the button fields, and the stick lines of the call are those of the stick
section. -/
theorem gamepad_cb_decoded (h : Host) (now : Nat) (st : PadState) (sw : SwitchState)
    (t : Transfer) (hc : t.completed = true) (hl : t.actual_num_bytes ≥ pad_offset t + 6) :
    ∃ d a b m,
      (gamepad_transfer_cb h now st sw t).1
        = (pad_sticks (pad_pre st t d a b m) (stick_values t)).1
      ∧ stick_events (gamepad_transfer_cb h now st sw t).2.2
        = stick_events (pad_sticks (pad_pre st t d a b m) (stick_values t)).2 := by
  obtain ⟨⟨d, hd⟩, hde⟩ := pad_dpad_state st (dpad_of (pad_buttons t).2.2)
  obtain ⟨⟨a, b, hr⟩, hre⟩ := pad_right_state (pad_dpad st (dpad_of (pad_buttons t).2.2)).1
    (pad_buttons t).1
  obtain ⟨⟨m, hs⟩, hse⟩ := pad_shared_state
    (pad_right (pad_dpad st (dpad_of (pad_buttons t).2.2)).1 (pad_buttons t).1).1
    (poll_switch_controller h now sw).1 (pad_buttons t).2.1
  obtain ⟨hlf, hle⟩ := pad_left_state
    (pad_shared (pad_right (pad_dpad st (dpad_of (pad_buttons t).2.2)).1 (pad_buttons t).1).1
      (poll_switch_controller h now sw).1 (pad_buttons t).2.1).1 (pad_buttons t).2.2
  refine ⟨d, a, b, m, ?_, ?_⟩
  · simp only [gamepad_transfer_cb, hc, hl, pad_decode, Bool.not_true, Bool.false_eq_true,
      if_false, if_true, ge_iff_le]
    rw [hlf, hs, hr, hd]
    rfl
  · simp only [gamepad_transfer_cb, hc, hl, pad_decode, Bool.not_true, Bool.false_eq_true,
      if_false, if_true, ge_iff_le, stick_events_append, hde, hre, hse, hle,
      poll_switch_controller_sticks, List.nil_append, stick_events, List.append_nil]
    rw [hlf, hs, hr, hd]
    rfl


theorem pad_sticks_frame (s : PadState) (v : Nat × Nat × Nat × Nat) :
    (pad_sticks s v).1.last_buttons0 = s.last_buttons0
    ∧ (pad_sticks s v).1.last_buttons1 = s.last_buttons1
    ∧ (pad_sticks s v).1.last_buttons2 = s.last_buttons2
    ∧ (pad_sticks s v).1.first_read = false := by
  cases hf : s.first_read
  · rw [(pad_sticks_later s v hf).1]
    exact ⟨rfl, rfl, rfl, hf⟩
  · rw [(pad_sticks_first s v hf).1]
    exact ⟨rfl, rfl, rfl, rfl⟩

/-- After a decoded report the remembered button bytes are the ones the report was
read at, and `first_read` is false. -/
theorem gamepad_cb_buttons (h : Host) (now : Nat) (st : PadState) (sw : SwitchState)
    (t : Transfer) (hc : t.completed = true) (hl : t.actual_num_bytes ≥ pad_offset t + 6) :
    (gamepad_transfer_cb h now st sw t).1.last_buttons0 = (pad_buttons t).1
    ∧ (gamepad_transfer_cb h now st sw t).1.last_buttons1 = (pad_buttons t).2.1
    ∧ (gamepad_transfer_cb h now st sw t).1.last_buttons2 = (pad_buttons t).2.2
    ∧ (gamepad_transfer_cb h now st sw t).1.first_read = false := by
  obtain ⟨d, a, b, m, h1, _⟩ := gamepad_cb_decoded h now st sw t hc hl
  rw [h1]
  exact pad_sticks_frame _ _

/-- A transfer that is not decoded leaves the decoder statics alone and writes no stick
line. -/
theorem gamepad_cb_skipped (h : Host) (now : Nat) (st : PadState) (sw : SwitchState)
    (t : Transfer) (hs : ¬ (t.completed = true ∧ t.actual_num_bytes ≥ pad_offset t + 6)) :
    (gamepad_transfer_cb h now st sw t).1 = st
    ∧ stick_events (gamepad_transfer_cb h now st sw t).2.2 = [] := by
  unfold gamepad_transfer_cb
  cases hc : t.completed
  · exact ⟨rfl, rfl⟩
  · have hl : ¬ t.actual_num_bytes ≥ pad_offset t + 6 := fun hl => hs ⟨hc, hl⟩
    simp only [Bool.not_true, Bool.false_eq_true, if_false, if_neg hl, stick_events_append,
      poll_switch_controller_sticks, stick_events, List.append_nil, and_self]

/-- The stick rule of one decoded report after the first read. -/
theorem gamepad_cb_sticks (h : Host) (now : Nat) (st : PadState) (sw : SwitchState)
    (t : Transfer) (hc : t.completed = true) (hl : t.actual_num_bytes ≥ pad_offset t + 6)
    (hf : st.first_read = false) :
    stick_events (gamepad_transfer_cb h now st sw t).2.2
        = (if abs_diff (stick_values t).1 st.last_lx > 300
              ∨ abs_diff (stick_values t).2.1 st.last_ly > 300
            then [PadEvent.left_stick (stick_values t).1 (stick_values t).2.1] else [])
          ++ (if abs_diff (stick_values t).2.2.1 st.last_rx > 300
              ∨ abs_diff (stick_values t).2.2.2 st.last_ry > 300
            then [PadEvent.right_stick (stick_values t).2.2.1 (stick_values t).2.2.2] else [])
    ∧ (gamepad_transfer_cb h now st sw t).1.last_lx
        = (if abs_diff (stick_values t).1 st.last_lx > 300
              ∨ abs_diff (stick_values t).2.1 st.last_ly > 300
            then (stick_values t).1 else st.last_lx)
    ∧ (gamepad_transfer_cb h now st sw t).1.last_ly
        = (if abs_diff (stick_values t).1 st.last_lx > 300
              ∨ abs_diff (stick_values t).2.1 st.last_ly > 300
            then (stick_values t).2.1 else st.last_ly)
    ∧ (gamepad_transfer_cb h now st sw t).1.last_rx
        = (if abs_diff (stick_values t).2.2.1 st.last_rx > 300
              ∨ abs_diff (stick_values t).2.2.2 st.last_ry > 300
            then (stick_values t).2.2.1 else st.last_rx)
    ∧ (gamepad_transfer_cb h now st sw t).1.last_ry
        = (if abs_diff (stick_values t).2.2.1 st.last_rx > 300
              ∨ abs_diff (stick_values t).2.2.2 st.last_ry > 300
            then (stick_values t).2.2.2 else st.last_ry) := by
  obtain ⟨d, a, b, m, h1, h2⟩ := gamepad_cb_decoded h now st sw t hc hl
  have hp : (pad_pre st t d a b m).first_read = false := hf
  obtain ⟨p1, p2⟩ := pad_sticks_later (pad_pre st t d a b m) (stick_values t) hp
  rw [h1, h2, p1, p2]
  refine ⟨?_, rfl, rfl, rfl, rfl⟩
  change stick_events
    ((if abs_diff (stick_values t).1 st.last_lx > 300
        ∨ abs_diff (stick_values t).2.1 st.last_ly > 300
      then [PadEvent.left_stick (stick_values t).1 (stick_values t).2.1] else [])
    ++ (if abs_diff (stick_values t).2.2.1 st.last_rx > 300
        ∨ abs_diff (stick_values t).2.2.2 st.last_ry > 300
      then [PadEvent.right_stick (stick_values t).2.2.1 (stick_values t).2.2.2] else [])) = _
  rw [stick_events_append]
  split_ifs <;> rfl

/-- One completion whose stick values are near the last reported ones: no stick line,
the last reported values stay. -/
theorem gamepad_cb_quiet (h : Host) (now : Nat) (st : PadState) (sw : SwitchState)
    (t : Transfer) (hf : st.first_read = false)
    (hn : t.completed = true → t.actual_num_bytes ≥ pad_offset t + 6 →
      stick_near st (stick_values t)) :
    stick_events (gamepad_transfer_cb h now st sw t).2.2 = []
    ∧ (gamepad_transfer_cb h now st sw t).1.last_lx = st.last_lx
    ∧ (gamepad_transfer_cb h now st sw t).1.last_ly = st.last_ly
    ∧ (gamepad_transfer_cb h now st sw t).1.last_rx = st.last_rx
    ∧ (gamepad_transfer_cb h now st sw t).1.last_ry = st.last_ry
    ∧ (gamepad_transfer_cb h now st sw t).1.first_read = false := by
  by_cases hd : t.completed = true ∧ t.actual_num_bytes ≥ pad_offset t + 6
  · obtain ⟨n1, n2, n3, n4⟩ := hn hd.1 hd.2
    obtain ⟨e, x1, x2, x3, x4⟩ := gamepad_cb_sticks h now st sw t hd.1 hd.2 hf
    have hL : ¬ (abs_diff (stick_values t).1 st.last_lx > 300
        ∨ abs_diff (stick_values t).2.1 st.last_ly > 300) := by omega
    have hR : ¬ (abs_diff (stick_values t).2.2.1 st.last_rx > 300
        ∨ abs_diff (stick_values t).2.2.2 st.last_ry > 300) := by omega
    rw [if_neg hL, if_neg hR] at e
    rw [if_neg hL] at x1 x2
    rw [if_neg hR] at x3 x4
    exact ⟨e, x1, x2, x3, x4, (gamepad_cb_buttons h now st sw t hd.1 hd.2).2.2.2⟩
  · obtain ⟨s1, s2⟩ := gamepad_cb_skipped h now st sw t hd
    rw [s1]
    exact ⟨s2, rfl, rfl, rfl, rfl, hf⟩

theorem gamepad_run_quiet (h : Host) (inputs : List (Nat × Transfer)) :
    ∀ (st : PadState) (sw : SwitchState), st.first_read = false →
      (∀ p ∈ inputs, p.2.completed = true → p.2.actual_num_bytes ≥ pad_offset p.2 + 6 →
        stick_near st (stick_values p.2)) →
      stick_events (gamepad_run h st sw inputs).2.2 = []
      ∧ (gamepad_run h st sw inputs).1.last_lx = st.last_lx
      ∧ (gamepad_run h st sw inputs).1.last_ly = st.last_ly
      ∧ (gamepad_run h st sw inputs).1.last_rx = st.last_rx
      ∧ (gamepad_run h st sw inputs).1.last_ry = st.last_ry := by
  induction inputs with
  | nil => intro st sw _ _; exact ⟨rfl, rfl, rfl, rfl, rfl⟩
  | cons p rest ih =>
    intro st sw hf hn
    obtain ⟨now, t⟩ := p
    obtain ⟨q0, q1, q2, q3, q4, q5⟩ := gamepad_cb_quiet h now st sw t hf
      (hn (now, t) (List.mem_cons_self _ _))
    have hrest : ∀ p ∈ rest, p.2.completed = true → p.2.actual_num_bytes ≥ pad_offset p.2 + 6 →
        stick_near (gamepad_transfer_cb h now st sw t).1 (stick_values p.2) := by
      intro p hp c l
      have := hn p (List.mem_cons_of_mem _ hp) c l
      unfold stick_near at this ⊢
      rw [q1, q2, q3, q4]
      exact this
    obtain ⟨r0, r1, r2, r3, r4⟩ := ih (gamepad_transfer_cb h now st sw t).1
      (gamepad_transfer_cb h now st sw t).2.1 q5 hrest
    simp only [gamepad_run, stick_events_append, q0, r0, List.append_nil]
    exact ⟨trivial, r1.trans q1, r2.trans q2, r3.trans q3, r4.trans q4⟩

theorem pad_shared_fst (st : PadState) (sw sw2 : SwitchState) (x : Nat) :
    (pad_shared st sw x).1 = (pad_shared st sw2 x).1 := by
  unfold pad_shared
  split_ifs <;> rfl

/-- The decoder statics after a completion do not depend on the transport, the clock or
the engine statics (the vendor-controller flag among them). -/
theorem gamepad_cb_fst (h h2 : Host) (now now2 : Nat) (st : PadState) (sw sw2 : SwitchState)
    (t : Transfer) :
    (gamepad_transfer_cb h now st sw t).1 = (gamepad_transfer_cb h2 now2 st sw2 t).1 := by
  unfold gamepad_transfer_cb
  cases t.completed
  · rfl
  · simp only [Bool.not_true, Bool.false_eq_true, if_false]
    split_ifs
    · simp only [pad_decode]
      rw [pad_shared_fst _ (poll_switch_controller h now sw).1 (poll_switch_controller h2 now2 sw2).1]
    · rfl

theorem is_official_iff (t : Transfer) :
    is_official t = true ↔ t.actual_num_bytes = 64 ∧ (t.byte 0 = 0x30 ∨ t.byte 0 = 0x21) := by
  simp [is_official]

/-! ### The mouse and media callbacks -/

theorem mouse_buttons_events (st : MouseState) (b : Nat) :
    (MouseEvent.left_sensor true ∈ (mouse_buttons st b).2 ↔ pressed b st.last_buttons 0x01 = true)
    ∧ (MouseEvent.left_sensor false ∈ (mouse_buttons st b).2
        ↔ released b st.last_buttons 0x01 = true)
    ∧ (MouseEvent.right_sensor true ∈ (mouse_buttons st b).2
        ↔ pressed b st.last_buttons 0x02 = true)
    ∧ (MouseEvent.right_sensor false ∈ (mouse_buttons st b).2
        ↔ released b st.last_buttons 0x02 = true) := by
  unfold mouse_buttons
  by_cases hb : b = st.last_buttons
  · subst hb
    simp [pressed, released]
  · rw [if_pos hb]
    simp only [List.mem_append]
    refine ⟨?_, ?_, ?_, ?_⟩ <;>
    · constructor
      · intro hm
        rcases hm with ((((hm | hm) | hm) | hm) | hm) | hm <;>
          split_ifs at hm <;> simp_all
      · intro hp
        simp [hp]

theorem mouse_buttons_state (st : MouseState) (b : Nat) :
    (mouse_buttons st b).1.last_buttons = b
    ∧ (mouse_buttons st b).1.mouse_left_button
        = (if released b st.last_buttons 0x01 then false
            else if pressed b st.last_buttons 0x01 then true else st.mouse_left_button)
    ∧ (mouse_buttons st b).1.mouse_right_button
        = (if released b st.last_buttons 0x02 then false
            else if pressed b st.last_buttons 0x02 then true else st.mouse_right_button) := by
  unfold mouse_buttons
  by_cases hb : b = st.last_buttons
  · subst hb
    simp [pressed, released]
  · rw [if_pos hb]
    exact ⟨rfl, rfl, rfl⟩

theorem mouse_cb_decoded (st : MouseState) (t : Transfer) (hc : t.completed = true)
    (hl : 3 ≤ t.actual_num_bytes) :
    (mouse_transfer_cb st t).1 = (mouse_buttons st (t.byte 0)).1
    ∧ ∀ b, (MouseEvent.left_sensor b ∈ (mouse_transfer_cb st t).2
          ↔ MouseEvent.left_sensor b ∈ (mouse_buttons st (t.byte 0)).2)
        ∧ (MouseEvent.right_sensor b ∈ (mouse_transfer_cb st t).2
          ↔ MouseEvent.right_sensor b ∈ (mouse_buttons st (t.byte 0)).2) := by
  unfold mouse_transfer_cb
  simp only [hc, hl, ge_iff_le, decide_True, Bool.and_self, if_true]
  refine ⟨trivial, fun b => ⟨?_, ?_⟩⟩ <;>
  · simp only [List.mem_append, List.mem_singleton]
    constructor
    · intro hm
      rcases hm with ((hm | hm) | hm) | hm
      · exact hm
      · split_ifs at hm <;> simp at hm
      · split_ifs at hm <;> simp at hm
      · simp at hm
    · intro hm
      exact Or.inl (Or.inl (Or.inl hm))

theorem media_relative_frame (st : MediaState) (t : Transfer) :
    (media_relative st t).1.last_buttons = st.last_buttons
    ∧ (media_relative st t).1.last_x = st.last_x
    ∧ (media_relative st t).1.last_y = st.last_y
    ∧ (media_relative st t).1.click_x = st.click_x
    ∧ (media_relative st t).1.click_y = st.click_y := by
  unfold media_relative
  simp only
  split_ifs <;> exact ⟨rfl, rfl, rfl, rfl, rfl⟩

theorem media_keys_eq (t : Transfer) (l : List Nat) :
    l.filterMap (fun i => if t.byte i = 0 then none
        else some (MediaEvent.media_key (media_name (t.byte i)) (t.byte i)))
      = ((l.map t.byte).filter (fun k => k != 0)).map
          (fun k => MediaEvent.media_key (media_name k) k) := by
  induction l with
  | nil => rfl
  | cons i l ih =>
    by_cases hz : t.byte i = 0
    · simp [List.filterMap_cons, hz, ih]
    · simp [List.filterMap_cons, hz, ih]

theorem media_name_unknown (k : Nat)
    (hk : k ∉ [0xE9, 0xEA, 0xE2, 0xCD, 0xB5, 0xB6, 0xB7, 0x8A, 0x92, 0x94, 0x23, 0x21,
      0x24, 0x25]) : media_name k = "Unknown" := by
  unfold media_name
  split <;> simp_all

/-! ## The claims on the gamepad, mouse and media decoders -/

/-- C11: the framing test is true exactly for a 64-byte report whose byte 0 is 0x30 or
0x21; the button bytes are then read at indices 3, 4, 5 and otherwise at 0, 1, 2; two
reports with the same length and byte 0 get the same framing; and after a decoded
report the remembered button bytes are the bytes at those indices. -/
theorem gamepad_framing (h : Host) (now : Nat) (st : PadState) (sw : SwitchState)
    (t t2 : Transfer) :
    (is_official t = true ↔ t.actual_num_bytes = 64 ∧ (t.byte 0 = 0x30 ∨ t.byte 0 = 0x21))
    ∧ (is_official t = true → pad_buttons t = (t.byte 3, t.byte 4, t.byte 5))
    ∧ (is_official t = false → pad_buttons t = (t.byte 0, t.byte 1, t.byte 2))
    ∧ (t2.actual_num_bytes = t.actual_num_bytes → t2.byte 0 = t.byte 0 →
        is_official t2 = is_official t)
    ∧ (t.completed = true → t.actual_num_bytes ≥ pad_offset t + 6 →
        ((gamepad_transfer_cb h now st sw t).1.last_buttons0,
          (gamepad_transfer_cb h now st sw t).1.last_buttons1,
          (gamepad_transfer_cb h now st sw t).1.last_buttons2) = pad_buttons t) := by
  refine ⟨is_official_iff t, ?_, ?_, ?_, ?_⟩
  · intro ho
    simp [pad_buttons, pad_offset, ho]
  · intro ho
    simp [pad_buttons, pad_offset, ho]
  · intro hlen hb
    simp [is_official, hlen, hb]
  · intro hc hl
    obtain ⟨b0, b1, b2, _⟩ := gamepad_cb_buttons h now st sw t hc hl
    rw [b0, b1, b2]

/-- Witness of C11: a 64-byte report with id 0x30 remembers the bytes 3, 4, 5; an 8-byte
report starting with 0x30 remembers the bytes 0, 1, 2. -/
theorem gamepad_framing_witness :
    ((gamepad_transfer_cb host_ok 0 pad_init switch_init (official_report 4 2 1 0 0 0 0)).1.last_buttons0,
      (gamepad_transfer_cb host_ok 0 pad_init switch_init (official_report 4 2 1 0 0 0 0)).1.last_buttons1,
      (gamepad_transfer_cb host_ok 0 pad_init switch_init (official_report 4 2 1 0 0 0 0)).1.last_buttons2)
        = pad_buttons (official_report 4 2 1 0 0 0 0)
    ∧ pad_buttons (official_report 4 2 1 0 0 0 0) = (4, 2, 1)
    ∧ pad_buttons (completed_report [0x30, 7, 9, 4, 2, 1, 0, 0]) = (0x30, 7, 9) :=
  ⟨(gamepad_framing host_ok 0 pad_init switch_init (official_report 4 2 1 0 0 0 0)
      (official_report 4 2 1 0 0 0 0)).2.2.2.2 (by decide) (by decide),
   (gamepad_framing host_ok 0 pad_init switch_init (official_report 4 2 1 0 0 0 0)
      (official_report 4 2 1 0 0 0 0)).2.1 (by decide),
   (gamepad_framing host_ok 0 pad_init switch_init (completed_report [0x30, 7, 9, 4, 2, 1, 0, 0])
      (official_report 4 2 1 0 0 0 0)).2.2.1 (by decide)⟩

/-- C12 (counterexample): the vendor-controller flag is clear, the report has 64 bytes,
starts with 0x30 and carries 0x04 at index 3.  It is decoded with official framing:
button B (bit 2 of byte 3) is reported and byte 3 is remembered, where third-party
framing would have read byte 0. -/
theorem nonvendor_report_official_counterexample :
    switch_init.is_official_switch = false
    ∧ (official_report 4 0 0 0 0 0 0).actual_num_bytes = 64
    ∧ (official_report 4 0 0 0 0 0 0).byte 0 = 0x30
    ∧ is_official (official_report 4 0 0 0 0 0 0) = true
    ∧ (gamepad_transfer_cb host_ok 0 pad_init switch_init
        (official_report 4 0 0 0 0 0 0)).1.last_buttons0 = 4
    ∧ (gamepad_transfer_cb host_ok 0 pad_init switch_init
        (official_report 4 0 0 0 0 0 0)).2.2
      = [PadEvent.button "B", PadEvent.b_sensor true, PadEvent.stick_center 0 0 0 0,
          PadEvent.resubmit] := by
  refine ⟨rfl, rfl, rfl, rfl, rfl, rfl⟩

/-- C12 (amended): the framing does not consult the vendor-controller flag: a completed
64-byte report whose byte 0 is 0x30 or 0x21 is decoded with official framing in every
session, the flag set or clear (the bytes 3, 4, 5 are remembered as the button bytes),
and the decoder statics after any completion are the same for every value of the
engine statics. -/
theorem framing_ignores_vendor_flag (h : Host) (now : Nat) (st : PadState)
    (sw sw2 : SwitchState) (t : Transfer)
    (hc : t.completed = true) (hlen : t.actual_num_bytes = 64)
    (hid : t.byte 0 = 0x30 ∨ t.byte 0 = 0x21) :
    is_official t = true
    ∧ ((gamepad_transfer_cb h now st sw t).1.last_buttons0,
        (gamepad_transfer_cb h now st sw t).1.last_buttons1,
        (gamepad_transfer_cb h now st sw t).1.last_buttons2) = (t.byte 3, t.byte 4, t.byte 5)
    ∧ (gamepad_transfer_cb h now st sw t).1 = (gamepad_transfer_cb h now st sw2 t).1 := by
  have ho : is_official t = true := (is_official_iff t).2 ⟨hlen, hid⟩
  have hl : t.actual_num_bytes ≥ pad_offset t + 6 := by
    simp [pad_offset, ho, hlen]
  obtain ⟨b0, b1, b2, _⟩ := gamepad_cb_buttons h now st sw t hc hl
  refine ⟨ho, ?_, gamepad_cb_fst _ _ _ _ _ _ _ _⟩
  rw [b0, b1, b2]
  simp [pad_buttons, pad_offset, ho]

/-- Witness of C12 (amended): the report of the counterexample, flag clear. -/
theorem framing_ignores_vendor_flag_witness :
    is_official (official_report 4 0 0 0 0 0 0) = true
    ∧ ((gamepad_transfer_cb host_ok 0 pad_init switch_init
          (official_report 4 0 0 0 0 0 0)).1.last_buttons0,
        (gamepad_transfer_cb host_ok 0 pad_init switch_init
          (official_report 4 0 0 0 0 0 0)).1.last_buttons1,
        (gamepad_transfer_cb host_ok 0 pad_init switch_init
          (official_report 4 0 0 0 0 0 0)).1.last_buttons2)
      = ((official_report 4 0 0 0 0 0 0).byte 3, (official_report 4 0 0 0 0 0 0).byte 4,
          (official_report 4 0 0 0 0 0 0).byte 5)
    ∧ (gamepad_transfer_cb host_ok 0 pad_init switch_init (official_report 4 0 0 0 0 0 0)).1
      = (gamepad_transfer_cb host_ok 0 pad_init { switch_init with is_official_switch := true }
          (official_report 4 0 0 0 0 0 0)).1 :=
  framing_ignores_vendor_flag host_ok 0 pad_init switch_init
    { switch_init with is_official_switch := true } (official_report 4 0 0 0 0 0 0)
    rfl rfl (Or.inl rfl)

/-- C13: the D-pad value depends only on bits 0-3 of the left-cluster byte and is always
one of 0 .. 7 or 0x0F; it is 0x0F exactly when none of the four bits is set; a single
bit gives Down (4), Up (0), Right (2), Left (6); the two-bit diagonals give Down-Right
(3), Down-Left (5), Up-Right (1), Up-Left (7). -/
theorem dpad_decode_total (b : Nat) :
    dpad_of b = dpad_of (b &&& 0x0F)
    ∧ dpad_of b ∈ [0, 1, 2, 3, 4, 5, 6, 7, 0x0F]
    ∧ (dpad_of b = 0x0F ↔ b &&& 0x0F = 0)
    ∧ (b &&& 0x0F = 0x01 → dpad_of b = 4)
    ∧ (b &&& 0x0F = 0x02 → dpad_of b = 0)
    ∧ (b &&& 0x0F = 0x04 → dpad_of b = 2)
    ∧ (b &&& 0x0F = 0x08 → dpad_of b = 6)
    ∧ (b &&& 0x0F = 0x05 → dpad_of b = 3)
    ∧ (b &&& 0x0F = 0x09 → dpad_of b = 5)
    ∧ (b &&& 0x0F = 0x06 → dpad_of b = 1)
    ∧ (b &&& 0x0F = 0x0A → dpad_of b = 7) := by
  have hlow := dpad_of_low b
  have hn : b &&& 0x0F < 16 := by rw [and_0f_eq_mod]; omega
  rw [← hlow]
  generalize b &&& 0x0F = n at hn
  refine ⟨rfl, ?_, ?_, ?_, ?_, ?_, ?_, ?_, ?_, ?_, ?_⟩
  · interval_cases n <;> decide
  · interval_cases n <;> decide
  all_goals
    intro hb
    subst hb
    rfl

/-- Witness of C13: the byte 0xC5 (L and ZL held with Down and Right) decodes like its
low nibble 0x05, to Down-Right. -/
theorem dpad_decode_total_witness : dpad_of 0xC5 = 3 :=
  (dpad_decode_total 0xC5).2.2.2.2.2.2.2.1 (by decide)

/-- C14: unpacking inverts the 12-bit packing: for `x, y < 4096` the three bytes
`[x & 0xFF, (x >> 8) | ((y & 0x0F) << 4), y >> 4]` decode to exactly `(x, y)`; and any
three bytes decode to values below 4096. -/
theorem stick_unpack_pack (x y b0 b1 b2 : Nat) :
    (x < 4096 → y < 4096 →
      stick_x (x &&& 0xFF) ((x >>> 8) ||| ((y &&& 0x0F) <<< 4)) = x
      ∧ stick_y ((x >>> 8) ||| ((y &&& 0x0F) <<< 4)) (y >>> 4) = y)
    ∧ (b0 < 256 → b1 < 256 → b2 < 256 → stick_x b0 b1 < 4096 ∧ stick_y b1 b2 < 4096) := by
  constructor
  · intro hx hy
    have hb1 : (x >>> 8) ||| ((y &&& 0x0F) <<< 4) = x / 256 + (y % 16) * 16 := by
      rw [Nat.shiftRight_eq_div_pow, and_0f_eq_mod,
        or_shiftLeft_eq_add (x / 2 ^ 8) (y % 16) 4 (by omega)]
      omega
    rw [hb1, and_ff_eq_mod, Nat.shiftRight_eq_div_pow,
      stick_x_eq _ _ (by omega), stick_y_eq _ _ (by omega) (by omega)]
    constructor <;> omega
  · intro h0 h1 h2
    rw [stick_x_eq _ _ h0, stick_y_eq _ _ h1 h2]
    constructor <;> omega

/-- Witness of C14: the stick at (0xABC, 0x123) travels as the bytes BC 3A 12. -/
theorem stick_unpack_pack_witness :
    (stick_x (0xABC &&& 0xFF) ((0xABC >>> 8) ||| ((0x123 &&& 0x0F) <<< 4)) = 0xABC
      ∧ stick_y ((0xABC >>> 8) ||| ((0x123 &&& 0x0F) <<< 4)) (0x123 >>> 4) = 0x123)
    ∧ (stick_x 0xFF 0xFF < 4096 ∧ stick_y 0xFF 0xFF < 4096) :=
  ⟨(stick_unpack_pack 0xABC 0x123 0 0 0).1 (by decide) (by decide),
   (stick_unpack_pack 0 0 0xFF 0xFF 0xFF).2 (by decide) (by decide) (by decide)⟩

/-- C15: for a decoded report after the first read, the stick lines of the call are:
the left-stick line exactly when the left X or Y differs from its last reported value
by more than 300, then the right-stick line under the same test on the right stick; a
stick that emits takes both current values as its last reported ones, a stick that does
not keeps them, and neither stick touches the other one. -/
theorem stick_threshold_rule (h : Host) (now : Nat) (st : PadState) (sw : SwitchState)
    (t : Transfer) (hc : t.completed = true) (hl : t.actual_num_bytes ≥ pad_offset t + 6)
    (hf : st.first_read = false) :
    stick_events (gamepad_transfer_cb h now st sw t).2.2
        = (if abs_diff (stick_values t).1 st.last_lx > 300
              ∨ abs_diff (stick_values t).2.1 st.last_ly > 300
            then [PadEvent.left_stick (stick_values t).1 (stick_values t).2.1] else [])
          ++ (if abs_diff (stick_values t).2.2.1 st.last_rx > 300
              ∨ abs_diff (stick_values t).2.2.2 st.last_ry > 300
            then [PadEvent.right_stick (stick_values t).2.2.1 (stick_values t).2.2.2] else [])
    ∧ ((gamepad_transfer_cb h now st sw t).1.last_lx, (gamepad_transfer_cb h now st sw t).1.last_ly)
        = (if abs_diff (stick_values t).1 st.last_lx > 300
              ∨ abs_diff (stick_values t).2.1 st.last_ly > 300
            then ((stick_values t).1, (stick_values t).2.1) else (st.last_lx, st.last_ly))
    ∧ ((gamepad_transfer_cb h now st sw t).1.last_rx, (gamepad_transfer_cb h now st sw t).1.last_ry)
        = (if abs_diff (stick_values t).2.2.1 st.last_rx > 300
              ∨ abs_diff (stick_values t).2.2.2 st.last_ry > 300
            then ((stick_values t).2.2.1, (stick_values t).2.2.2)
            else (st.last_rx, st.last_ry)) := by
  obtain ⟨e, x1, x2, x3, x4⟩ := gamepad_cb_sticks h now st sw t hc hl hf
  refine ⟨e, ?_, ?_⟩
  · rw [x1, x2]; split_ifs <;> rfl
  · rw [x3, x4]; split_ifs <;> rfl

/-- Witness of C15: reference (2048, 2048, 2048, 2048); a report with the left stick at
(2400, 2048) and the right stick at (2100, 2348) emits the left stick only. -/
theorem stick_threshold_rule_witness :
    stick_events (gamepad_transfer_cb host_ok 0 { pad_init with first_read := false } switch_init
        (official_report 0 0 0 2400 2048 2100 2348)).2.2 = [PadEvent.left_stick 2400 2048]
    ∧ (gamepad_transfer_cb host_ok 0 { pad_init with first_read := false } switch_init
        (official_report 0 0 0 2400 2048 2100 2348)).1.last_lx = 2400
    ∧ (gamepad_transfer_cb host_ok 0 { pad_init with first_read := false } switch_init
        (official_report 0 0 0 2400 2048 2100 2348)).1.last_rx = 2048 := by
  have w := stick_threshold_rule host_ok 0 { pad_init with first_read := false } switch_init
    (official_report 0 0 0 2400 2048 2100 2348) rfl (by decide) rfl
  refine ⟨w.1.trans (by decide), ?_, ?_⟩
  · exact (congrArg Prod.fst w.2.1).trans (by decide)
  · exact (congrArg Prod.fst w.2.2).trans (by decide)

/-- C16 (counterexample): three official-framing reports with the left X at 2048, 2248,
2448.  The value drifts upwards in steps of 200, none above 300, and the third report
emits "Left Stick: X=2448 Y=2048": it is 400 away from the last reported value 2048. -/
theorem small_steps_emit_counterexample :
    abs_diff 2248 2048 ≤ 300 ∧ abs_diff 2448 2248 ≤ 300
    ∧ stick_events (gamepad_run host_ok pad_init switch_init
        [(0, official_report 0 0 0 2048 2048 2048 2048),
         (10, official_report 0 0 0 2248 2048 2048 2048),
         (20, official_report 0 0 0 2448 2048 2048 2048)]).2.2
      = [PadEvent.left_stick 2448 2048] := by
  refine ⟨by decide, by decide, by decide⟩

/-- C16 (amended): after the first read, a sequence of completions of any length in
which every decoded report has its four stick values within 300 of the last reported
values emits no stick line and leaves the last reported values as they were. -/
theorem no_stick_event_near_reference (h : Host) (st : PadState) (sw : SwitchState)
    (inputs : List (Nat × Transfer)) (hf : st.first_read = false)
    (hn : ∀ p ∈ inputs, p.2.completed = true → p.2.actual_num_bytes ≥ pad_offset p.2 + 6 →
      stick_near st (stick_values p.2)) :
    stick_events (gamepad_run h st sw inputs).2.2 = []
    ∧ (gamepad_run h st sw inputs).1.last_lx = st.last_lx
    ∧ (gamepad_run h st sw inputs).1.last_ly = st.last_ly
    ∧ (gamepad_run h st sw inputs).1.last_rx = st.last_rx
    ∧ (gamepad_run h st sw inputs).1.last_ry = st.last_ry :=
  gamepad_run_quiet h inputs st sw hf hn

/-- Witness of C16 (amended): the left X moves 2048, 2248, 2348, 2148 around the
reference 2048; nothing is emitted. -/
theorem no_stick_event_near_reference_witness :
    stick_events (gamepad_run host_ok { pad_init with first_read := false } switch_init
        [(0, official_report 0 0 0 2248 2048 2048 2048),
         (10, official_report 0 0 0 2348 2048 2048 2048),
         (20, official_report 0 0 0 2148 2048 2048 2048)]).2.2 = []
    ∧ (gamepad_run host_ok { pad_init with first_read := false } switch_init
        [(0, official_report 0 0 0 2248 2048 2048 2048),
         (10, official_report 0 0 0 2348 2048 2048 2048),
         (20, official_report 0 0 0 2148 2048 2048 2048)]).1.last_lx = 2048 :=
  ⟨(no_stick_event_near_reference host_ok { pad_init with first_read := false } switch_init
      [(0, official_report 0 0 0 2248 2048 2048 2048),
       (10, official_report 0 0 0 2348 2048 2048 2048),
       (20, official_report 0 0 0 2148 2048 2048 2048)] rfl (by decide)).1,
   (no_stick_event_near_reference host_ok { pad_init with first_read := false } switch_init
      [(0, official_report 0 0 0 2248 2048 2048 2048),
       (10, official_report 0 0 0 2348 2048 2048 2048),
       (20, official_report 0 0 0 2148 2048 2048 2048)] rfl (by decide)).2.1⟩

/-- C17: what the code does.  From the statics of program start the first decoded report
stores its stick values as the reference and writes no stick line.  But `first_read`,
once false, is false after every completion, and no other function can reach this
function-local static; so when the gamepad is detached and attached again, whatever the
handlers did to the engine statics, the first report of the new session (left X at
3000) is compared with the old reference 2048 and writes "Left Stick: X=3000 Y=2048". -/
theorem first_read_survives_reattach (h h2 : Host) (now now2 : Nat) (st : PadState)
    (sw sw2 : SwitchState) (t : Transfer) :
    (t.completed = true → t.actual_num_bytes ≥ pad_offset t + 6 →
      (gamepad_transfer_cb h now pad_init sw t).1.last_lx = (stick_values t).1
      ∧ (gamepad_transfer_cb h now pad_init sw t).1.last_ly = (stick_values t).2.1
      ∧ (gamepad_transfer_cb h now pad_init sw t).1.last_rx = (stick_values t).2.2.1
      ∧ (gamepad_transfer_cb h now pad_init sw t).1.last_ry = (stick_values t).2.2.2
      ∧ stick_events (gamepad_transfer_cb h now pad_init sw t).2.2 = [])
    ∧ (st.first_read = false → (gamepad_transfer_cb h now st sw t).1.first_read = false)
    ∧ stick_events (gamepad_transfer_cb h2 now2
        (gamepad_transfer_cb h now pad_init sw (official_report 0 0 0 2048 2048 2048 2048)).1
        sw2 (official_report 0 0 0 3000 2048 2048 2048)).2.2
      = [PadEvent.left_stick 3000 2048] := by
  refine ⟨?_, ?_, ?_⟩
  · intro hc hl
    obtain ⟨d, a, b, m, h1, h2⟩ := gamepad_cb_decoded h now pad_init sw t hc hl
    obtain ⟨p1, p2⟩ := pad_sticks_first (pad_pre pad_init t d a b m) (stick_values t) rfl
    rw [h1, h2, p1, p2]
    exact ⟨rfl, rfl, rfl, rfl, rfl⟩
  · intro hf
    by_cases hd : t.completed = true ∧ t.actual_num_bytes ≥ pad_offset t + 6
    · exact (gamepad_cb_buttons h now st sw t hd.1 hd.2).2.2.2
    · rw [(gamepad_cb_skipped h now st sw t hd).1]; exact hf
  · have e1 : (gamepad_transfer_cb h now pad_init sw
        (official_report 0 0 0 2048 2048 2048 2048)).1
        = (gamepad_transfer_cb host_ok 0 pad_init switch_init
          (official_report 0 0 0 2048 2048 2048 2048)).1 := gamepad_cb_fst _ _ _ _ _ _ _ _
    rw [e1]
    have e2 := (gamepad_cb_sticks h2 now2
      (gamepad_transfer_cb host_ok 0 pad_init switch_init
        (official_report 0 0 0 2048 2048 2048 2048)).1 sw2
      (official_report 0 0 0 3000 2048 2048 2048) rfl (by decide) (by decide)).1
    rw [e2]
    decide

/-- Witness of C17: the first report ever decoded sets the reference (2100, 2000, 2048,
2048) without a stick line. -/
theorem first_read_survives_reattach_witness :
    (gamepad_transfer_cb host_ok 0 pad_init switch_init
        (official_report 0 0 0 2100 2000 2048 2048)).1.last_lx
      = (stick_values (official_report 0 0 0 2100 2000 2048 2048)).1
    ∧ stick_events (gamepad_transfer_cb host_ok 0 pad_init switch_init
        (official_report 0 0 0 2100 2000 2048 2048)).2.2 = [] :=
  ⟨((first_read_survives_reattach host_ok host_ok 0 0 pad_init switch_init switch_init
      (official_report 0 0 0 2100 2000 2048 2048)).1 rfl (by decide)).1,
   ((first_read_survives_reattach host_ok host_ok 0 0 pad_init switch_init switch_init
      (official_report 0 0 0 2100 2000 2048 2048)).1 rfl (by decide)).2.2.2.2⟩

/-- C18: for a completed mouse report of at least 3 bytes, the left button is reported
pressed exactly when bit 0 of byte 0 is set and was clear in the remembered mask, and
released exactly when it is clear and was set; likewise the right button with bit 1;
after the call the remembered mask is byte 0, and a button global whose bit changed
equals that bit. -/
theorem mouse_button_edges (st : MouseState) (t : Transfer) (hc : t.completed = true)
    (hl : 3 ≤ t.actual_num_bytes) :
    (MouseEvent.left_sensor true ∈ (mouse_transfer_cb st t).2
      ↔ bit_set (t.byte 0) 0x01 = true ∧ bit_set st.last_buttons 0x01 = false)
    ∧ (MouseEvent.left_sensor false ∈ (mouse_transfer_cb st t).2
      ↔ bit_set (t.byte 0) 0x01 = false ∧ bit_set st.last_buttons 0x01 = true)
    ∧ (MouseEvent.right_sensor true ∈ (mouse_transfer_cb st t).2
      ↔ bit_set (t.byte 0) 0x02 = true ∧ bit_set st.last_buttons 0x02 = false)
    ∧ (MouseEvent.right_sensor false ∈ (mouse_transfer_cb st t).2
      ↔ bit_set (t.byte 0) 0x02 = false ∧ bit_set st.last_buttons 0x02 = true)
    ∧ (mouse_transfer_cb st t).1.last_buttons = t.byte 0
    ∧ (bit_set (t.byte 0) 0x01 ≠ bit_set st.last_buttons 0x01 →
        (mouse_transfer_cb st t).1.mouse_left_button = bit_set (t.byte 0) 0x01)
    ∧ (bit_set (t.byte 0) 0x02 ≠ bit_set st.last_buttons 0x02 →
        (mouse_transfer_cb st t).1.mouse_right_button = bit_set (t.byte 0) 0x02) := by
  obtain ⟨hs, he⟩ := mouse_cb_decoded st t hc hl
  obtain ⟨e1, e2, e3, e4⟩ := mouse_buttons_events st (t.byte 0)
  obtain ⟨s1, s2, s3⟩ := mouse_buttons_state st (t.byte 0)
  refine ⟨?_, ?_, ?_, ?_, ?_, ?_, ?_⟩
  · rw [(he true).1, e1]; simp [pressed]
  · rw [(he false).1, e2]; simp [released]
  · rw [(he true).2, e3]; simp [pressed]
  · rw [(he false).2, e4]; simp [released]
  · rw [hs, s1]
  · intro hne
    rw [hs, s2]
    cases hb : bit_set (t.byte 0) 0x01 <;> cases hq : bit_set st.last_buttons 0x01 <;>
      simp_all [pressed, released]
  · intro hne
    rw [hs, s3]
    cases hb : bit_set (t.byte 0) 0x02 <;> cases hq : bit_set st.last_buttons 0x02 <;>
      simp_all [pressed, released]

/-- Witness of C18: from no button held, the report `01 00 00` presses the left button;
then `02 00 00` releases it and presses the right one. -/
theorem mouse_button_edges_witness :
    MouseEvent.left_sensor true ∈ (mouse_transfer_cb mouse_init (completed_report [1, 0, 0])).2
    ∧ MouseEvent.left_sensor false ∈ (mouse_transfer_cb
        (mouse_transfer_cb mouse_init (completed_report [1, 0, 0])).1
        (completed_report [2, 0, 0])).2
    ∧ (mouse_transfer_cb (mouse_transfer_cb mouse_init (completed_report [1, 0, 0])).1
        (completed_report [2, 0, 0])).1.mouse_right_button = bit_set 2 0x02 :=
  ⟨(mouse_button_edges mouse_init (completed_report [1, 0, 0]) rfl (by decide)).1.2
      (by decide),
   (mouse_button_edges (mouse_transfer_cb mouse_init (completed_report [1, 0, 0])).1
      (completed_report [2, 0, 0]) rfl (by decide)).2.1.2 (by decide),
   (mouse_button_edges (mouse_transfer_cb mouse_init (completed_report [1, 0, 0])).1
      (completed_report [2, 0, 0]) rfl (by decide)).2.2.2.2.2.2 (by decide)⟩

/-- C19: what the code does.  No completion ever changes the statics of the
absolute-position branch: a report of 8 bytes or more is taken by the length test of
the relative branch first.  The 8-byte report `02 01 34 02 56 03 00 00` (absolute
X = 0x234, Y = 0x356, left button in the bitmask) is decoded as a relative report with
button state 2 and deltas (1, 52): no click is reported and no position is retained. -/
theorem media_absolute_branch_dead (st : MediaState) (t : Transfer) :
    ((media_transfer_cb st t).1.last_buttons = st.last_buttons
      ∧ (media_transfer_cb st t).1.last_x = st.last_x
      ∧ (media_transfer_cb st t).1.last_y = st.last_y
      ∧ (media_transfer_cb st t).1.click_x = st.click_x
      ∧ (media_transfer_cb st t).1.click_y = st.click_y)
    ∧ media_transfer_cb media_init (completed_report [0x02, 0x01, 0x34, 0x02, 0x56, 0x03, 0, 0])
      = ({ media_init with last_report_id := 2, touchpad_x := 1, touchpad_y := 52 },
          [MediaEvent.touch_log "Touchpad: Right Click", MediaEvent.touch_moved 1 52 1 52,
            MediaEvent.resubmit]) := by
  constructor
  · unfold media_transfer_cb
    by_cases h1 : (t.completed && decide (t.actual_num_bytes > 0)) = true
    · rw [if_pos h1]
      by_cases h2 : t.actual_num_bytes ≥ 4
      · simp only [if_pos h2]
        exact media_relative_frame st t
      · have h3 : ¬ (t.byte 0 = 0x02 ∧ t.actual_num_bytes ≥ 8) := by omega
        simp only [if_neg h2, if_neg h3]
        split_ifs <;> exact ⟨rfl, rfl, rfl, rfl, rfl⟩
    · rw [if_neg h1]
      exact ⟨rfl, rfl, rfl, rfl, rfl⟩
  · decide

/-- C20 (counterexample): the 4-byte report `03 E9 00 00` has report-ID 0x03 and one
non-zero key byte (Volume Up), but it is decoded as a relative touchpad report: the
trace is a touchpad movement by -23 and holds no media line. -/
theorem media_report_four_bytes_counterexample :
    (completed_report [0x03, 0xE9, 0, 0]).byte 0 = 0x03
    ∧ (media_transfer_cb media_init (completed_report [0x03, 0xE9, 0, 0])).2
      = [MediaEvent.touch_moved (-23) 0 (-23) 0, MediaEvent.resubmit]
    ∧ media_key_events (media_transfer_cb media_init (completed_report [0x03, 0xE9, 0, 0])).2
      = []
    ∧ is_touch_event (MediaEvent.touch_moved (-23) 0 (-23) 0) = true := by
  refine ⟨rfl, by decide, by decide, rfl⟩

/-- C20 (amended): for a completed report of 1 to 3 bytes whose report-ID is 0x03 the
callback changes no state and writes, in order, one media line for each non-zero byte
after the report-ID (none for a zero byte), with the table name of the code or
"Unknown" for a code outside the table, and no touchpad event. -/
theorem media_keys_short_report (st : MediaState) (t : Transfer)
    (hc : t.completed = true) (h0 : 0 < t.actual_num_bytes) (h4 : t.actual_num_bytes < 4)
    (hid : t.byte 0 = 0x03) :
    (media_transfer_cb st t).1 = st
    ∧ (media_transfer_cb st t).2
      = ((((List.range' 1 (t.actual_num_bytes - 1)).map t.byte).filter (fun k => k != 0)).map
          (fun k => MediaEvent.media_key (media_name k) k)) ++ [MediaEvent.resubmit]
    ∧ (∀ e ∈ (media_transfer_cb st t).2, is_touch_event e = false)
    ∧ (∀ k, k ∉ [0xE9, 0xEA, 0xE2, 0xCD, 0xB5, 0xB6, 0xB7, 0x8A, 0x92, 0x94, 0x23, 0x21,
        0x24, 0x25] → media_name k = "Unknown") := by
  have hn4 : ¬ t.actual_num_bytes ≥ 4 := by omega
  have hcb : media_transfer_cb st t = (st, media_keys t ++ [MediaEvent.resubmit]) := by
    unfold media_transfer_cb
    simp [hc, h0, hn4, hid]
  have hk : media_keys t
      = (((List.range' 1 (t.actual_num_bytes - 1)).map t.byte).filter (fun k => k != 0)).map
          (fun k => MediaEvent.media_key (media_name k) k) := by
    unfold media_keys
    exact media_keys_eq t _
  rw [hcb]
  refine ⟨rfl, by rw [hk], ?_, media_name_unknown⟩
  intro e he
  rw [hk, List.mem_append] at he
  rcases he with he | he
  · obtain ⟨k, _, rfl⟩ := List.mem_map.1 he
    rfl
  · rw [List.mem_singleton] at he
    subst he
    rfl

/-- Witness of C20 (amended): the 3-byte report `03 E9 02` gives "Volume Up" for 0xE9
and "Unknown" for 0x02. -/
theorem media_keys_short_report_witness :
    (media_transfer_cb media_init (completed_report [0x03, 0xE9, 0x02])).2
      = [MediaEvent.media_key "Volume Up" 0xE9, MediaEvent.media_key "Unknown" 0x02,
          MediaEvent.resubmit] :=
  ((media_keys_short_report media_init (completed_report [0x03, 0xE9, 0x02]) rfl (by decide)
    (by decide) rfl).2.1).trans (by decide)

/-! ## Lemmas on the vendor command engine -/

theorem send_switch_command_open (h : Host) (sw : SwitchState) (cmd : Nat) (data : List Nat)
    (hd : h.dev_hdl ≠ none) (hc : h.client_hdl ≠ none) (ha : h.alloc_ok = true) :
    send_switch_command h sw cmd data
      = ({ sw with switch_packet_counter := (sw.switch_packet_counter + 1) % 256 },
          [PadEvent.control (switch_setup_pkt ++ switch_report sw cmd data) h.submit_ok]) := by
  obtain ⟨d, hd⟩ := Option.ne_none_iff_exists'.1 hd
  obtain ⟨c, hc⟩ := Option.ne_none_iff_exists'.1 hc
  simp [send_switch_command, hd, hc, ha]

theorem send_switch_commands_open (h : Host) (cmds : List (Nat × List Nat))
    (hd : h.dev_hdl ≠ none) (hc : h.client_hdl ≠ none) (ha : h.alloc_ok = true) :
    ∀ sw : SwitchState, sw.switch_packet_counter < 256 →
      (send_switch_commands h sw cmds).1.switch_packet_counter
          = (sw.switch_packet_counter + cmds.length) % 256
      ∧ (send_switch_commands h sw cmds).2.length = cmds.length := by
  induction cmds with
  | nil =>
    intro sw hlt
    simp only [send_switch_commands, List.length_nil, Nat.add_zero]
    exact ⟨(Nat.mod_eq_of_lt hlt).symm, trivial⟩
  | cons p rest ih =>
    intro sw _
    obtain ⟨cmd, data⟩ := p
    simp only [send_switch_commands, send_switch_command_open h sw cmd data hd hc ha]
    obtain ⟨i1, i2⟩ := ih { sw with switch_packet_counter := (sw.switch_packet_counter + 1) % 256 }
      (Nat.mod_lt _ (by decide))
    constructor
    · rw [i1]
      simp only [List.length_cons]
      omega
    · simp [i2]

theorem switch_report_layout (sw : SwitchState) (cmd : Nat) (data : List Nat)
    (hr : sw.rumble_data.length = 8) (hl : data.length ≤ 53) :
    switch_report sw cmd data
      = [0x01, sw.switch_packet_counter] ++ sw.rumble_data ++ [cmd] ++ data
          ++ List.replicate (53 - data.length) 0 := by
  unfold switch_report
  have hlen : ([0x01, sw.switch_packet_counter] ++ sw.rumble_data ++ [cmd] ++ data).length
      = 11 + data.length := by
    simp [hr]; omega
  simp only [hlen]
  have h53 : 64 - (11 + data.length) = 53 - data.length := by omega
  rw [h53, List.take_of_length_le]
  simp [hr]; omega

theorem poll_quiet (h : Host) (now : Nat) (sw : SwitchState)
    (hq : sw.is_official_switch = false ∨ (now + 2 ^ 64 - sw.last_switch_poll) % 2 ^ 64 < 15) :
    poll_switch_controller h now sw = (sw, []) := by
  unfold poll_switch_controller
  rcases hq with hq | hq
  · simp [hq]
  · by_cases hf : sw.is_official_switch = true
    · simp only [hf, Bool.not_true, Bool.false_eq_true, if_false, if_pos hq]
    · simp [hf]

theorem send_switch_command_frame (h : Host) (sw : SwitchState) (cmd : Nat) (data : List Nat) :
    (send_switch_command h sw cmd data).1.is_official_switch = sw.is_official_switch
    ∧ (send_switch_command h sw cmd data).1.last_switch_poll = sw.last_switch_poll
    ∧ (send_switch_command h sw cmd data).1.rumble_data = sw.rumble_data := by
  unfold send_switch_command
  split_ifs <;> exact ⟨rfl, rfl, rfl⟩

/-- One poll at a clock value not before the last poll: a command is sent only with the
flag set and 15 ms elapsed; the flag never changes; the poll time moves forward at most
to the clock value, and to exactly that value when a command is sent. -/
theorem poll_step (h : Host) (now : Nat) (sw : SwitchState)
    (hle : sw.last_switch_poll ≤ now) (hb : now < 2 ^ 64) :
    ((poll_switch_controller h now sw).2 ≠ [] →
        sw.is_official_switch = true ∧ sw.last_switch_poll + 15 ≤ now
        ∧ (poll_switch_controller h now sw).1.last_switch_poll = now)
    ∧ (poll_switch_controller h now sw).1.is_official_switch = sw.is_official_switch
    ∧ sw.last_switch_poll ≤ (poll_switch_controller h now sw).1.last_switch_poll
    ∧ (poll_switch_controller h now sw).1.last_switch_poll ≤ now := by
  by_cases hq : sw.is_official_switch = false ∨ (now + 2 ^ 64 - sw.last_switch_poll) % 2 ^ 64 < 15
  · rw [poll_quiet h now sw hq]
    exact ⟨fun hne => absurd rfl hne, rfl, le_refl _, hle⟩
  · rw [not_or] at hq
    obtain ⟨hf, hg⟩ := hq
    have hf2 : sw.is_official_switch = true := by simpa using hf
    have hp : poll_switch_controller h now sw
        = send_switch_command h { sw with last_switch_poll := now } 0x00 [] := by
      unfold poll_switch_controller
      simp only [hf2, Bool.not_true, Bool.false_eq_true, if_false, if_neg hg]
    obtain ⟨f1, f2, _⟩ := send_switch_command_frame h { sw with last_switch_poll := now } 0x00 []
    rw [hp, f1, f2]
    refine ⟨fun _ => ⟨hf2, ?_, rfl⟩, rfl, hle, le_refl _⟩
    have : (now + 2 ^ 64 - sw.last_switch_poll) % 2 ^ 64 = now - sw.last_switch_poll := by
      rw [show now + 2 ^ 64 - sw.last_switch_poll = (now - sw.last_switch_poll) + 2 ^ 64 by omega,
        Nat.add_mod_right, Nat.mod_eq_of_lt (by omega)]
    rw [this] at hg
    omega

theorem poll_run_spaced (h : Host) (times : List Nat) :
    ∀ sw : SwitchState, times.Pairwise (· ≤ ·) → (∀ t ∈ times, sw.last_switch_poll ≤ t) →
      (∀ t ∈ times, t < 2 ^ 64) →
      ((poll_run h sw times).2 ≠ [] → sw.is_official_switch = true)
      ∧ (∀ k ∈ (poll_run h sw times).2, sw.last_switch_poll + 15 ≤ k)
      ∧ (poll_run h sw times).2.Pairwise (fun a b => a + 15 ≤ b) := by
  induction times with
  | nil =>
    intro sw _ _ _
    simp [poll_run]
  | cons now rest ih =>
    intro sw hs hlo hb
    rw [List.pairwise_cons] at hs
    obtain ⟨hnow, hrest⟩ := hs
    obtain ⟨p1, p2, p3, p4⟩ := poll_step h now sw (hlo now (List.mem_cons_self _ _))
      (hb now (List.mem_cons_self _ _))
    have hlo2 : ∀ t ∈ rest, (poll_switch_controller h now sw).1.last_switch_poll ≤ t :=
      fun t ht => le_trans p4 (hnow t ht)
    obtain ⟨i1, i2, i3⟩ := ih (poll_switch_controller h now sw).1 hrest hlo2
      (fun t ht => hb t (List.mem_cons_of_mem _ ht))
    simp only [poll_run]
    by_cases hsent : (poll_switch_controller h now sw).2 ≠ []
    · obtain ⟨q1, q2, q3⟩ := p1 hsent
      rw [if_pos hsent]
      refine ⟨fun _ => q1, ?_, ?_⟩
      · intro k hk
        rcases List.mem_append.1 hk with hk | hk
        · rw [List.mem_singleton] at hk; omega
        · have := i2 k hk; omega
      · rw [List.singleton_append, List.pairwise_cons]
        refine ⟨fun k hk => ?_, i3⟩
        have := i2 k hk
        rw [q3] at this
        exact this
    · rw [if_neg hsent, List.nil_append]
      refine ⟨fun hne => ?_, ?_, i3⟩
      · rw [← p2]; exact i1 hne
      · intro k hk
        have := i2 k hk
        omega

/-! ## Lemmas on the completion callbacks -/

theorem media_relative_edges (st : MediaState) (t : Transfer) :
    (MediaEvent.click_sensor true ∈ (media_relative st t).2
      ↔ t.byte 0 = 0x01 ∧ st.last_report_id ≠ 0x01)
    ∧ (MediaEvent.click_sensor false ∈ (media_relative st t).2
      ↔ st.last_report_id = 0x01 ∧ t.byte 0 ≠ 0x01)
    ∧ (media_relative st t).1.last_report_id = t.byte 0
    ∧ (t.byte 0 ≠ st.last_report_id → (t.byte 0 = 0x01 ∨ st.last_report_id = 0x01) →
        (media_relative st t).1.touchpad_clicked = decide (t.byte 0 = 0x01)) := by
  obtain ⟨l, lb, lx, ly, cx, cy, tc, tx, ty⟩ := st
  unfold media_relative
  simp only
  generalize t.byte 0 = a
  by_cases hid : a = l
  · subst hid
    by_cases hm : to_int8 (t.byte 1) ≠ 0 ∨ to_int8 (t.byte 2) ≠ 0
    · simp [hm]
    · simp [hm]
  · have hid2 : ¬ l = a := fun e => hid e.symm
    by_cases h1 : a = 0x01
    · subst h1
      by_cases hm : to_int8 (t.byte 1) ≠ 0 ∨ to_int8 (t.byte 2) ≠ 0 <;>
        by_cases hl2 : l = 0x02 <;>
        simp [hid, hid2, hl2, hm]
    · by_cases hl1 : l = 0x01
      · subst hl1
        by_cases h2 : a = 0x02
        · subst h2
          by_cases hm : to_int8 (t.byte 1) ≠ 0 ∨ to_int8 (t.byte 2) ≠ 0 <;> simp [hm]
        · by_cases hm : to_int8 (t.byte 1) ≠ 0 ∨ to_int8 (t.byte 2) ≠ 0 <;>
            simp [hid, hid2, h1, h2, hm]
      · by_cases h2 : a = 0x02
        · subst h2
          by_cases hm : to_int8 (t.byte 1) ≠ 0 ∨ to_int8 (t.byte 2) ≠ 0 <;>
            simp [hid, hid2, hl1, hm]
        · by_cases hm : to_int8 (t.byte 1) ≠ 0 ∨ to_int8 (t.byte 2) ≠ 0 <;>
            by_cases hl2 : l = 0x02 <;>
            simp [hid, hid2, h1, hl1, h2, hl2, hm]

theorem media_cb_relative (st : MediaState) (t : Transfer) (hc : t.completed = true)
    (hl : 4 ≤ t.actual_num_bytes) :
    media_transfer_cb st t
      = ((media_relative st t).1, (media_relative st t).2 ++ [MediaEvent.resubmit]) := by
  have h0 : t.actual_num_bytes > 0 := by omega
  unfold media_transfer_cb
  simp [hc, h0, hl]

theorem getD_replicate_zero (n m : Nat) : (List.replicate n 0).getD m 0 = 0 := by
  induction n generalizing m with
  | zero => rfl
  | succ n ih =>
    cases m with
    | zero => rfl
    | succ m => exact ih m

theorem count_ite_nil {α : Type} [BEq α] (x : α) (c : Prop) [Decidable c] (l : List α) :
    (if c then l else []).count x = if c then l.count x else 0 := by
  split <;> rfl

theorem mouse_resubmit_once (st : MouseState) (t : Transfer) :
    (mouse_transfer_cb st t).2.count MouseEvent.resubmit = 1 := by
  unfold mouse_transfer_cb mouse_buttons
  by_cases h1 : (t.completed && decide (t.actual_num_bytes ≥ 3)) = true
  · rw [if_pos h1]
    by_cases h2 : t.byte 0 = st.last_buttons
    · simp [h2, List.count_append, count_ite_nil, List.count_cons]
    · simp [h2, List.count_append, count_ite_nil, List.count_cons]
  · rw [if_neg h1]
    rfl

theorem count_decoded (l : List Event) :
    (l.map KeyboardCbEvent.decoded).count KeyboardCbEvent.resubmit = 0 := by
  induction l with
  | nil => rfl
  | cons e l ih => simp [List.count_cons, ih]

theorem keyboard_resubmit_once (h : Host) (s : KbState) (t : Transfer) :
    (keyboard_transfer_cb h s t).2.count KeyboardCbEvent.resubmit = 1 := by
  unfold keyboard_transfer_cb
  split_ifs
  · simp [List.count_append, count_decoded]
  · rfl

theorem media_relative_no_resubmit (st : MediaState) (t : Transfer) :
    (media_relative st t).2.count MediaEvent.resubmit = 0 := by
  unfold media_relative
  by_cases hid : t.byte 0 = st.last_report_id <;>
    by_cases hm : to_int8 (t.byte 1) ≠ 0 ∨ to_int8 (t.byte 2) ≠ 0 <;>
    simp [hid, hm, List.count_append, count_ite_nil, List.count_cons] <;>
    split_ifs <;> simp

theorem media_keys_no_resubmit (t : Transfer) :
    (media_keys t).count MediaEvent.resubmit = 0 := by
  unfold media_keys
  rw [media_keys_eq, List.count_eq_zero]
  intro hm
  obtain ⟨k, _, hk⟩ := List.mem_map.1 hm
  cases hk

theorem media_resubmit_once (st : MediaState) (t : Transfer) :
    (media_transfer_cb st t).2.count MediaEvent.resubmit = 1 := by
  unfold media_transfer_cb
  by_cases h1 : (t.completed && decide (t.actual_num_bytes > 0)) = true
  · rw [if_pos h1]
    by_cases h2 : t.actual_num_bytes ≥ 4
    · simp only [if_pos h2, List.count_append, media_relative_no_resubmit]
      rfl
    · have h3 : ¬ (t.byte 0 = 0x02 ∧ t.actual_num_bytes ≥ 8) := by omega
      simp only [if_neg h2, if_neg h3]
      split_ifs
      · simp only [List.count_append, media_keys_no_resubmit]
        rfl
      · rfl
  · rw [if_neg h1]
    rfl

theorem touchpad_resubmit_once (st : TouchpadState) (t : Transfer) :
    (touchpad_transfer_cb st t).2.count TouchpadEvent.resubmit = 1 := by
  unfold touchpad_transfer_cb
  by_cases h1 : (t.completed && decide (t.actual_num_bytes ≥ 8)) = true
  · rw [if_pos h1]
    by_cases h2 : t.byte 0 = st.last_buttons <;>
      simp [h2, List.count_append, count_ite_nil, List.count_cons] <;>
      split_ifs <;> simp [List.count_append, count_ite_nil, List.count_cons]
  · rw [if_neg h1]
    rfl

theorem send_switch_command_no_resubmit (h : Host) (sw : SwitchState) (cmd : Nat)
    (data : List Nat) : (send_switch_command h sw cmd data).2.count PadEvent.resubmit = 0 := by
  unfold send_switch_command
  split_ifs <;> simp [List.count_cons]

theorem poll_no_resubmit (h : Host) (now : Nat) (sw : SwitchState) :
    (poll_switch_controller h now sw).2.count PadEvent.resubmit = 0 := by
  unfold poll_switch_controller
  split_ifs
  · rfl
  · rfl
  · exact send_switch_command_no_resubmit _ _ _ _

theorem pad_decode_no_resubmit (st : PadState) (sw : SwitchState) (t : Transfer) :
    (pad_decode st sw t).2.2.count PadEvent.resubmit = 0 := by
  have hd : ∀ (s : PadState) (x : Nat), (pad_dpad s x).2.count PadEvent.resubmit = 0 := by
    intro s x
    unfold pad_dpad
    split_ifs <;> simp [List.count_cons]
  have hr : ∀ (s : PadState) (x : Nat), (pad_right s x).2.count PadEvent.resubmit = 0 := by
    intro s x
    unfold pad_right
    by_cases hx : x = s.last_buttons0
    · simp [hx]
    · simp [hx, List.count_append, count_ite_nil, List.count_cons]
  have hs : ∀ (s : PadState) (w : SwitchState) (x : Nat),
      (pad_shared s w x).2.2.count PadEvent.resubmit = 0 := by
    intro s w x
    unfold pad_shared
    by_cases hx : x = s.last_buttons1
    · simp [hx]
    · simp [hx, List.count_append, count_ite_nil, List.count_cons]
  have hl : ∀ (s : PadState) (x : Nat), (pad_left s x).2.count PadEvent.resubmit = 0 := by
    intro s x
    unfold pad_left
    by_cases hx : x = s.last_buttons2
    · simp [hx]
    · simp [hx, List.count_append, count_ite_nil, List.count_cons]
  have hk : ∀ (s : PadState) (v : Nat × Nat × Nat × Nat),
      (pad_sticks s v).2.count PadEvent.resubmit = 0 := by
    intro s v
    cases hf : s.first_read
    · rw [(pad_sticks_later s v hf).2]
      simp [List.count_append, count_ite_nil, List.count_cons]
    · rw [(pad_sticks_first s v hf).2]
      simp [List.count_cons]
  simp only [pad_decode, List.count_append, hd, hr, hs, hl, hk]

theorem gamepad_resubmit_once (h : Host) (now : Nat) (st : PadState) (sw : SwitchState)
    (t : Transfer) : (gamepad_transfer_cb h now st sw t).2.2.count PadEvent.resubmit = 1 := by
  unfold gamepad_transfer_cb
  cases t.completed
  · rfl
  · simp only [Bool.not_true, Bool.false_eq_true, if_false]
    split_ifs
    · simp only [List.count_append, poll_no_resubmit, pad_decode_no_resubmit]
      rfl
    · simp only [List.count_append, poll_no_resubmit]
      rfl


/-! ## Lemmas on the attach and detach handlers -/

theorem send_switch_command_flag (h : Host) (sw : SwitchState) (cmd : Nat) (data : List Nat) :
    (send_switch_command h sw cmd data).1.is_official_switch = sw.is_official_switch := by
  unfold send_switch_command
  split_ifs <;> rfl

theorem init_switch_controller_flag (h : Host) (a b : Bool) (sw : SwitchState) :
    (init_switch_controller h a b sw).1.is_official_switch = sw.is_official_switch := by
  unfold init_switch_controller
  by_cases h1 : (h.dev_hdl.isNone || h.client_hdl.isNone) = true
  · rw [if_pos h1]
  · rw [if_neg h1]
    by_cases h2 : (a && !b) = true
    · rw [if_pos h2]
    · rw [if_neg h2]
      simp only [send_switch_command_flag]

theorem setup_media_interface_sw (s : Session) (m : MediaSetup) :
    (setup_media_interface s m).1.sw = s.sw := by
  unfold setup_media_interface
  split_ifs <;> rfl

theorem after_first_submit_flag (s : Session) (d : NewDev) (intf : IntfDesc)
    (hf : s.sw.is_official_switch = true) :
    (after_first_submit s d intf).1.sw.is_official_switch = true := by
  unfold after_first_submit
  by_cases h1 : intf.bInterfaceProtocol = 0x02
  · rw [if_pos h1]
    exact hf
  · rw [if_neg h1]
    by_cases h2 : intf.bInterfaceProtocol = 0x01
    · rw [if_pos h2]
      exact hf
    · rw [if_neg h2]
      cases d.dev_desc2 with
      | none => exact hf
      | some dd =>
        simp only
        by_cases h3 : dd.idVendor = 0x057E ∧ dd.idProduct = 0x2009
        · rw [if_pos h3]
          simp only [init_switch_controller_flag]
        · rw [if_neg h3]
          exact hf

theorem attach_hid_flag (s : Session) (d : NewDev) (hf : s.sw.is_official_switch = true) :
    (attach_hid s d).1.sw.is_official_switch = true := by
  unfold attach_hid
  cases d.config_ok
  · exact hf
  · cases d.intf_desc with
    | none => exact hf
    | some intf =>
      cases d.ep_desc with
      | none => exact hf
      | some ep =>
        cases d.claim_ok
        · exact hf
        · cases d.alloc_ok
          · exact hf
          · cases d.submit_ok
            · exact hf
            · simp only [Bool.not_true, Bool.false_eq_true, if_false]
              rw [setup_media_interface_sw]
              exact after_first_submit_flag _ d intf hf

theorem client_event_new_dev_flag (s : Session) (d : NewDev)
    (hf : s.sw.is_official_switch = true) :
    (client_event_new_dev s d).1.sw.is_official_switch = true := by
  unfold client_event_new_dev
  cases s.dev_hdl with
  | none =>
    cases d.open_result with
    | none => exact hf
    | some hdl =>
      cases d.dev_desc with
      | none => exact hf
      | some dd =>
        simp only
        by_cases h1 : dd.bDeviceClass = 0x03 ∨ dd.bDeviceClass = 0x00
        · rw [if_pos h1]
          exact attach_hid_flag _ d hf
        · rw [if_neg h1]
          exact hf
  | some old =>
    cases d.open_result with
    | none => exact hf
    | some hdl =>
      cases d.dev_desc with
      | none => exact hf
      | some dd =>
        simp only
        by_cases h1 : dd.bDeviceClass = 0x03 ∨ dd.bDeviceClass = 0x00
        · rw [if_pos h1]
          exact attach_hid_flag _ d hf
        · rw [if_neg h1]
          exact hf

theorem dev_gone_open (s : Session) (hdl : Nat) (ho : s.dev_hdl = some hdl) :
    client_event_dev_gone s
      = ({ s with
            active_transfers0 := none
            active_transfers1 := none
            active_transfers2 := none
            dev_hdl := none
            sw := { s.sw with is_official_switch := false } },
          halt_calls s.active_transfers0 ++ halt_calls s.active_transfers1
          ++ halt_calls s.active_transfers2
          ++ [UsbCall.interface_release 0, UsbCall.interface_release 1,
              UsbCall.interface_release 2, UsbCall.device_close]) := by
  unfold client_event_dev_gone
  rw [ho]

theorem dev_gone_closed (s : Session) (hn : s.dev_hdl = none) :
    client_event_dev_gone s = (s, []) := by
  unfold client_event_dev_gone
  rw [hn]

theorem dev_gone_handle (s : Session) : (client_event_dev_gone s).1.dev_hdl = none := by
  cases ho : s.dev_hdl with
  | none => rw [dev_gone_closed s ho]; exact ho
  | some hdl => rw [dev_gone_open s hdl ho]

/-! ## The claims on the media endpoint, the vendor engine and the callbacks -/

/-- C21 (counterexample): the 4-byte report `07 05 00 00` has the unknown report-ID 0x07.
It is decoded as a relative touchpad report: the last report-ID becomes 7, the touchpad
position moves by 5 and a movement line is written. -/
theorem unknown_report_id_counterexample :
    (completed_report [0x07, 0x05, 0, 0]).byte 0 = 0x07
    ∧ media_transfer_cb media_init (completed_report [0x07, 0x05, 0, 0])
      = ({ media_init with last_report_id := 7, touchpad_x := 5 },
          [MediaEvent.touch_moved 5 0 5 0, MediaEvent.resubmit]) := by
  refine ⟨rfl, by decide⟩

/-- C21 (amended): a report of fewer than 4 bytes whose report-ID is not 0x03 (an
unknown one in particular) is ignored: the callback changes no state and does nothing
but resubmit the transfer. -/
theorem short_unknown_report_ignored (st : MediaState) (t : Transfer)
    (h4 : t.actual_num_bytes < 4) (hid : t.byte 0 ≠ 0x03) :
    media_transfer_cb st t = (st, [MediaEvent.resubmit]) := by
  have hn4 : ¬ t.actual_num_bytes ≥ 4 := by omega
  have hn8 : ¬ (t.byte 0 = 0x02 ∧ t.actual_num_bytes ≥ 8) := by omega
  unfold media_transfer_cb
  by_cases h1 : (t.completed && decide (t.actual_num_bytes > 0)) = true
  · simp only [if_pos h1, if_neg hn4, if_neg hn8, if_neg hid]
  · rw [if_neg h1]

/-- Witness of C21 (amended): the 3-byte report `07 05 00` changes nothing. -/
theorem short_unknown_report_ignored_witness :
    media_transfer_cb media_init (completed_report [0x07, 0x05, 0])
      = (media_init, [MediaEvent.resubmit]) :=
  short_unknown_report_ignored media_init (completed_report [0x07, 0x05, 0]) (by decide)
    (by decide)


/-- C22: for a completed report of at least 4 bytes, the left-click publish occurs
exactly when the report-ID is 0x01 and the remembered report-ID is not, the
left-release publish exactly when the remembered report-ID is 0x01 and the current one
is not; afterwards the remembered report-ID is the current one, and after a change
involving 0x01 `touchpad_clicked` says whether the current report-ID is 0x01. -/
theorem touchpad_report_id_edges (st : MediaState) (t : Transfer) (hc : t.completed = true)
    (hl : 4 ≤ t.actual_num_bytes) :
    (MediaEvent.click_sensor true ∈ (media_transfer_cb st t).2
      ↔ t.byte 0 = 0x01 ∧ st.last_report_id ≠ 0x01)
    ∧ (MediaEvent.click_sensor false ∈ (media_transfer_cb st t).2
      ↔ st.last_report_id = 0x01 ∧ t.byte 0 ≠ 0x01)
    ∧ (media_transfer_cb st t).1.last_report_id = t.byte 0
    ∧ (t.byte 0 ≠ st.last_report_id → (t.byte 0 = 0x01 ∨ st.last_report_id = 0x01) →
        (media_transfer_cb st t).1.touchpad_clicked = decide (t.byte 0 = 0x01)) := by
  obtain ⟨e1, e2, e3, e4⟩ := media_relative_edges st t
  rw [media_cb_relative st t hc hl]
  refine ⟨?_, ?_, e3, e4⟩
  · rw [← e1]; simp
  · rw [← e2]; simp

/-- Witness of C22: `01 00 00 00` after report-ID 0 clicks; `00 00 00 00` after it
releases. -/
theorem touchpad_report_id_edges_witness :
    MediaEvent.click_sensor true ∈ (media_transfer_cb media_init (completed_report [1, 0, 0, 0])).2
    ∧ MediaEvent.click_sensor false ∈ (media_transfer_cb
        (media_transfer_cb media_init (completed_report [1, 0, 0, 0])).1
        (completed_report [0, 0, 0, 0])).2
    ∧ (media_transfer_cb (media_transfer_cb media_init (completed_report [1, 0, 0, 0])).1
        (completed_report [0, 0, 0, 0])).1.touchpad_clicked = decide ((0 : Nat) = 0x01) :=
  ⟨(touchpad_report_id_edges media_init (completed_report [1, 0, 0, 0]) rfl (by decide)).1.2
      (by decide),
   (touchpad_report_id_edges (media_transfer_cb media_init (completed_report [1, 0, 0, 0])).1
      (completed_report [0, 0, 0, 0]) rfl (by decide)).2.1.2 (by decide),
   (touchpad_report_id_edges (media_transfer_cb media_init (completed_report [1, 0, 0, 0])).1
      (completed_report [0, 0, 0, 0]) rfl (by decide)).2.2.2 (by decide) (by decide)⟩

/-- C23: a `send_switch_command` that builds a frame (handles open, transfer allocated)
puts the current counter into byte 1 of the report and leaves the counter incremented
modulo 256: from 255 it becomes 0, and 256 commands in a row each hand one frame to the
transport and bring the counter back to its starting value. -/
theorem switch_counter_wraps (h : Host) (sw : SwitchState) (cmd : Nat) (data : List Nat)
    (cmds : List (Nat × List Nat))
    (hd : h.dev_hdl ≠ none) (hc : h.client_hdl ≠ none) (ha : h.alloc_ok = true)
    (hlt : sw.switch_packet_counter < 256) :
    (send_switch_command h sw cmd data).2
        = [PadEvent.control (switch_setup_pkt ++ switch_report sw cmd data) h.submit_ok]
    ∧ (switch_report sw cmd data).getD 1 0 = sw.switch_packet_counter
    ∧ (send_switch_command h sw cmd data).1.switch_packet_counter
        = (sw.switch_packet_counter + 1) % 256
    ∧ (sw.switch_packet_counter = 255 →
        (send_switch_command h sw cmd data).1.switch_packet_counter = 0)
    ∧ (cmds.length = 256 →
        (send_switch_commands h sw cmds).1.switch_packet_counter = sw.switch_packet_counter
        ∧ (send_switch_commands h sw cmds).2.length = 256) := by
  have hs := send_switch_command_open h sw cmd data hd hc ha
  refine ⟨by rw [hs], ?_, by rw [hs], ?_, ?_⟩
  · simp [switch_report]
  · intro h255
    rw [hs]
    simp [h255]
  · intro hlen
    obtain ⟨c1, c2⟩ := send_switch_commands_open h cmds hd hc ha sw hlt
    rw [c1, c2, hlen]
    exact ⟨by omega, rfl⟩

/-- Witness of C23: from counter 255 one keep-alive command stamps 255 and leaves 0; 256
keep-alive commands from 7 end at 7. -/
theorem switch_counter_wraps_witness :
    (switch_report { switch_init with switch_packet_counter := 255 } 0 []).getD 1 0 = 255
    ∧ (send_switch_command host_ok { switch_init with switch_packet_counter := 255 }
        0 []).1.switch_packet_counter = 0
    ∧ (send_switch_commands host_ok { switch_init with switch_packet_counter := 7 }
        (List.replicate 256 (0, []))).1.switch_packet_counter = 7 :=
  ⟨(switch_counter_wraps host_ok { switch_init with switch_packet_counter := 255 } 0 []
      (List.replicate 256 (0, [])) (by decide) (by decide) rfl (by decide)).2.1,
   (switch_counter_wraps host_ok { switch_init with switch_packet_counter := 255 } 0 []
      (List.replicate 256 (0, [])) (by decide) (by decide) rfl (by decide)).2.2.2.1 rfl,
   ((switch_counter_wraps host_ok { switch_init with switch_packet_counter := 7 } 0 []
      (List.replicate 256 (0, [])) (by decide) (by decide) rfl (by decide)).2.2.2.2
      (List.length_replicate _ _)).1⟩

/-- C24: with the handles open, the transfer allocated, the 8-byte rumble envelope and
at most 53 data bytes, `send_switch_command` hands over the setup packet followed by a
report of exactly 64 bytes: byte 0 is 0x01, byte 1 the counter before the increment,
bytes 2..9 the rumble envelope, byte 10 the command, bytes 11.. the data, and every
byte after the data is zero. -/
theorem switch_report_frame (h : Host) (sw : SwitchState) (cmd : Nat) (data : List Nat)
    (hd : h.dev_hdl ≠ none) (hc : h.client_hdl ≠ none) (ha : h.alloc_ok = true)
    (hr : sw.rumble_data.length = 8) (hl : data.length ≤ 53) :
    (send_switch_command h sw cmd data).2
        = [PadEvent.control (switch_setup_pkt ++ switch_report sw cmd data) h.submit_ok]
    ∧ (switch_report sw cmd data).length = 64
    ∧ (switch_report sw cmd data).getD 0 0 = 0x01
    ∧ (switch_report sw cmd data).getD 1 0 = sw.switch_packet_counter
    ∧ (∀ j, j < 8 → (switch_report sw cmd data).getD (2 + j) 0 = sw.rumble_data.getD j 0)
    ∧ (switch_report sw cmd data).getD 10 0 = cmd
    ∧ (∀ j, j < data.length → (switch_report sw cmd data).getD (11 + j) 0 = data.getD j 0)
    ∧ (∀ i, 11 + data.length ≤ i → (switch_report sw cmd data).getD i 0 = 0) := by
  have hs := send_switch_command_open h sw cmd data hd hc ha
  have hlay := switch_report_layout sw cmd data hr hl
  obtain ⟨c, f, e, rum⟩ := sw
  simp only at hr hlay ⊢
  match rum, hr with
  | [r0, r1, r2, r3, r4, r5, r6, r7], _ =>
    refine ⟨by rw [hs], ?_⟩
    rw [hlay]
    refine ⟨?_, rfl, rfl, ?_, rfl, ?_, ?_⟩
    · simp; omega
    · intro j hj
      interval_cases j <;> rfl
    · intro j hj
      have : 11 + j = j + 11 := by omega
      rw [this]
      simp only [List.cons_append, List.nil_append, List.getD_cons_succ, List.append_assoc]
      exact List.getD_append _ _ _ _ hj
    · intro i hi
      obtain ⟨k, rfl⟩ : ∃ k, i = k + 11 := ⟨i - 11, by omega⟩
      simp only [List.cons_append, List.nil_append, List.getD_cons_succ, List.append_assoc]
      rw [List.getD_append_right _ _ _ _ (by omega)]
      exact getD_replicate_zero _ _

/-- Witness of C24: the mode command `03 30` at counter 5 with the idle envelope. -/
theorem switch_report_frame_witness :
    (switch_report { switch_init with switch_packet_counter := 5 } 0x03 [0x30]).length = 64
    ∧ (switch_report { switch_init with switch_packet_counter := 5 } 0x03 [0x30]).getD 10 0 = 0x03
    ∧ (switch_report { switch_init with switch_packet_counter := 5 } 0x03 [0x30]).getD (11 + 0) 0
        = [0x30].getD 0 0 :=
  ⟨(switch_report_frame host_ok { switch_init with switch_packet_counter := 5 } 0x03 [0x30]
      (by decide) (by decide) rfl rfl (by decide)).2.1,
   (switch_report_frame host_ok { switch_init with switch_packet_counter := 5 } 0x03 [0x30]
      (by decide) (by decide) rfl rfl (by decide)).2.2.2.2.2.1,
   (switch_report_frame host_ok { switch_init with switch_packet_counter := 5 } 0x03 [0x30]
      (by decide) (by decide) rfl rfl (by decide)).2.2.2.2.2.2.1 0 (by decide)⟩

/-- C25: with the handles open and every allocation and submission succeeding,
`init_switch_controller` hands over exactly four control transfers, all accepted, in
this order: the handshake `80 02`, then the reports of subcommand 0x03 with argument
0x30, of subcommand 0x40 with argument 0x01 and of subcommand 0x30 with argument 0x01,
stamped with three consecutive counter values; the counter ends 3 further (modulo 256);
and when the handshake submission fails nothing else is issued and the counter stays. -/
theorem init_switch_sequence (h : Host) (sw : SwitchState)
    (hd : h.dev_hdl ≠ none) (hc : h.client_hdl ≠ none) (ha : h.alloc_ok = true)
    (hs : h.submit_ok = true) (hr : sw.rumble_data.length = 8) :
    control_frames (init_switch_controller h true true sw).2
        = [handshake_setup_pkt ++ [0x80, 0x02],
            switch_setup_pkt ++ ([0x01, sw.switch_packet_counter] ++ sw.rumble_data
              ++ [0x03, 0x30] ++ List.replicate 52 0),
            switch_setup_pkt ++ ([0x01, (sw.switch_packet_counter + 1) % 256] ++ sw.rumble_data
              ++ [0x40, 0x01] ++ List.replicate 52 0),
            switch_setup_pkt ++ ([0x01, (sw.switch_packet_counter + 2) % 256] ++ sw.rumble_data
              ++ [0x30, 0x01] ++ List.replicate 52 0)]
    ∧ (init_switch_controller h true true sw).2.length = 4
    ∧ (∀ e ∈ (init_switch_controller h true true sw).2, ∃ data, e = PadEvent.control data true)
    ∧ (init_switch_controller h true true sw).1.switch_packet_counter
        = (sw.switch_packet_counter + 3) % 256
    ∧ init_switch_controller h true false sw
        = (sw, [PadEvent.control (handshake_setup_pkt ++ [0x80, 0x02]) false]) := by
  obtain ⟨dv, hdv⟩ := Option.ne_none_iff_exists'.1 hd
  obtain ⟨cl, hcl⟩ := Option.ne_none_iff_exists'.1 hc
  have e1 := send_switch_command_open h sw 0x03 [0x30] hd hc ha
  have e2 := send_switch_command_open h
    { sw with switch_packet_counter := (sw.switch_packet_counter + 1) % 256 } 0x40 [0x01] hd hc ha
  have e3 := send_switch_command_open h
    { sw with switch_packet_counter := ((sw.switch_packet_counter + 1) % 256 + 1) % 256 }
    0x30 [0x01] hd hc ha
  have l1 := switch_report_layout sw 0x03 [0x30] hr (by decide)
  have l2 := switch_report_layout
    { sw with switch_packet_counter := (sw.switch_packet_counter + 1) % 256 } 0x40 [0x01] hr
    (by decide)
  have l3 := switch_report_layout
    { sw with switch_packet_counter := ((sw.switch_packet_counter + 1) % 256 + 1) % 256 }
    0x30 [0x01] hr (by decide)
  have c2 : ((sw.switch_packet_counter + 1) % 256 + 1) % 256
      = (sw.switch_packet_counter + 2) % 256 := by omega
  have c3 : (((sw.switch_packet_counter + 1) % 256 + 1) % 256 + 1) % 256
      = (sw.switch_packet_counter + 3) % 256 := by omega
  have hrun : init_switch_controller h true true sw
      = ({ sw with switch_packet_counter :=
            (((sw.switch_packet_counter + 1) % 256 + 1) % 256 + 1) % 256 },
          [PadEvent.control (handshake_setup_pkt ++ [0x80, 0x02]) true,
            PadEvent.control (switch_setup_pkt ++ switch_report sw 0x03 [0x30]) true,
            PadEvent.control (switch_setup_pkt ++ switch_report
              { sw with switch_packet_counter := (sw.switch_packet_counter + 1) % 256 }
              0x40 [0x01]) true,
            PadEvent.control (switch_setup_pkt ++ switch_report
              { sw with switch_packet_counter :=
                  ((sw.switch_packet_counter + 1) % 256 + 1) % 256 } 0x30 [0x01]) true]) := by
    unfold init_switch_controller
    simp only [hdv, hcl, Option.isNone_some, Bool.or_self, Bool.false_eq_true, if_false,
      Bool.not_true, Bool.and_false, if_true, e1, e2, e3, hs]
    rfl
  refine ⟨?_, ?_, ?_, ?_, ?_⟩
  · rw [hrun]
    simp only [control_frames, l1, l2, l3]
    rw [c2]
    simp
  · rw [hrun]; rfl
  · rw [hrun]
    intro e he
    simp only [List.mem_cons, List.mem_singleton, List.not_mem_nil, or_false] at he
    rcases he with he | he | he | he <;> exact ⟨_, he⟩
  · rw [hrun]; exact c3
  · unfold init_switch_controller
    simp [hdv, hcl]

/-- Witness of C25: from the engine statics of program start. -/
theorem init_switch_sequence_witness :
    (init_switch_controller host_ok true true switch_init).2.length = 4
    ∧ (init_switch_controller host_ok true true switch_init).1.switch_packet_counter
        = (switch_init.switch_packet_counter + 3) % 256 :=
  ⟨(init_switch_sequence host_ok switch_init (by decide) (by decide) rfl rfl rfl).2.1,
   (init_switch_sequence host_ok switch_init (by decide) (by decide) rfl rfl rfl).2.2.2.1⟩

/-- C26: over a non-decreasing sequence of clock values (none before the last poll), a
command leaves `poll_switch_controller` only with the vendor-controller flag set, every
sending time is at least 15 ms after the last poll at the start, and any two sending
times are at least 15 ms apart; a call with the flag clear or with fewer than 15 ms
elapsed changes nothing and sends nothing; and the command that is sent is the report of
subcommand 0x00 with no data. -/
theorem keepalive_spacing (h : Host) (sw : SwitchState) (times : List Nat) (now : Nat) :
    (times.Pairwise (· ≤ ·) → (∀ t ∈ times, sw.last_switch_poll ≤ t) →
      (∀ t ∈ times, t < 2 ^ 64) →
        ((poll_run h sw times).2 ≠ [] → sw.is_official_switch = true)
        ∧ (∀ k ∈ (poll_run h sw times).2, sw.last_switch_poll + 15 ≤ k)
        ∧ (poll_run h sw times).2.Pairwise (fun a b => a + 15 ≤ b))
    ∧ (sw.is_official_switch = false ∨ (now + 2 ^ 64 - sw.last_switch_poll) % 2 ^ 64 < 15 →
        poll_switch_controller h now sw = (sw, []))
    ∧ (sw.is_official_switch = true → ¬ (now + 2 ^ 64 - sw.last_switch_poll) % 2 ^ 64 < 15 →
        h.dev_hdl ≠ none → h.client_hdl ≠ none → h.alloc_ok = true →
        poll_switch_controller h now sw
          = ({ sw with
                last_switch_poll := now
                switch_packet_counter := (sw.switch_packet_counter + 1) % 256 },
              [PadEvent.control (switch_setup_pkt
                ++ switch_report { sw with last_switch_poll := now } 0x00 []) h.submit_ok])) := by
  refine ⟨poll_run_spaced h times sw, poll_quiet h now sw, ?_⟩
  intro hf hg hd hc ha
  unfold poll_switch_controller
  simp only [hf, Bool.not_true, Bool.false_eq_true, if_false, if_neg hg]
  rw [send_switch_command_open h _ 0x00 [] hd hc ha]

/-- Witness of C26: polls at 0, 10, 15, 20, 29, 30, 100 ms with the flag set send at 15,
30 and 100 ms. -/
theorem keepalive_spacing_witness :
    (poll_run host_ok { switch_init with is_official_switch := true }
        [0, 10, 15, 20, 29, 30, 100]).2 = [15, 30, 100]
    ∧ (poll_run host_ok { switch_init with is_official_switch := true }
        [0, 10, 15, 20, 29, 30, 100]).2.Pairwise (fun a b => a + 15 ≤ b) :=
  ⟨by decide,
   ((keepalive_spacing host_ok { switch_init with is_official_switch := true }
      [0, 10, 15, 20, 29, 30, 100] 0).1 (by decide) (by decide) (by decide)).2.2⟩

/-- C27: in a vendor-controller session, for amplitudes in the documented range (not
negative; line 312 gives 0.0-1.0) the envelope becomes the strong value
`28 88 60 61 28 88 60 61` when an amplitude is non-zero and the idle value
`00 01 40 40 00 01 40 40` when both are zero (second conjunct); the code tests
`amp > 0`, which is the first conjunct; and two calls that differ only in the two
frequencies leave the same statics. -/
theorem rumble_envelope (sw : SwitchState) (freq_low amp_low freq_high amp_high f1 f2 : ℚ)
    (hf : sw.is_official_switch = true) :
    (set_switch_rumble_call sw freq_low amp_low freq_high amp_high).rumble_data
        = (if amp_low > 0 ∨ amp_high > 0 then [0x28, 0x88, 0x60, 0x61, 0x28, 0x88, 0x60, 0x61]
            else [0x00, 0x01, 0x40, 0x40, 0x00, 0x01, 0x40, 0x40])
    ∧ (0 ≤ amp_low → 0 ≤ amp_high →
        (set_switch_rumble_call sw freq_low amp_low freq_high amp_high).rumble_data
          = (if amp_low ≠ 0 ∨ amp_high ≠ 0 then [0x28, 0x88, 0x60, 0x61, 0x28, 0x88, 0x60, 0x61]
              else [0x00, 0x01, 0x40, 0x40, 0x00, 0x01, 0x40, 0x40]))
    ∧ set_switch_rumble_call sw freq_low amp_low freq_high amp_high
        = set_switch_rumble_call sw f1 amp_low f2 amp_high := by
  have key : (set_switch_rumble_call sw freq_low amp_low freq_high amp_high).rumble_data
      = (if amp_low > 0 ∨ amp_high > 0 then [0x28, 0x88, 0x60, 0x61, 0x28, 0x88, 0x60, 0x61]
          else [0x00, 0x01, 0x40, 0x40, 0x00, 0x01, 0x40, 0x40]) := by
    unfold set_switch_rumble_call set_switch_rumble
    by_cases hp : amp_low > 0 ∨ amp_high > 0
    · simp [hf, hp, rumble_strong]
    · simp [hf, hp, rumble_idle]
  refine ⟨key, ?_, rfl⟩
  intro h1 h2
  rw [key]
  have hiff : (amp_low > 0 ∨ amp_high > 0) ↔ (amp_low ≠ 0 ∨ amp_high ≠ 0) := by
    constructor
    · rintro (hp | hp)
      · exact Or.inl (ne_of_gt hp)
      · exact Or.inr (ne_of_gt hp)
    · rintro (hp | hp)
      · exact Or.inl (lt_of_le_of_ne h1 (Ne.symm hp))
      · exact Or.inr (lt_of_le_of_ne h2 (Ne.symm hp))
  by_cases hp : amp_low > 0 ∨ amp_high > 0
  · rw [if_pos hp, if_pos (hiff.1 hp)]
  · rw [if_neg hp, if_neg (fun hq => hp (hiff.2 hq))]

/-- Witness of C27: the two calls made by the gamepad callback, (160, 1, 320,
1) on Home pressed and (0, 0, 0, 0) on Home released. -/
theorem rumble_envelope_witness :
    (set_switch_rumble_call { switch_init with is_official_switch := true } 160 1 320 1).rumble_data
        = (if (1 : ℚ) ≠ 0 ∨ (1 : ℚ) ≠ 0 then [0x28, 0x88, 0x60, 0x61, 0x28, 0x88, 0x60, 0x61]
            else [0x00, 0x01, 0x40, 0x40, 0x00, 0x01, 0x40, 0x40])
    ∧ (set_switch_rumble_call { switch_init with is_official_switch := true } 0 0 0 0).rumble_data
        = (if (0 : ℚ) ≠ 0 ∨ (0 : ℚ) ≠ 0 then [0x28, 0x88, 0x60, 0x61, 0x28, 0x88, 0x60, 0x61]
            else [0x00, 0x01, 0x40, 0x40, 0x00, 0x01, 0x40, 0x40]) :=
  ⟨(rumble_envelope { switch_init with is_official_switch := true } 160 1 320 1 0 0 rfl).2.1
      (by norm_num) (by norm_num),
   (rumble_envelope { switch_init with is_official_switch := true } 0 0 0 0 0 0 rfl).2.1
      (le_refl _) (le_refl _)⟩

/-- C28 (code defect): the attach handler never clears the vendor-controller flag.  A
session in which the flag is set keeps it through any NEW_DEV notification, whatever
device is announced and whatever the transport answers: the cleanup of a device that is
still open (lines 669-678) closes it without the `is_official_switch = false` of the
detach path (line 934), and no branch of the attach path clears it.  In the session of
the new device `set_switch_rumble` therefore still writes the envelope, strong for the
call (160, 1, 320, 1) and idle for (0, 0, 0, 0), and `poll_switch_controller` sends a
keep-alive report whenever 15 ms have passed on the 64-bit clock. -/
theorem stale_vendor_flag (s : Session) (d : NewDev) (now : Nat)
    (hf : s.sw.is_official_switch = true)
    (hdue : ¬ (now + 2 ^ 64 - (client_event_new_dev s d).1.sw.last_switch_poll) % 2 ^ 64 < 15) :
    (client_event_new_dev s d).1.sw.is_official_switch = true
    ∧ (set_switch_rumble_call (client_event_new_dev s d).1.sw 160 1 320 1).rumble_data
        = rumble_strong
    ∧ (set_switch_rumble_call (client_event_new_dev s d).1.sw 0 0 0 0).rumble_data
        = rumble_idle
    ∧ (poll_switch_controller host_ok now (client_event_new_dev s d).1.sw).2
        = [PadEvent.control (switch_setup_pkt
            ++ switch_report { (client_event_new_dev s d).1.sw with last_switch_poll := now }
                0x00 []) true] := by
  have hk := client_event_new_dev_flag s d hf
  refine ⟨hk, ?_, ?_, ?_⟩
  · unfold set_switch_rumble_call set_switch_rumble
    norm_num [hk]
  · unfold set_switch_rumble_call set_switch_rumble
    norm_num [hk]
  · unfold poll_switch_controller
    simp only [hk, Bool.not_true, Bool.false_eq_true, if_false, if_neg hdue]
    rw [send_switch_command_open host_ok _ _ _ (by decide) (by decide) rfl]
    rfl

/-- Witness of C28: from program start the vendor controller 057E:2009 is attached on
handle 7, then a gamepad 0F0D:00C1 is announced without a detach in between and opened
on handle 8; 20 ms later the keep-alive is due. -/
theorem stale_vendor_flag_witness :
    (client_event_new_dev session_init (gamepad_attach 7 0x057E 0x2009)).1.sw.is_official_switch
        = true
    ∧ (gamepad_attach 8 0x0F0D 0x00C1).dev_desc = some ⟨0x00, 0x0F0D, 0x00C1⟩
    ∧ (client_event_new_dev
          (client_event_new_dev session_init (gamepad_attach 7 0x057E 0x2009)).1
          (gamepad_attach 8 0x0F0D 0x00C1)).1.dev_hdl = some 8
    ∧ (client_event_new_dev
          (client_event_new_dev session_init (gamepad_attach 7 0x057E 0x2009)).1
          (gamepad_attach 8 0x0F0D 0x00C1)).1.sw.is_official_switch = true
    ∧ (set_switch_rumble_call (client_event_new_dev
          (client_event_new_dev session_init (gamepad_attach 7 0x057E 0x2009)).1
          (gamepad_attach 8 0x0F0D 0x00C1)).1.sw 160 1 320 1).rumble_data = rumble_strong
    ∧ (poll_switch_controller host_ok 20 (client_event_new_dev
          (client_event_new_dev session_init (gamepad_attach 7 0x057E 0x2009)).1
          (gamepad_attach 8 0x0F0D 0x00C1)).1.sw).2 ≠ [] := by
  have h := stale_vendor_flag
    (client_event_new_dev session_init (gamepad_attach 7 0x057E 0x2009)).1
    (gamepad_attach 8 0x0F0D 0x00C1) 20 (by decide) (by decide)
  refine ⟨by decide, rfl, by decide, h.1, h.2.1, ?_⟩
  rw [h.2.2.2]
  exact List.cons_ne_nil _ _

/-- C29: each of the five completion callbacks resubmits the transfer exactly once,
whatever the transfer and the state; and for a transfer whose status is not "completed"
the resubmission is all the callback does: no state changes and nothing else is
emitted. -/
theorem resubmit_exactly_once (h : Host) (now : Nat) (t : Transfer)
    (ms : MouseState) (ks : KbState) (ps : PadState) (sw : SwitchState) (es : MediaState)
    (ts : TouchpadState) :
    ((mouse_transfer_cb ms t).2.count MouseEvent.resubmit = 1
      ∧ (keyboard_transfer_cb h ks t).2.count KeyboardCbEvent.resubmit = 1
      ∧ (gamepad_transfer_cb h now ps sw t).2.2.count PadEvent.resubmit = 1
      ∧ (media_transfer_cb es t).2.count MediaEvent.resubmit = 1
      ∧ (touchpad_transfer_cb ts t).2.count TouchpadEvent.resubmit = 1)
    ∧ (t.completed = false →
        mouse_transfer_cb ms t = (ms, [MouseEvent.resubmit])
        ∧ keyboard_transfer_cb h ks t = (ks, [KeyboardCbEvent.resubmit])
        ∧ gamepad_transfer_cb h now ps sw t = (ps, sw, [PadEvent.resubmit])
        ∧ media_transfer_cb es t = (es, [MediaEvent.resubmit])
        ∧ touchpad_transfer_cb ts t = (ts, [TouchpadEvent.resubmit])) := by
  refine ⟨⟨mouse_resubmit_once ms t, keyboard_resubmit_once h ks t,
    gamepad_resubmit_once h now ps sw t, media_resubmit_once es t,
    touchpad_resubmit_once ts t⟩, ?_⟩
  intro hc
  refine ⟨?_, ?_, ?_, ?_, ?_⟩
  · simp [mouse_transfer_cb, hc]
  · simp [keyboard_transfer_cb, hc]
  · simp [gamepad_transfer_cb, hc]
  · simp [media_transfer_cb, hc]
  · simp [touchpad_transfer_cb, hc]

/-- Witness of C29: a failed transfer carrying a shift + 'a' keyboard report changes
nothing in any decoder. -/
theorem resubmit_exactly_once_witness :
    mouse_transfer_cb mouse_init (failed_report [2, 0, 4, 0, 0, 0, 0, 0])
        = (mouse_init, [MouseEvent.resubmit])
    ∧ keyboard_transfer_cb host_ok kb_init (failed_report [2, 0, 4, 0, 0, 0, 0, 0])
        = (kb_init, [KeyboardCbEvent.resubmit])
    ∧ gamepad_transfer_cb host_ok 0 pad_init switch_init (failed_report [2, 0, 4, 0, 0, 0, 0, 0])
        = (pad_init, switch_init, [PadEvent.resubmit])
    ∧ media_transfer_cb media_init (failed_report [2, 0, 4, 0, 0, 0, 0, 0])
        = (media_init, [MediaEvent.resubmit])
    ∧ touchpad_transfer_cb touchpad_init (failed_report [2, 0, 4, 0, 0, 0, 0, 0])
        = (touchpad_init, [TouchpadEvent.resubmit]) :=
  (resubmit_exactly_once host_ok 0 (failed_report [2, 0, 4, 0, 0, 0, 0, 0]) mouse_init kb_init
    pad_init switch_init media_init touchpad_init).2 rfl

/-- C30 (counterexample): a state reached by attach events in which the handler changes
nothing.  The vendor controller is attached, then a second device is announced while
the first is still open and `usb_host_device_open` fails for it: the handle is null,
the flag is set and slot 0 is bound.  The detach handler is guarded by `if (dev_hdl)`,
so it leaves the flag set and the slot bound and issues no call. -/
theorem dev_gone_null_handle_counterexample :
    (client_events session_init
        [ClientEvent.new_dev (gamepad_attach 7 0x057E 0x2009),
         ClientEvent.new_dev { gamepad_attach 8 0x0F0D 0x00C1 with open_result := none }]).1.dev_hdl
        = none
    ∧ (client_event_dev_gone (client_events session_init
        [ClientEvent.new_dev (gamepad_attach 7 0x057E 0x2009),
         ClientEvent.new_dev { gamepad_attach 8 0x0F0D 0x00C1 with open_result := none }]).1).1.sw.is_official_switch
        = true
    ∧ (client_event_dev_gone (client_events session_init
        [ClientEvent.new_dev (gamepad_attach 7 0x057E 0x2009),
         ClientEvent.new_dev { gamepad_attach 8 0x0F0D 0x00C1 with open_result := none }]).1).1.active_transfers0
        = some ⟨0x81, Callback.gamepad⟩
    ∧ (client_event_dev_gone (client_events session_init
        [ClientEvent.new_dev (gamepad_attach 7 0x057E 0x2009),
         ClientEvent.new_dev { gamepad_attach 8 0x0F0D 0x00C1 with open_result := none }]).1).2
        = [] := by
  decide

/-- C30 (amended): the detach handler acts only while the device handle is open.  From a
state with an open handle it ends with the handle null, the vendor-controller flag false
and the three slots empty, and its calls are, in this order: halt and flush (and a 10 ms
delay) for each bound slot 0, 1, 2, then the release of interfaces 0, 1, 2, then the
close of the device; nothing else of the state changes.  From a state whose handle is
null it changes nothing and issues no call, whatever the flag and the slots hold.  In
every case the handle is null afterwards, so a second application changes no state and
issues no call. -/
theorem dev_gone_cleanup (s : Session) :
    (s.dev_hdl ≠ none →
        (client_event_dev_gone s).1.dev_hdl = none
        ∧ (client_event_dev_gone s).1.sw.is_official_switch = false
        ∧ (client_event_dev_gone s).1.active_transfers0 = none
        ∧ (client_event_dev_gone s).1.active_transfers1 = none
        ∧ (client_event_dev_gone s).1.active_transfers2 = none
        ∧ (client_event_dev_gone s).2
            = halt_calls s.active_transfers0 ++ halt_calls s.active_transfers1
              ++ halt_calls s.active_transfers2
              ++ [UsbCall.interface_release 0, UsbCall.interface_release 1,
                  UsbCall.interface_release 2, UsbCall.device_close]
        ∧ (client_event_dev_gone s).1.client_hdl = s.client_hdl
        ∧ (client_event_dev_gone s).1.sw.switch_packet_counter = s.sw.switch_packet_counter
        ∧ (client_event_dev_gone s).1.sw.last_switch_poll = s.sw.last_switch_poll
        ∧ (client_event_dev_gone s).1.sw.rumble_data = s.sw.rumble_data
        ∧ (client_event_dev_gone s).1.caps_lock_state = s.caps_lock_state
        ∧ (client_event_dev_gone s).1.num_lock_state = s.num_lock_state
        ∧ (client_event_dev_gone s).1.scroll_lock_state = s.scroll_lock_state)
    ∧ (s.dev_hdl = none → client_event_dev_gone s = (s, []))
    ∧ client_event_dev_gone (client_event_dev_gone s).1 = ((client_event_dev_gone s).1, []) := by
  refine ⟨?_, dev_gone_closed s, dev_gone_closed _ (dev_gone_handle s)⟩
  intro ho
  cases hd : s.dev_hdl with
  | none => exact absurd hd ho
  | some hdl =>
    rw [dev_gone_open s hdl hd]
    exact ⟨rfl, rfl, rfl, rfl, rfl, rfl, rfl, rfl, rfl, rfl, rfl, rfl, rfl⟩

/-- Witness of C30 (amended): a keyboard session on handle 7 with slot 0 bound to
endpoint 0x81 and slot 1 to the media endpoint 0x82. -/
theorem dev_gone_cleanup_witness :
    ({ session_init with
        dev_hdl := some 7
        active_transfers0 := some ⟨0x81, Callback.keyboard⟩
        active_transfers1 := some ⟨0x82, Callback.media⟩ } : Session).dev_hdl ≠ none
    ∧ (client_event_dev_gone { session_init with
        dev_hdl := some 7
        active_transfers0 := some ⟨0x81, Callback.keyboard⟩
        active_transfers1 := some ⟨0x82, Callback.media⟩ }).2
        = [UsbCall.endpoint_halt 0x81, UsbCall.endpoint_flush 0x81, UsbCall.delay 10,
           UsbCall.endpoint_halt 0x82, UsbCall.endpoint_flush 0x82, UsbCall.delay 10,
           UsbCall.interface_release 0, UsbCall.interface_release 1,
           UsbCall.interface_release 2, UsbCall.device_close]
    ∧ (client_event_dev_gone { session_init with
        dev_hdl := some 7
        active_transfers0 := some ⟨0x81, Callback.keyboard⟩
        active_transfers1 := some ⟨0x82, Callback.media⟩ }).1.dev_hdl = none :=
  ⟨by decide,
   ((dev_gone_cleanup { session_init with
        dev_hdl := some 7
        active_transfers0 := some ⟨0x81, Callback.keyboard⟩
        active_transfers1 := some ⟨0x82, Callback.media⟩ }).1 (by decide)).2.2.2.2.2.1,
   ((dev_gone_cleanup { session_init with
        dev_hdl := some 7
        active_transfers0 := some ⟨0x81, Callback.keyboard⟩
        active_transfers1 := some ⟨0x82, Callback.media⟩ }).1 (by decide)).1⟩

/-! ## Lemmas on the descriptor walks -/

theorem run_loop_mono {σ ρ : Type} (body : σ → σ ⊕ ρ) (r : ρ) :
    ∀ (n : Nat) (s : σ), run_loop body n s = some r → ∀ k, run_loop body (n + k) s = some r := by
  intro n
  induction n with
  | zero => intro s h; simp [run_loop] at h
  | succ n ih =>
    intro s h k
    have e : n + 1 + k = (n + k) + 1 := by omega
    rw [e]
    unfold run_loop at h ⊢
    cases hb : body s with
    | inl s1 =>
      rw [hb] at h
      exact ih s1 h k
    | inr r1 =>
      rw [hb] at h
      exact h

theorem run_loop_stuck {σ ρ : Type} (body : σ → σ ⊕ ρ) (s : σ) (hs : body s = Sum.inl s) :
    ∀ n, run_loop body n s = none := by
  intro n
  induction n with
  | zero => rfl
  | succ n ih =>
    unfold run_loop
    rw [hs]
    exact ih

theorem view_at_zero (r : StdDesc) (rest : List StdDesc) : view_at (r :: rest) 0 = r := by
  simp [view_at]

theorem view_at_skip (r : StdDesc) (rest : List StdDesc) (k : Nat) (hr : 0 < r.bLength) :
    view_at (r :: rest) (r.bLength + k) = view_at rest k := by
  have h1 : ¬ r.bLength + k = 0 := by omega
  have h2 : ¬ r.bLength + k < r.bLength := by omega
  have h3 : r.bLength + k - r.bLength = k := by omega
  simp only [view_at, if_neg h1, if_neg h2, h3]

theorem view_at_append (pre suf : List StdDesc) (hpos : ∀ r ∈ pre, 0 < r.bLength) :
    ∀ k, view_at (pre ++ suf) ((pre.map (fun r => r.bLength)).sum + k) = view_at suf k := by
  induction pre with
  | nil => intro k; simp
  | cons r rest ih =>
    intro k
    have hr : 0 < r.bLength := hpos r (List.mem_cons_self _ _)
    have e : ((r :: rest).map (fun r => r.bLength)).sum + k
        = r.bLength + ((rest.map (fun r => r.bLength)).sum + k) := by
      simp only [List.map_cons, List.sum_cons]; omega
    rw [e, List.cons_append, view_at_skip _ _ _ hr]
    exact ih (fun x hx => hpos x (List.mem_cons_of_mem _ hx)) k

/-- A loop that leaves at the end of the table and otherwise either leaves or advances
by the length read at its offset finishes on a table of records of non-zero length,
within one iteration per record and one more. -/
theorem run_loop_table {σ ρ : Type} (c : ConfigDesc) (body : σ → σ ⊕ ρ) (off : σ → Nat)
    (hexit : ∀ s, c.wTotalLength ≤ off s → ∃ r, body s = Sum.inr r)
    (hstep : ∀ s s1, body s = Sum.inl s1 → off s1 = off s + (c.desc_at (off s)).bLength) :
    ∀ (recs : List StdDesc) (s : σ) (fuel : Nat), (∀ r ∈ recs, 0 < r.bLength) →
      (∀ k, c.desc_at (off s + k) = view_at recs k) →
      c.wTotalLength = off s + (recs.map (fun r => r.bLength)).sum →
      recs.length < fuel → ∃ r, run_loop body fuel s = some r := by
  intro recs
  induction recs with
  | nil =>
    intro s fuel _ _ htot hfuel
    obtain ⟨f, rfl⟩ : ∃ f, fuel = f + 1 := ⟨fuel - 1, by simp at hfuel; omega⟩
    obtain ⟨r, hr⟩ := hexit s (by simp at htot; omega)
    exact ⟨r, by unfold run_loop; rw [hr]⟩
  | cons x rest ih =>
    intro s fuel hpos hv htot hfuel
    obtain ⟨f, rfl⟩ : ∃ f, fuel = f + 1 := ⟨fuel - 1, by simp at hfuel; omega⟩
    have hx : 0 < x.bLength := hpos x (List.mem_cons_self _ _)
    have h0 : c.desc_at (off s) = x := by
      have := hv 0
      rwa [Nat.add_zero, view_at_zero] at this
    unfold run_loop
    cases hb : body s with
    | inr r => exact ⟨r, rfl⟩
    | inl s1 =>
      have ho := hstep s s1 hb
      rw [h0] at ho
      simp only
      apply ih s1 f (fun y hy => hpos y (List.mem_cons_of_mem _ hy))
      · intro k
        rw [ho, Nat.add_assoc, hv, view_at_skip _ _ _ hx]
      · rw [ho, htot]
        simp only [List.map_cons, List.sum_cons]
        omega
      · simp only [List.length_cons] at hfuel
        omega

/-- A search loop over a table of records of non-zero length is left at the first record,
in table order, that satisfies its test. -/
theorem run_loop_locate (c : ConfigDesc) (body : Nat → Nat ⊕ Option Nat) (p : StdDesc → Bool)
    (hbody : ∀ o, body o =
      if o < c.wTotalLength then
        if p (c.desc_at o) = true then Sum.inr (some o)
        else Sum.inl (o + (c.desc_at o).bLength)
      else Sum.inr none) :
    ∀ (recs : List StdDesc) (base fuel : Nat), (∀ r ∈ recs, 0 < r.bLength) →
      (∀ k, c.desc_at (base + k) = view_at recs k) →
      c.wTotalLength = base + (recs.map (fun r => r.bLength)).sum →
      recs.length < fuel →
      run_loop body fuel base = some ((locate p recs base).map Prod.fst) := by
  intro recs
  induction recs with
  | nil =>
    intro base fuel _ _ htot hfuel
    obtain ⟨f, rfl⟩ : ∃ f, fuel = f + 1 := ⟨fuel - 1, by simp at hfuel; omega⟩
    have hn : ¬ base < c.wTotalLength := by simp at htot; omega
    unfold run_loop
    rw [hbody, if_neg hn]
    rfl
  | cons x rest ih =>
    intro base fuel hpos hv htot hfuel
    obtain ⟨f, rfl⟩ : ∃ f, fuel = f + 1 := ⟨fuel - 1, by simp at hfuel; omega⟩
    have hx : 0 < x.bLength := hpos x (List.mem_cons_self _ _)
    have h0 : c.desc_at base = x := by
      have := hv 0
      rwa [Nat.add_zero, view_at_zero] at this
    have hlt : base < c.wTotalLength := by
      rw [htot]; simp only [List.map_cons, List.sum_cons]; omega
    unfold run_loop
    rw [hbody, if_pos hlt, h0]
    by_cases hp : p x = true
    · rw [if_pos hp]
      simp [locate, hp]
    · rw [if_neg hp]
      simp only [locate, if_neg hp]
      apply ih (base + x.bLength) f (fun y hy => hpos y (List.mem_cons_of_mem _ hy))
      · intro k
        rw [Nat.add_assoc, hv, view_at_skip _ _ _ hx]
      · rw [htot]
        simp only [List.map_cons, List.sum_cons]
        omega
      · simp only [List.length_cons] at hfuel
        omega

theorem locate_find (p : StdDesc → Bool) :
    ∀ (recs : List StdDesc) (base : Nat),
      (locate p recs base).map Prod.snd = recs.find? p := by
  intro recs
  induction recs with
  | nil => intro base; rfl
  | cons x rest ih =>
    intro base
    by_cases hp : p x = true
    · simp [locate, hp, List.find?]
    · have hf : p x = false := by simpa using hp
      simp only [locate, if_neg hp, List.find?, hf]
      exact ih _

theorem locate_split (p : StdDesc → Bool) :
    ∀ (recs : List StdDesc) (base o : Nat) (r : StdDesc), locate p recs base = some (o, r) →
      ∃ pre suf, recs = pre ++ r :: suf
        ∧ o = base + (pre.map (fun x => x.bLength)).sum ∧ p r = true := by
  intro recs
  induction recs with
  | nil => intro base o r h; simp [locate] at h
  | cons x rest ih =>
    intro base o r h
    by_cases hp : p x = true
    · simp only [locate, if_pos hp, Option.some.injEq, Prod.mk.injEq] at h
      obtain ⟨rfl, rfl⟩ := h
      exact ⟨[], rest, rfl, by simp, hp⟩
    · simp only [locate, if_neg hp] at h
      obtain ⟨pre, suf, e1, e2, e3⟩ := ih _ _ _ h
      refine ⟨x :: pre, suf, by rw [e1]; rfl, ?_, e3⟩
      rw [e2]
      simp only [List.map_cons, List.sum_cons]
      omega

theorem primary_body_eq (c : ConfigDesc) (o : Nat) :
    primary_body c o =
      if o < c.wTotalLength then
        if is_hid_interface_0 (c.desc_at o) = true then Sum.inr (some o)
        else Sum.inl (o + (c.desc_at o).bLength)
      else Sum.inr none := by
  unfold primary_body is_hid_interface_0
  simp only [Bool.and_eq_true, beq_iff_eq, and_assoc]

theorem fallback_body_eq (c : ConfigDesc) (o : Nat) :
    fallback_body c o =
      if o < c.wTotalLength then
        if is_hid_interface (c.desc_at o) = true then Sum.inr (some o)
        else Sum.inl (o + (c.desc_at o).bLength)
      else Sum.inr none := by
  unfold fallback_body is_hid_interface
  simp only [Bool.and_eq_true, beq_iff_eq]

theorem table_of_view (recs : List StdDesc) (k : Nat) :
    (table_of recs).desc_at (0 + k) = view_at recs k := by
  rw [Nat.zero_add]; rfl

theorem table_of_total (recs : List StdDesc) :
    (table_of recs).wTotalLength = 0 + (recs.map (fun r => r.bLength)).sum := by
  rw [Nat.zero_add]; rfl

/-- The two interface walks on a table of records of non-zero length: the first record
that is a class 0x03 interface numbered 0, else the first that is a class 0x03
interface. -/
theorem select_interface_table (recs : List StdDesc) (fuel : Nat)
    (hpos : ∀ r ∈ recs, 0 < r.bLength) (hfuel : recs.length < fuel) :
    select_interface (table_of recs) fuel
      = some (((locate is_hid_interface_0 recs 0).orElse
          (fun _ => locate is_hid_interface recs 0)).map Prod.fst) := by
  have h1 := run_loop_locate (table_of recs) (primary_body (table_of recs)) is_hid_interface_0
    (primary_body_eq _) recs 0 fuel hpos (table_of_view recs) (table_of_total recs) hfuel
  have h2 := run_loop_locate (table_of recs) (fallback_body (table_of recs)) is_hid_interface
    (fallback_body_eq _) recs 0 fuel hpos (table_of_view recs) (table_of_total recs) hfuel
  unfold select_interface
  rw [h1]
  cases hl : locate is_hid_interface_0 recs 0 with
  | none => simp only [Option.map_none', Option.orElse]; rw [h2]
  | some x => simp [Option.orElse]

theorem endpoint_body_exit (c : ConfigDesc) (s : Nat × Option Nat)
    (h : c.wTotalLength ≤ s.1) : ∃ r, endpoint_body c s = Sum.inr r := by
  have hn : ¬ s.1 < c.wTotalLength := by omega
  exact ⟨s.2, by unfold endpoint_body; rw [if_neg hn]⟩

theorem endpoint_body_step (c : ConfigDesc) (s s1 : Nat × Option Nat)
    (h : endpoint_body c s = Sum.inl s1) : s1.1 = s.1 + (c.desc_at s.1).bLength := by
  unfold endpoint_body at h
  by_cases h1 : s.1 < c.wTotalLength
  · rw [if_pos h1] at h
    by_cases h2 : (c.desc_at s.1).bDescriptorType = DescriptorType.endpoint
    · rw [if_pos h2] at h
      by_cases h3 : is_interrupt_in (c.desc_at s.1) = true
      · rw [if_pos h3] at h; cases h
      · rw [if_neg h3] at h
        injection h with h
        rw [← h]
    · rw [if_neg h2] at h
      by_cases h4 : (c.desc_at s.1).bDescriptorType = DescriptorType.interface
      · rw [if_pos h4] at h; cases h
      · rw [if_neg h4] at h
        injection h with h
        rw [← h]
  · rw [if_neg h1] at h; cases h

theorem interface_1_body_exit (c : ConfigDesc) (o : Nat)
    (h : c.wTotalLength ≤ o) : ∃ r, interface_1_body c o = Sum.inr r := by
  have hn : ¬ o < c.wTotalLength := by omega
  exact ⟨false, by unfold interface_1_body; rw [if_neg hn]⟩

theorem interface_1_body_step (c : ConfigDesc) (o o1 : Nat)
    (h : interface_1_body c o = Sum.inl o1) : o1 = o + (c.desc_at o).bLength := by
  unfold interface_1_body at h
  by_cases h1 : o < c.wTotalLength
  · rw [if_pos h1] at h
    by_cases h2 : (c.desc_at o).bDescriptorType = DescriptorType.interface
        ∧ (c.desc_at o).bInterfaceNumber = 1
    · rw [if_pos h2] at h; cases h
    · rw [if_neg h2] at h
      injection h with h
      exact h.symm
  · rw [if_neg h1] at h; cases h

theorem interface_2_body_exit (c : ConfigDesc) (s : Nat × Option Nat × Option Nat)
    (h : c.wTotalLength ≤ s.1) : ∃ r, interface_2_body c s = Sum.inr r := by
  have hn : ¬ s.1 < c.wTotalLength := by omega
  exact ⟨(s.2.1, s.2.2), by unfold interface_2_body; rw [if_neg hn]⟩

theorem interface_2_body_step (c : ConfigDesc) (s s1 : Nat × Option Nat × Option Nat)
    (h : interface_2_body c s = Sum.inl s1) : s1.1 = s.1 + (c.desc_at s.1).bLength := by
  unfold interface_2_body at h
  by_cases h1 : s.1 < c.wTotalLength
  · rw [if_pos h1] at h
    by_cases h2 : (c.desc_at s.1).bDescriptorType = DescriptorType.interface
    · rw [if_pos h2] at h
      by_cases h3 : (c.desc_at s.1).bInterfaceNumber = 2
      · rw [if_pos h3] at h
        injection h with h
        rw [← h]
      · rw [if_neg h3] at h
        injection h with h
        rw [← h]
    · rw [if_neg h2] at h
      by_cases h4 : (c.desc_at s.1).bDescriptorType = DescriptorType.endpoint
          ∧ s.2.1.isSome = true
      · rw [if_pos h4] at h
        by_cases h5 : is_interrupt_in (c.desc_at s.1) = true
        · rw [if_pos h5] at h; cases h
        · rw [if_neg h5] at h
          injection h with h
          rw [← h]
      · rw [if_neg h4] at h
        injection h with h
        rw [← h]
  · rw [if_neg h1] at h; cases h

theorem primary_body_step (c : ConfigDesc) (o o1 : Nat)
    (h : primary_body c o = Sum.inl o1) : o1 = o + (c.desc_at o).bLength := by
  rw [primary_body_eq] at h
  by_cases h1 : o < c.wTotalLength
  · rw [if_pos h1] at h
    by_cases h2 : is_hid_interface_0 (c.desc_at o) = true
    · rw [if_pos h2] at h; cases h
    · rw [if_neg h2] at h
      injection h with h
      exact h.symm
  · rw [if_neg h1] at h; cases h

theorem fallback_body_step (c : ConfigDesc) (o o1 : Nat)
    (h : fallback_body c o = Sum.inl o1) : o1 = o + (c.desc_at o).bLength := by
  rw [fallback_body_eq] at h
  by_cases h1 : o < c.wTotalLength
  · rw [if_pos h1] at h
    by_cases h2 : is_hid_interface (c.desc_at o) = true
    · rw [if_pos h2] at h; cases h
    · rw [if_neg h2] at h
      injection h with h
      exact h.symm
  · rw [if_neg h1] at h; cases h

/-- The endpoint walk behind a record of a table of records of non-zero length is
left. -/
theorem find_endpoint_table (pre suf : List StdDesc) (r : StdDesc) (fuel : Nat)
    (hpos : ∀ x ∈ pre ++ r :: suf, 0 < x.bLength) (hfuel : (pre ++ r :: suf).length < fuel) :
    ∃ e, find_endpoint (table_of (pre ++ r :: suf)) fuel (pre.map (fun x => x.bLength)).sum
      = some e := by
  have hpre : ∀ x ∈ pre, 0 < x.bLength := fun x hx => hpos x (List.mem_append_left _ hx)
  have hr : 0 < r.bLength := hpos r (List.mem_append_right _ (List.mem_cons_self _ _))
  have hsuf : ∀ x ∈ suf, 0 < x.bLength :=
    fun x hx => hpos x (List.mem_append_right _ (List.mem_cons_of_mem _ hx))
  have hat : (table_of (pre ++ r :: suf)).desc_at (pre.map (fun x => x.bLength)).sum = r := by
    have := view_at_append pre (r :: suf) hpre 0
    rw [Nat.add_zero, view_at_zero] at this
    exact this
  unfold find_endpoint
  rw [hat]
  apply run_loop_table (table_of (pre ++ r :: suf)) (endpoint_body _) Prod.fst
    (endpoint_body_exit _) (endpoint_body_step _) suf _ fuel hsuf
  · intro k
    show view_at (pre ++ r :: suf) ((pre.map (fun x => x.bLength)).sum + r.bLength + k) = _
    rw [Nat.add_assoc, view_at_append pre (r :: suf) hpre, view_at_skip _ _ _ hr]
  · show ((pre ++ r :: suf).map (fun x => x.bLength)).sum = _
    simp only [List.map_append, List.map_cons, List.sum_append, List.sum_cons]
    omega
  · simp only [List.length_append, List.length_cons] at hfuel
    omega

theorem has_interface_1_table (recs : List StdDesc) (fuel : Nat)
    (hpos : ∀ r ∈ recs, 0 < r.bLength) (hfuel : recs.length < fuel) :
    ∃ m, has_interface_1 (table_of recs) fuel = some m :=
  run_loop_table (table_of recs) (interface_1_body _) id (interface_1_body_exit _)
    (interface_1_body_step _) recs 0 fuel hpos (table_of_view recs) (table_of_total recs) hfuel

theorem find_interface_2_table (recs : List StdDesc) (fuel : Nat)
    (hpos : ∀ r ∈ recs, 0 < r.bLength) (hfuel : recs.length < fuel) :
    ∃ m, find_interface_2 (table_of recs) fuel = some m :=
  run_loop_table (table_of recs) (interface_2_body _) Prod.fst (interface_2_body_exit _)
    (interface_2_body_step _) recs (0, none, none) fuel hpos (table_of_view recs)
    (table_of_total recs) hfuel

/-- On a table of records of non-zero length the walks of the attach handler are all
left, and the interface they select is the first class 0x03 interface numbered 0, else
the first class 0x03 interface. -/
theorem new_dev_on_table (recs : List StdDesc) (fuel : Nat) (d : NewDev)
    (hpos : ∀ r ∈ recs, 0 < r.bLength) (hfuel : recs.length < fuel) :
    ∃ d1, new_dev_on (table_of recs) fuel d = some d1
      ∧ d1.intf_desc = ((recs.find? is_hid_interface_0).orElse
          (fun _ => recs.find? is_hid_interface)).map intf_of
      ∧ (d1.intf_desc = none → d1.ep_desc = none) := by
  have hsel := select_interface_table recs fuel hpos hfuel
  obtain ⟨m, hm⟩ := has_interface_1_table recs fuel hpos hfuel
  have hf0 := locate_find is_hid_interface_0 recs 0
  have hf1 := locate_find is_hid_interface recs 0
  unfold new_dev_on
  rw [hsel, hm]
  cases h0 : locate is_hid_interface_0 recs 0 with
  | some x =>
    obtain ⟨o, r⟩ := x
    obtain ⟨pre, suf, e1, e2, -⟩ := locate_split _ _ _ _ _ h0
    rw [Nat.zero_add] at e2
    subst e1
    obtain ⟨e, he⟩ := find_endpoint_table pre suf r fuel hpos hfuel
    have hat : (table_of (pre ++ r :: suf)).desc_at o = r := by
      have := view_at_append pre (r :: suf)
        (fun x hx => hpos x (List.mem_append_left _ hx)) 0
      rw [Nat.add_zero, view_at_zero, ← e2] at this
      exact this
    rw [h0] at hf0
    simp only [Option.orElse, Option.map_some'] at hf0 ⊢
    rw [e2, he]
    refine ⟨_, rfl, ?_, ?_⟩
    · rw [← hf0, ← e2, hat]; rfl
    · intro hnone; simp at hnone
  | none =>
    rw [h0] at hf0
    simp only [Option.map_none'] at hf0
    cases h1 : locate is_hid_interface recs 0 with
    | some x =>
      obtain ⟨o, r⟩ := x
      obtain ⟨pre, suf, e1, e2, -⟩ := locate_split _ _ _ _ _ h1
      rw [Nat.zero_add] at e2
      subst e1
      obtain ⟨e, he⟩ := find_endpoint_table pre suf r fuel hpos hfuel
      have hat : (table_of (pre ++ r :: suf)).desc_at o = r := by
        have := view_at_append pre (r :: suf)
          (fun x hx => hpos x (List.mem_append_left _ hx)) 0
        rw [Nat.add_zero, view_at_zero, ← e2] at this
        exact this
      rw [h1] at hf1
      simp only [Option.orElse, Option.map_some'] at hf1 ⊢
      rw [e2, he]
      refine ⟨_, rfl, ?_, ?_⟩
      · rw [← hf0, ← hf1, ← e2, hat]; rfl
      · intro hnone; simp at hnone
    | none =>
      rw [h1] at hf1
      simp only [Option.map_none'] at hf1
      simp only [Option.orElse, Option.map_none']
      refine ⟨_, rfl, ?_, fun _ => rfl⟩
      rw [← hf0, ← hf1]; rfl

/-! ## Lemmas on the traces of the attach handler -/

theorem claimed_append (a b : List UsbCall) : claimed (a ++ b) = claimed a ++ claimed b := by
  induction a with
  | nil => rfl
  | cons x rest ih => cases x <;> simp [claimed, ih]

theorem submitted_append (a b : List UsbCall) :
    submitted (a ++ b) = submitted a ++ submitted b := by
  induction a with
  | nil => rfl
  | cons x rest ih => cases x <;> simp [submitted, ih]

theorem halted_append (a b : List UsbCall) : halted (a ++ b) = halted a ++ halted b := by
  induction a with
  | nil => rfl
  | cons x rest ih => cases x <;> simp [halted, ih]

theorem engine_calls_trace (l : List PadEvent) :
    claimed (engine_calls l) = [] ∧ submitted (engine_calls l) = []
      ∧ halted (engine_calls l) = [] := by
  induction l with
  | nil => exact ⟨rfl, rfl, rfl⟩
  | cons x rest ih => cases x <;> simp [engine_calls, claimed, submitted, halted, ih]

theorem boot_protocol_requests_trace (d : NewDev) (intf : IntfDesc) :
    claimed (boot_protocol_requests d intf) = []
      ∧ submitted (boot_protocol_requests d intf) = []
      ∧ halted (boot_protocol_requests d intf) = [] := by
  unfold boot_protocol_requests
  cases d.idle_alloc_ok <;> cases d.proto_alloc_ok <;> simp [claimed, submitted, halted]

theorem after_first_submit_trace (s : Session) (d : NewDev) (intf : IntfDesc) :
    claimed (after_first_submit s d intf).2 = []
      ∧ submitted (after_first_submit s d intf).2 = []
      ∧ halted (after_first_submit s d intf).2 = [] := by
  unfold after_first_submit
  by_cases h1 : intf.bInterfaceProtocol = 0x02
  · rw [if_pos h1]; exact ⟨rfl, rfl, rfl⟩
  · rw [if_neg h1]
    by_cases h2 : intf.bInterfaceProtocol = 0x01
    · rw [if_pos h2]; exact ⟨rfl, rfl, rfl⟩
    · rw [if_neg h2]
      cases d.dev_desc2 with
      | none => exact ⟨rfl, rfl, rfl⟩
      | some dd =>
        simp only
        by_cases h3 : dd.idVendor = 0x057E ∧ dd.idProduct = 0x2009
        · rw [if_pos h3]
          simp only [claimed_append, submitted_append, halted_append, engine_calls_trace]
          exact ⟨rfl, rfl, rfl⟩
        · rw [if_neg h3]; exact ⟨rfl, rfl, rfl⟩

theorem after_first_submit_slots (s : Session) (d : NewDev) (intf : IntfDesc) :
    (after_first_submit s d intf).1.active_transfers0 = s.active_transfers0
      ∧ (after_first_submit s d intf).1.active_transfers1 = s.active_transfers1
      ∧ (after_first_submit s d intf).1.active_transfers2 = s.active_transfers2
      ∧ (after_first_submit s d intf).1.dev_hdl = s.dev_hdl
      ∧ (after_first_submit s d intf).1.client_hdl = s.client_hdl := by
  unfold after_first_submit
  by_cases h1 : intf.bInterfaceProtocol = 0x02
  · rw [if_pos h1]; exact ⟨rfl, rfl, rfl, rfl, rfl⟩
  · rw [if_neg h1]
    by_cases h2 : intf.bInterfaceProtocol = 0x01
    · rw [if_pos h2]; exact ⟨rfl, rfl, rfl, rfl, rfl⟩
    · rw [if_neg h2]
      cases d.dev_desc2 with
      | none => exact ⟨rfl, rfl, rfl, rfl, rfl⟩
      | some dd =>
        simp only
        by_cases h3 : dd.idVendor = 0x057E ∧ dd.idProduct = 0x2009
        · rw [if_pos h3]; exact ⟨rfl, rfl, rfl, rfl, rfl⟩
        · rw [if_neg h3]; exact ⟨rfl, rfl, rfl, rfl, rfl⟩

/-- What `setup_media_interface` does, by cases on whether it reaches the claim. -/
theorem setup_media_interface_trace (s : Session) (m : MediaSetup) :
    claimed (setup_media_interface s m).2
        = (if s.dev_hdl.isSome && s.client_hdl.isSome && m.config_ok && m.has_interface_1
            then [1] else [])
      ∧ submitted (setup_media_interface s m).2
        = (if s.dev_hdl.isSome && s.client_hdl.isSome && m.config_ok && m.has_interface_1
              && m.claim_ok && m.alloc_ok
            then [⟨0x82, Callback.media⟩] else [])
      ∧ halted (setup_media_interface s m).2 = []
      ∧ (setup_media_interface s m).1.active_transfers0 = s.active_transfers0
      ∧ (setup_media_interface s m).1.active_transfers1
        = (if s.dev_hdl.isSome && s.client_hdl.isSome && m.config_ok && m.has_interface_1
              && m.claim_ok && m.alloc_ok && m.submit_ok
            then some ⟨0x82, Callback.media⟩ else s.active_transfers1)
      ∧ (setup_media_interface s m).1.active_transfers2 = s.active_transfers2
      ∧ (setup_media_interface s m).1.dev_hdl = s.dev_hdl := by
  obtain ⟨ch, dh, a0, a1, a2, sw, c, n, sc⟩ := s
  unfold setup_media_interface
  cases dh <;> cases ch <;> cases m.config_ok <;> cases m.has_interface_1
    <;> cases m.claim_ok <;> cases m.alloc_ok <;> cases m.submit_ok
    <;> simp [claimed, submitted, halted]

theorem boot_if_trace (d : NewDev) (intf : IntfDesc) (p : Prop) [Decidable p] :
    claimed (if p then boot_protocol_requests d intf else []) = []
      ∧ submitted (if p then boot_protocol_requests d intf else []) = []
      ∧ halted (if p then boot_protocol_requests d intf else []) = [] := by
  by_cases hp : p
  · simp only [if_pos hp]; exact boot_protocol_requests_trace d intf
  · simp only [if_neg hp]; exact ⟨rfl, rfl, rfl⟩

theorem callback_of_ne_media (proto : Nat) : callback_of proto ≠ Callback.media := by
  unfold callback_of
  split_ifs <;> simp

/-- When `attach_hid` does not get through the first submission it leaves the statics as
they are, claims at most the selected interface and never touches interface 1's
endpoint. -/
theorem attach_hid_failed (s : Session) (d : NewDev)
    (hf : (d.config_ok && d.intf_desc.isSome && d.ep_desc.isSome && d.claim_ok && d.alloc_ok
      && d.submit_ok) = false) :
    (attach_hid s d).1 = s
      ∧ halted (attach_hid s d).2 = []
      ∧ (claimed (attach_hid s d).2).length ≤ 1
      ∧ (⟨0x82, Callback.media⟩ : Bound) ∉ submitted (attach_hid s d).2
      ∧ (d.intf_desc = none ∨ d.ep_desc = none →
          claimed (attach_hid s d).2 = [] ∧ submitted (attach_hid s d).2 = []) := by
  unfold attach_hid
  cases hc : d.config_ok
  · simp [claimed, submitted, halted]
  · cases hi : d.intf_desc with
    | none => simp [claimed, submitted, halted]
    | some intf =>
      cases he : d.ep_desc with
      | none => simp [claimed, submitted, halted]
      | some ep =>
        obtain ⟨b1, b2, b3⟩ := boot_if_trace d intf
          (intf.bInterfaceProtocol = 0x01 ∨ intf.bInterfaceProtocol = 0x02)
        cases hk : d.claim_ok
        · simp [claimed, submitted, halted]
        · cases ha : d.alloc_ok
          · simp only [Bool.not_true, Bool.false_eq_true, if_false, Bool.not_false, if_true,
              claimed_append, submitted_append, halted_append, b1, b2, b3]
            simp [claimed, submitted, halted]
          · cases hs : d.submit_ok
            · simp only [Bool.not_true, Bool.false_eq_true, if_false, Bool.not_false, if_true,
                claimed_append, submitted_append, halted_append, b1, b2, b3]
              simp [claimed, submitted, halted]
              intro _ h
              exact callback_of_ne_media _ h.symm
            · rw [hc, hi, he, hk, ha, hs] at hf
              simp at hf

/-- When `attach_hid` gets through the first submission, slot 0 holds the submitted
transfer and `setup_media_interface` runs on the statics left by the protocol branch. -/
theorem attach_hid_bound (s : Session) (d : NewDev) (intf : IntfDesc) (ep : EpDesc)
    (hc : d.config_ok = true) (hi : d.intf_desc = some intf) (he : d.ep_desc = some ep)
    (hk : d.claim_ok = true) (ha : d.alloc_ok = true) (hs : d.submit_ok = true) :
    attach_hid s d
      = ((setup_media_interface (after_first_submit
            { s with active_transfers0 := some (Bound.mk ep.bEndpointAddress
                (callback_of intf.bInterfaceProtocol)) } d intf).1 d.media).1,
          [UsbCall.get_config_descriptor true,
              UsbCall.interface_claim intf.bInterfaceNumber true]
            ++ (if intf.bInterfaceProtocol = 0x01 ∨ intf.bInterfaceProtocol = 0x02
                then boot_protocol_requests d intf else [])
            ++ [UsbCall.submit (Bound.mk ep.bEndpointAddress
                (callback_of intf.bInterfaceProtocol)) true]
            ++ (after_first_submit
                { s with active_transfers0 := some (Bound.mk ep.bEndpointAddress
                    (callback_of intf.bInterfaceProtocol)) } d intf).2
            ++ [UsbCall.delay 50]
            ++ (setup_media_interface (after_first_submit
                { s with active_transfers0 := some (Bound.mk ep.bEndpointAddress
                    (callback_of intf.bInterfaceProtocol)) } d intf).1 d.media).2) := by
  unfold attach_hid
  rw [hc, hi, he, hk, ha, hs]
  rfl

/-- The trace and the slots of `attach_hid` when it gets through the first submission on
an open device. -/
theorem attach_hid_bound_trace (s : Session) (d : NewDev) (intf : IntfDesc) (ep : EpDesc)
    (hdl : Nat) (hd : s.dev_hdl = some hdl)
    (hc : d.config_ok = true) (hi : d.intf_desc = some intf) (he : d.ep_desc = some ep)
    (hk : d.claim_ok = true) (ha : d.alloc_ok = true) (hs : d.submit_ok = true) :
    claimed (attach_hid s d).2
        = intf.bInterfaceNumber ::
          (if s.client_hdl.isSome && d.media.config_ok && d.media.has_interface_1
            then [1] else [])
      ∧ submitted (attach_hid s d).2
        = Bound.mk ep.bEndpointAddress (callback_of intf.bInterfaceProtocol) ::
          (if s.client_hdl.isSome && d.media.config_ok && d.media.has_interface_1
              && d.media.claim_ok && d.media.alloc_ok
            then [⟨0x82, Callback.media⟩] else [])
      ∧ halted (attach_hid s d).2 = []
      ∧ (attach_hid s d).1.active_transfers0
        = some (Bound.mk ep.bEndpointAddress (callback_of intf.bInterfaceProtocol))
      ∧ (attach_hid s d).1.active_transfers1
        = (if s.client_hdl.isSome && d.media.config_ok && d.media.has_interface_1
              && d.media.claim_ok && d.media.alloc_ok && d.media.submit_ok
            then some ⟨0x82, Callback.media⟩ else s.active_transfers1)
      ∧ (attach_hid s d).1.active_transfers2 = s.active_transfers2
      ∧ (attach_hid s d).1.dev_hdl = s.dev_hdl := by
  obtain ⟨a1, a2, a3⟩ := after_first_submit_trace
    { s with active_transfers0 := some (Bound.mk ep.bEndpointAddress
        (callback_of intf.bInterfaceProtocol)) } d intf
  obtain ⟨s0, s1, s2, s3, s4⟩ := after_first_submit_slots
    { s with active_transfers0 := some (Bound.mk ep.bEndpointAddress
        (callback_of intf.bInterfaceProtocol)) } d intf
  obtain ⟨m1, m2, m3, m4, m5, m6, m7⟩ := setup_media_interface_trace (after_first_submit
    { s with active_transfers0 := some (Bound.mk ep.bEndpointAddress
        (callback_of intf.bInterfaceProtocol)) } d intf).1 d.media
  obtain ⟨b1, b2, b3⟩ := boot_if_trace d intf
    (intf.bInterfaceProtocol = 0x01 ∨ intf.bInterfaceProtocol = 0x02)
  rw [attach_hid_bound s d intf ep hc hi he hk ha hs]
  simp only [claimed_append, submitted_append, halted_append, a1, a2, a3, b1, b2, b3, m1, m2,
    m3, m4, m5, m6, m7, s0, s1, s2, s3, s4]
  simp only [hd, Option.isSome_some, Bool.true_and]
  refine ⟨?_, ?_, ?_, ?_, ?_, ?_, ?_⟩ <;> first | rfl | trivial

theorem new_dev_cleanup_state (s : Session) :
    (new_dev_cleanup s).1 = { s with dev_hdl := none } := by
  obtain ⟨ch, dh, a0, a1, a2, sw, c, n, sc⟩ := s
  cases dh <;> rfl

theorem new_dev_cleanup_trace (s : Session) :
    claimed (new_dev_cleanup s).2 = [] ∧ submitted (new_dev_cleanup s).2 = []
      ∧ halted (new_dev_cleanup s).2 = [] := by
  obtain ⟨ch, dh, a0, a1, a2, sw, c, n, sc⟩ := s
  cases dh <;> exact ⟨rfl, rfl, rfl⟩

theorem new_dev_open_failed (s : Session) (d : NewDev) (ho : d.open_result = none) :
    client_event_new_dev s d
      = ({ s with dev_hdl := none },
          (new_dev_cleanup s).2 ++ [UsbCall.device_open d.address false]) := by
  rw [← new_dev_cleanup_state]
  unfold client_event_new_dev new_dev_cleanup
  rw [ho]

theorem new_dev_no_descriptor (s : Session) (d : NewDev) (hdl : Nat)
    (ho : d.open_result = some hdl) (hd : d.dev_desc = none) :
    client_event_new_dev s d
      = ({ s with dev_hdl := some hdl },
          (new_dev_cleanup s).2
            ++ [UsbCall.device_open d.address true, UsbCall.get_device_descriptor false]) := by
  have e : ({ s with dev_hdl := some hdl } : Session)
      = { (new_dev_cleanup s).1 with dev_hdl := some hdl } := by
    rw [new_dev_cleanup_state]
  rw [e]
  unfold client_event_new_dev new_dev_cleanup
  rw [ho, hd]

theorem new_dev_rejected (s : Session) (d : NewDev) (hdl : Nat) (dd : DeviceDesc)
    (ho : d.open_result = some hdl) (hd : d.dev_desc = some dd)
    (hcls : ¬ (dd.bDeviceClass = 0x03 ∨ dd.bDeviceClass = 0x00)) :
    client_event_new_dev s d
      = ({ s with dev_hdl := some hdl },
          (new_dev_cleanup s).2
            ++ [UsbCall.device_open d.address true, UsbCall.get_device_descriptor true]) := by
  have e : ({ s with dev_hdl := some hdl } : Session)
      = { (new_dev_cleanup s).1 with dev_hdl := some hdl } := by
    rw [new_dev_cleanup_state]
  rw [e]
  unfold client_event_new_dev new_dev_cleanup
  rw [ho, hd]
  simp only [if_neg hcls]

theorem new_dev_accepted (s : Session) (d : NewDev) (hdl : Nat) (dd : DeviceDesc)
    (ho : d.open_result = some hdl) (hd : d.dev_desc = some dd)
    (hcls : dd.bDeviceClass = 0x03 ∨ dd.bDeviceClass = 0x00) :
    client_event_new_dev s d
      = ((attach_hid { s with dev_hdl := some hdl } d).1,
          (new_dev_cleanup s).2
            ++ [UsbCall.device_open d.address true, UsbCall.get_device_descriptor true]
            ++ (attach_hid { s with dev_hdl := some hdl } d).2) := by
  have e : ({ s with dev_hdl := some hdl } : Session)
      = { (new_dev_cleanup s).1 with dev_hdl := some hdl } := by
    rw [new_dev_cleanup_state]
  rw [e]
  unfold client_event_new_dev new_dev_cleanup
  rw [ho, hd]
  simp only [if_pos hcls]

/-- Whatever is announced and answered, the attach handler halts and flushes no
endpoint and leaves slot 2 as it is; it leaves slot 1 as it is unless it reaches
`setup_media_interface` on a table with an interface 1, and slots 0 and 1 as they are
unless it gets through the first submission. -/
theorem new_dev_slots (s : Session) (d : NewDev) :
    halted (client_event_new_dev s d).2 = []
      ∧ (client_event_new_dev s d).1.active_transfers2 = s.active_transfers2
      ∧ (d.media.has_interface_1 = false →
          (client_event_new_dev s d).1.active_transfers1 = s.active_transfers1)
      ∧ (primary_bound d = false →
          (client_event_new_dev s d).1.active_transfers0 = s.active_transfers0
          ∧ (client_event_new_dev s d).1.active_transfers1 = s.active_transfers1
          ∧ (claimed (client_event_new_dev s d).2).length ≤ 1
          ∧ (⟨0x82, Callback.media⟩ : Bound) ∉ submitted (client_event_new_dev s d).2) := by
  obtain ⟨c1, c2, c3⟩ := new_dev_cleanup_trace s
  cases ho : d.open_result with
  | none =>
    rw [new_dev_open_failed s d ho]
    simp [halted_append, claimed_append, submitted_append, c1, c2, c3, halted, claimed,
      submitted]
  | some hdl =>
    cases hd : d.dev_desc with
    | none =>
      rw [new_dev_no_descriptor s d hdl ho hd]
      simp [halted_append, claimed_append, submitted_append, c1, c2, c3, halted, claimed,
        submitted]
    | some dd =>
      by_cases hcls : dd.bDeviceClass = 0x03 ∨ dd.bDeviceClass = 0x00
      · rw [new_dev_accepted s d hdl dd ho hd hcls]
        by_cases hb : (d.config_ok && d.intf_desc.isSome && d.ep_desc.isSome && d.claim_ok
            && d.alloc_ok && d.submit_ok) = false
        · obtain ⟨f1, f2, f3, f4, -⟩ := attach_hid_failed { s with dev_hdl := some hdl } d hb
          simp only [halted_append, claimed_append, submitted_append, c1, c2, c3, f1, f2,
            halted, claimed, submitted, List.nil_append, List.append_nil]
          exact ⟨trivial, trivial, fun _ => trivial, fun _ => ⟨trivial, trivial, f3, f4⟩⟩
        · have hb2 : d.config_ok = true ∧ d.intf_desc.isSome = true ∧ d.ep_desc.isSome = true
              ∧ d.claim_ok = true ∧ d.alloc_ok = true ∧ d.submit_ok = true := by
            simpa using hb
          obtain ⟨hc, hi, he, hk, ha, hs⟩ := hb2
          obtain ⟨intf, hi⟩ := Option.isSome_iff_exists.1 hi
          obtain ⟨ep, he⟩ := Option.isSome_iff_exists.1 he
          obtain ⟨t1, t2, t3, t4, t5, t6, t7⟩ := attach_hid_bound_trace
            { s with dev_hdl := some hdl } d intf ep hdl rfl hc hi he hk ha hs
          refine ⟨?_, t6, ?_, ?_⟩
          · simp only [halted_append, c3, t3, halted, List.nil_append]
          · intro hm
            rw [t5, hm]
            simp
          · intro hp
            have hcl : (dd.bDeviceClass == 0x03 || dd.bDeviceClass == 0x00) = true := by
              simpa using hcls
            simp [primary_bound, ho, hd, hcl, hc, hi, he, hk, ha, hs] at hp
      · rw [new_dev_rejected s d hdl dd ho hd hcls]
        simp [halted_append, claimed_append, submitted_append, c1, c2, c3, halted, claimed,
          submitted]

/-! ## Lemmas on the bytes the gamepad callback reads -/

theorem byte_lt (t : Transfer) (i : Nat) (hb : ∀ b ∈ t.data_buffer, b < 256) :
    t.byte i < 256 := by
  unfold Transfer.byte
  by_cases hi : i < t.data_buffer.length
  · rw [List.getD_eq_getElem _ _ hi]
    exact hb _ (List.getElem_mem _)
  · rw [List.getD_eq_default _ _ (by omega)]
    decide

theorem abs_diff_bytes (a b : Nat) (ha : a < 256) (hb : b < 256) : ¬ abs_diff a b > 300 := by
  unfold abs_diff
  omega

/-- The invariant of a session of third-party reports: the stick reference is not yet
taken, or all four reference values are byte values. -/
theorem third_party_cb (h : Host) (now : Nat) (st : PadState) (sw : SwitchState) (t : Transfer)
    (hst : st.first_read = true
      ∨ (st.last_lx < 256 ∧ st.last_ly < 256 ∧ st.last_rx < 256 ∧ st.last_ry < 256))
    (ho : is_official t = false) (hb : ∀ b ∈ t.data_buffer, b < 256) :
    stick_events (gamepad_transfer_cb h now st sw t).2.2 = []
    ∧ ((gamepad_transfer_cb h now st sw t).1.first_read = true
      ∨ ((gamepad_transfer_cb h now st sw t).1.last_lx < 256
        ∧ (gamepad_transfer_cb h now st sw t).1.last_ly < 256
        ∧ (gamepad_transfer_cb h now st sw t).1.last_rx < 256
        ∧ (gamepad_transfer_cb h now st sw t).1.last_ry < 256)) := by
  by_cases hg : t.completed = true ∧ t.actual_num_bytes ≥ pad_offset t + 6
  · obtain ⟨hc, hl⟩ := hg
    obtain ⟨d, a, b, m, e1, e2⟩ := gamepad_cb_decoded h now st sw t hc hl
    have hv : stick_values t = (t.byte (pad_offset t + 3), t.byte (pad_offset t + 4),
        t.byte (pad_offset t + 5), t.byte (pad_offset t + 6)) := by
      unfold stick_values
      rw [ho]
      rfl
    have v1 := byte_lt t (pad_offset t + 3) hb
    have v2 := byte_lt t (pad_offset t + 4) hb
    have v3 := byte_lt t (pad_offset t + 5) hb
    have v4 := byte_lt t (pad_offset t + 6) hb
    rw [e1, e2, hv]
    by_cases hf : st.first_read = true
    · obtain ⟨p1, p2⟩ := pad_sticks_first (pad_pre st t d a b m)
        (t.byte (pad_offset t + 3), t.byte (pad_offset t + 4),
          t.byte (pad_offset t + 5), t.byte (pad_offset t + 6)) hf
      rw [p1, p2]
      exact ⟨rfl, Or.inr ⟨v1, v2, v3, v4⟩⟩
    · have hf2 : st.first_read = false := by simpa using hf
      obtain ⟨r1, r2, r3, r4⟩ := hst.resolve_left hf
      obtain ⟨p1, p2⟩ := pad_sticks_later (pad_pre st t d a b m)
        (t.byte (pad_offset t + 3), t.byte (pad_offset t + 4),
          t.byte (pad_offset t + 5), t.byte (pad_offset t + 6)) hf2
      have n1 : ¬ (abs_diff (t.byte (pad_offset t + 3)) st.last_lx > 300
          ∨ abs_diff (t.byte (pad_offset t + 4)) st.last_ly > 300) := by
        rintro (hx | hx)
        · exact abs_diff_bytes _ _ v1 r1 hx
        · exact abs_diff_bytes _ _ v2 r2 hx
      have n2 : ¬ (abs_diff (t.byte (pad_offset t + 5)) st.last_rx > 300
          ∨ abs_diff (t.byte (pad_offset t + 6)) st.last_ry > 300) := by
        rintro (hx | hx)
        · exact abs_diff_bytes _ _ v3 r3 hx
        · exact abs_diff_bytes _ _ v4 r4 hx
      rw [p1, p2]
      simp only [pad_pre, if_neg n1, if_neg n2, List.append_nil, stick_events]
      exact ⟨trivial, Or.inr ⟨r1, r2, r3, r4⟩⟩
  · obtain ⟨e1, e2⟩ := gamepad_cb_skipped h now st sw t hg
    rw [e1, e2]
    exact ⟨rfl, hst⟩

theorem third_party_run (h : Host) (inputs : List (Nat × Transfer)) :
    ∀ (st : PadState) (sw : SwitchState),
      (st.first_read = true
        ∨ (st.last_lx < 256 ∧ st.last_ly < 256 ∧ st.last_rx < 256 ∧ st.last_ry < 256)) →
      (∀ p ∈ inputs, is_official p.2 = false ∧ ∀ b ∈ p.2.data_buffer, b < 256) →
      stick_events (gamepad_run h st sw inputs).2.2 = [] := by
  induction inputs with
  | nil => intro st sw _ _; rfl
  | cons p rest ih =>
    intro st sw hst hin
    obtain ⟨now, t⟩ := p
    obtain ⟨ho, hb⟩ := hin (now, t) (List.mem_cons_self _ _)
    obtain ⟨e1, e2⟩ := third_party_cb h now st sw t hst ho hb
    simp only [gamepad_run, stick_events_append, e1, List.nil_append]
    exact ih _ _ e2 (fun q hq => hin q (List.mem_cons_of_mem _ hq))

theorem is_official_agree (t1 t2 : Transfer) (hn : t1.actual_num_bytes = t2.actual_num_bytes)
    (hb : ∀ i, i < t1.actual_num_bytes → t1.byte i = t2.byte i) :
    is_official t1 = is_official t2 := by
  unfold is_official
  rw [← hn]
  by_cases h64 : t1.actual_num_bytes = 64
  · rw [hb 0 (by omega)]
  · have : (t1.actual_num_bytes == 64) = false := by simpa using h64
    rw [this]
    rfl

/-- Two transfers of the same length that agree below that length are decoded alike,
unless the length is 6. -/
theorem pad_reads_agree (t1 t2 : Transfer) (hn : t1.actual_num_bytes = t2.actual_num_bytes)
    (hb : ∀ i, i < t1.actual_num_bytes → t1.byte i = t2.byte i)
    (hl : t1.actual_num_bytes ≥ pad_offset t1 + 6) (h6 : t1.actual_num_bytes ≠ 6) :
    pad_offset t1 = pad_offset t2 ∧ pad_buttons t1 = pad_buttons t2
      ∧ stick_values t1 = stick_values t2 := by
  have ho := is_official_agree t1 t2 hn hb
  have hoff : pad_offset t1 = pad_offset t2 := by unfold pad_offset; rw [ho]
  refine ⟨hoff, ?_, ?_⟩
  · unfold pad_buttons
    rw [← hoff, hb _ (by omega), hb _ (by omega), hb _ (by omega)]
  · unfold stick_values
    rw [← ho, ← hoff]
    cases hof : is_official t1
    · have h0 : pad_offset t1 = 0 := by unfold pad_offset; rw [hof]; rfl
      rw [h0] at hl ⊢
      simp only [Bool.false_eq_true, if_false]
      rw [hb _ (by omega), hb _ (by omega), hb _ (by omega), hb _ (by omega)]
    · have h64 : t1.actual_num_bytes = 64 := ((is_official_iff t1).1 hof).1
      simp only [if_true]
      rw [hb 6 (by omega), hb 7 (by omega), hb 8 (by omega), hb 9 (by omega),
        hb 10 (by omega), hb 11 (by omega)]

/-! ## Lemmas on a report with a single used slot -/

/-- A report whose only used slot passes the new-key test is the slot body on that code,
followed by the Enter/ESC reset. -/
theorem single_slot_report (h : Host) (s : KbState) (r : hid_keyboard_report_t) (k : Nat)
    (hk : r.keycode = ⟨k, 0, 0, 0, 0, 0⟩) (h0 : k ≠ 0) (hn : is_new s (shift_of r) k = true) :
    (process_keyboard_report h s r).1.keyboard_buffer
        = (handle_key h (shift_of r) s k).1.keyboard_buffer
    ∧ (process_keyboard_report h s r).1.caps_lock_state
        = (handle_key h (shift_of r) s k).1.caps_lock_state
    ∧ (process_keyboard_report h s r).1.num_lock_state
        = (handle_key h (shift_of r) s k).1.num_lock_state
    ∧ (process_keyboard_report h s r).1.scroll_lock_state
        = (handle_key h (shift_of r) s k).1.scroll_lock_state := by
  have hb : (k != 0) = true := by simpa using h0
  have hl : (key_loop h s r).1 = (handle_key h (shift_of r) s k).1 := by
    unfold key_loop
    rw [hk]
    simp only [Keys.toList, List.foldl, process_slot_eq, hb, hn, Bool.and_self, if_true]
    simp
  rw [process_keyboard_report_eq, reset_enter_esc_state, hl]
  exact ⟨rfl, rfl, rfl, rfl⟩

/-! ## Lemmas on the attach handler over a descriptor table -/

theorem new_dev_cleanup_open (s : Session) (old : Nat) (ho : s.dev_hdl = some old) :
    (new_dev_cleanup s).2
      = [UsbCall.interface_release 0, UsbCall.interface_release 1,
          UsbCall.interface_release 2, UsbCall.device_close, UsbCall.delay 100] := by
  unfold new_dev_cleanup
  rw [ho]

/-- With no interface or no endpoint selected the attach handler claims nothing and
submits nothing. -/
theorem new_dev_unselected (s : Session) (d : NewDev)
    (hn : d.intf_desc = none ∨ d.ep_desc = none) :
    claimed (client_event_new_dev s d).2 = [] ∧ submitted (client_event_new_dev s d).2 = [] := by
  obtain ⟨c1, c2, c3⟩ := new_dev_cleanup_trace s
  cases ho : d.open_result with
  | none =>
    rw [new_dev_open_failed s d ho]
    simp [claimed_append, submitted_append, c1, c2, claimed, submitted]
  | some hdl =>
    cases hd : d.dev_desc with
    | none =>
      rw [new_dev_no_descriptor s d hdl ho hd]
      simp [claimed_append, submitted_append, c1, c2, claimed, submitted]
    | some dd =>
      by_cases hcls : dd.bDeviceClass = 0x03 ∨ dd.bDeviceClass = 0x00
      · rw [new_dev_accepted s d hdl dd ho hd hcls]
        have hb : (d.config_ok && d.intf_desc.isSome && d.ep_desc.isSome && d.claim_ok
            && d.alloc_ok && d.submit_ok) = false := by
          rcases hn with hn | hn <;> simp [hn]
        obtain ⟨-, -, -, -, f5⟩ := attach_hid_failed { s with dev_hdl := some hdl } d hb
        obtain ⟨g1, g2⟩ := f5 hn
        simp [claimed_append, submitted_append, c1, c2, g1, g2, claimed, submitted]
      · rw [new_dev_rejected s d hdl dd ho hd hcls]
        simp [claimed_append, submitted_append, c1, c2, claimed, submitted]

/-- The first interface claimed by `attach_hid` is the selected one. -/
theorem attach_hid_claims (s : Session) (d : NewDev) (intf : IntfDesc) (ep : EpDesc)
    (hc : d.config_ok = true) (hi : d.intf_desc = some intf) (he : d.ep_desc = some ep) :
    (claimed (attach_hid s d).2).head? = some intf.bInterfaceNumber := by
  unfold attach_hid
  rw [hc, hi, he]
  cases d.claim_ok
  · rfl
  · cases d.alloc_ok
    · simp [claimed_append, claimed]
    · cases d.submit_ok
      · simp [claimed_append, claimed]
      · simp [claimed_append, claimed]

theorem new_dev_claims_selected (s : Session) (d : NewDev) (hdl : Nat) (dd : DeviceDesc)
    (intf : IntfDesc) (ep : EpDesc)
    (ho : d.open_result = some hdl) (hd : d.dev_desc = some dd)
    (hcls : dd.bDeviceClass = 0x03 ∨ dd.bDeviceClass = 0x00)
    (hc : d.config_ok = true) (hi : d.intf_desc = some intf) (he : d.ep_desc = some ep) :
    (claimed (client_event_new_dev s d).2).head? = some intf.bInterfaceNumber := by
  obtain ⟨c1, -, -⟩ := new_dev_cleanup_trace s
  rw [new_dev_accepted s d hdl dd ho hd hcls]
  simp only [claimed_append, c1, claimed, List.nil_append]
  exact attach_hid_claims _ d intf ep hc hi he

/-- The record at the offset left by the two interface walks. -/
theorem select_interface_record (recs : List StdDesc) (fuel : Nat)
    (hpos : ∀ r ∈ recs, 0 < r.bLength) (hfuel : recs.length < fuel) :
    ∃ sel, select_interface (table_of recs) fuel = some sel
      ∧ sel.map (table_of recs).desc_at
        = (recs.find? is_hid_interface_0).orElse (fun _ => recs.find? is_hid_interface) := by
  have hat : ∀ (p : StdDesc → Bool) (o : Nat) (r : StdDesc),
      locate p recs 0 = some (o, r) → (table_of recs).desc_at o = r := by
    intro p o r hl
    obtain ⟨pre, suf, e1, e2, -⟩ := locate_split _ _ _ _ _ hl
    rw [Nat.zero_add] at e2
    subst e1
    have := view_at_append pre (r :: suf) (fun x hx => hpos x (List.mem_append_left _ hx)) 0
    rw [Nat.add_zero, view_at_zero, ← e2] at this
    exact this
  refine ⟨_, select_interface_table recs fuel hpos hfuel, ?_⟩
  rw [← locate_find is_hid_interface_0 recs 0, ← locate_find is_hid_interface recs 0]
  cases h0 : locate is_hid_interface_0 recs 0 with
  | some x =>
    obtain ⟨o, r⟩ := x
    simp only [Option.orElse, Option.map_some']
    rw [hat _ o r h0]
  | none =>
    cases h1 : locate is_hid_interface recs 0 with
    | some x =>
      obtain ⟨o, r⟩ := x
      simp only [Option.orElse, Option.map_some', Option.map_none']
      rw [hat _ o r h1]
    | none => rfl

theorem new_dev_on_fields (c : ConfigDesc) (fuel : Nat) (d d1 : NewDev)
    (h : new_dev_on c fuel d = some d1) :
    d1.open_result = d.open_result ∧ d1.dev_desc = d.dev_desc ∧ d1.config_ok = d.config_ok
      ∧ d1.claim_ok = d.claim_ok ∧ d1.alloc_ok = d.alloc_ok ∧ d1.submit_ok = d.submit_ok := by
  unfold new_dev_on at h
  cases hs : select_interface c fuel with
  | none => rw [hs] at h; cases h
  | some sel =>
    rw [hs] at h
    cases sel with
    | none =>
      dsimp only at h
      cases hm : has_interface_1 c fuel with
      | none => rw [hm] at h; cases h
      | some m =>
        rw [hm] at h
        simp only [Option.some.injEq] at h
        subst h
        exact ⟨rfl, rfl, rfl, rfl, rfl, rfl⟩
    | some intf =>
      dsimp only at h
      cases he : find_endpoint c fuel intf with
      | none => rw [he] at h; cases h
      | some e =>
        cases hm : has_interface_1 c fuel with
        | none => rw [he, hm] at h; cases h
        | some m =>
          rw [he, hm] at h
          simp only [Option.some.injEq] at h
          subst h
          exact ⟨rfl, rfl, rfl, rfl, rfl, rfl⟩

theorem find_none_of_all_false (p : StdDesc → Bool) (recs : List StdDesc)
    (h : ∀ r ∈ recs, p r = false) : recs.find? p = none := by
  rw [List.find?_eq_none]
  intro r hr
  rw [h r hr]
  decide

theorem hid_interface_0_is_hid (r : StdDesc) (h : is_hid_interface r = false) :
    is_hid_interface_0 r = false := by
  unfold is_hid_interface_0
  unfold is_hid_interface at h
  rw [h]
  rfl

/-- C31 (code defect): when a device is announced while a handle is open, the attach
handler releases interfaces 0, 1, 2, closes the old device and waits 100 ms before it
opens the new one, so one device is open at a time; but it tears down nothing else of
the old session.  It halts and flushes no endpoint and empties no slot of
`active_transfers`: slot 2 is kept always, slot 1 unless `setup_media_interface` binds
it anew, slots 0 and 1 whenever the new attach does not get through its first
submission.  The detach handler on the same state halts and flushes every bound
endpoint and empties the three slots. -/
theorem reattach_keeps_bindings (s : Session) (d : NewDev) (old : Nat)
    (ho : s.dev_hdl = some old) :
    (client_event_new_dev s d).2.take 6
        = [UsbCall.interface_release 0, UsbCall.interface_release 1,
            UsbCall.interface_release 2, UsbCall.device_close, UsbCall.delay 100,
            UsbCall.device_open d.address d.open_result.isSome]
    ∧ halted (client_event_new_dev s d).2 = []
    ∧ (client_event_new_dev s d).1.active_transfers2 = s.active_transfers2
    ∧ (d.media.has_interface_1 = false →
        (client_event_new_dev s d).1.active_transfers1 = s.active_transfers1)
    ∧ (primary_bound d = false →
        (client_event_new_dev s d).1.active_transfers0 = s.active_transfers0
        ∧ (client_event_new_dev s d).1.active_transfers1 = s.active_transfers1)
    ∧ halted (client_event_dev_gone s).2
        = halted (halt_calls s.active_transfers0 ++ halt_calls s.active_transfers1
            ++ halt_calls s.active_transfers2)
    ∧ (client_event_dev_gone s).1.active_transfers0 = none
    ∧ (client_event_dev_gone s).1.active_transfers1 = none
    ∧ (client_event_dev_gone s).1.active_transfers2 = none := by
  obtain ⟨k1, k2, k3, k4⟩ := new_dev_slots s d
  have hcl := new_dev_cleanup_open s old ho
  refine ⟨?_, k1, k2, k3, fun hp => ⟨(k4 hp).1, (k4 hp).2.1⟩, ?_, ?_, ?_, ?_⟩
  · cases hop : d.open_result with
    | none =>
      rw [new_dev_open_failed s d hop, hcl]
      rfl
    | some hdl =>
      cases hd : d.dev_desc with
      | none =>
        rw [new_dev_no_descriptor s d hdl hop hd, hcl]
        rfl
      | some dd =>
        by_cases hcls : dd.bDeviceClass = 0x03 ∨ dd.bDeviceClass = 0x00
        · rw [new_dev_accepted s d hdl dd hop hd hcls, hcl]
          rfl
        · rw [new_dev_rejected s d hdl dd hop hd hcls, hcl]
          rfl
  · rw [dev_gone_open s old ho]
    simp only [halted_append, halted, List.append_nil]
  · rw [dev_gone_open s old ho]
  · rw [dev_gone_open s old ho]
  · rw [dev_gone_open s old ho]

/-- Witness of C31: a keyboard with a media interface is attached on handle 7 (slot 0 on
endpoint 0x81, slot 1 on endpoint 0x82), then a gamepad without interface 1 is announced
with no detach in between: the new session is on handle 8 and slot 1 is still the
transfer of the closed keyboard. -/
theorem reattach_keeps_bindings_witness :
    (client_event_new_dev session_init (keyboard_attach 7)).1.dev_hdl = some 7
    ∧ (client_event_new_dev session_init (keyboard_attach 7)).1.active_transfers1
        = some ⟨0x82, Callback.media⟩
    ∧ (client_event_new_dev (client_event_new_dev session_init (keyboard_attach 7)).1
        (gamepad_attach 8 0x0F0D 0x00C1)).1.dev_hdl = some 8
    ∧ (client_event_new_dev (client_event_new_dev session_init (keyboard_attach 7)).1
        (gamepad_attach 8 0x0F0D 0x00C1)).1.active_transfers1
        = (client_event_new_dev session_init (keyboard_attach 7)).1.active_transfers1
    ∧ halted (client_event_new_dev (client_event_new_dev session_init (keyboard_attach 7)).1
        (gamepad_attach 8 0x0F0D 0x00C1)).2 = [] :=
  ⟨by decide, by decide, by decide,
   (reattach_keeps_bindings (client_event_new_dev session_init (keyboard_attach 7)).1
      (gamepad_attach 8 0x0F0D 0x00C1) 7 (by decide)).2.2.2.1 rfl,
   (reattach_keeps_bindings (client_event_new_dev session_init (keyboard_attach 7)).1
      (gamepad_attach 8 0x0F0D 0x00C1) 7 (by decide)).2.1⟩

/-- C32 (counterexample): a hub (device class 0x09) is announced at program start and
opened on handle 7: after the handler the device handle is 7, not null. -/
theorem rejected_class_left_open_counterexample :
    (client_event_new_dev session_init
        { gamepad_attach 7 0x05E3 0x0608 with dev_desc := some ⟨0x09, 0x05E3, 0x0608⟩ }).1.dev_hdl
      = some 7 := by
  decide

/-- C32 (amended): a device whose class is neither 0x03 nor 0x00 is opened, its device
descriptor is read, and it is then ignored: the calls after the cleanup of an older
device are the open and the descriptor read, no interface is claimed, no transfer is
submitted, and nothing of the statics changes but the device handle, which is the handle
of the ignored device. -/
theorem rejected_class_ignored (s : Session) (d : NewDev) (hdl : Nat) (dd : DeviceDesc)
    (ho : d.open_result = some hdl) (hd : d.dev_desc = some dd)
    (hcls : ¬ (dd.bDeviceClass = 0x03 ∨ dd.bDeviceClass = 0x00)) :
    (client_event_new_dev s d).1 = { s with dev_hdl := some hdl }
    ∧ (client_event_new_dev s d).2
        = (new_dev_cleanup s).2
          ++ [UsbCall.device_open d.address true, UsbCall.get_device_descriptor true]
    ∧ claimed (client_event_new_dev s d).2 = []
    ∧ submitted (client_event_new_dev s d).2 = [] := by
  obtain ⟨c1, c2, -⟩ := new_dev_cleanup_trace s
  rw [new_dev_rejected s d hdl dd ho hd hcls]
  refine ⟨rfl, rfl, ?_, ?_⟩
  · simp only [claimed_append, c1, claimed, List.append_nil]
  · simp only [submitted_append, c2, submitted, List.append_nil]

/-- Witness of C32 (amended): the hub of the counterexample, announced at program
start. -/
theorem rejected_class_ignored_witness :
    (client_event_new_dev session_init
        { gamepad_attach 7 0x05E3 0x0608 with dev_desc := some ⟨0x09, 0x05E3, 0x0608⟩ }).1
      = { session_init with dev_hdl := some 7 }
    ∧ claimed (client_event_new_dev session_init
        { gamepad_attach 7 0x05E3 0x0608 with dev_desc := some ⟨0x09, 0x05E3, 0x0608⟩ }).2 = [] :=
  ⟨(rejected_class_ignored session_init
      { gamepad_attach 7 0x05E3 0x0608 with dev_desc := some ⟨0x09, 0x05E3, 0x0608⟩ } 7
      ⟨0x09, 0x05E3, 0x0608⟩ rfl rfl (by decide)).1,
   (rejected_class_ignored session_init
      { gamepad_attach 7 0x05E3 0x0608 with dev_desc := some ⟨0x09, 0x05E3, 0x0608⟩ } 7
      ⟨0x09, 0x05E3, 0x0608⟩ rfl rfl (by decide)).2.2.1⟩

/-- C33 (counterexample): a table with a record of length 0 between the configuration
header and the HID interface 0 of a keyboard.  The table holds an interface descriptor
of class 0x03 numbered 0, but the primary walk goes on at offset 9 with offset 9: after
1000 iterations it is still running, so no interface is selected. -/
theorem zero_length_before_interface_counterexample :
    [other_rec 9, other_rec 0, intf_rec 0 0x03 1, ep_rec 0x81 0x03 8].find? is_hid_interface_0
        = some (intf_rec 0 0x03 1)
    ∧ primary_body (table_of [other_rec 9, other_rec 0, intf_rec 0 0x03 1, ep_rec 0x81 0x03 8]) 9
        = Sum.inl 9
    ∧ select_interface
        (table_of [other_rec 9, other_rec 0, intf_rec 0 0x03 1, ep_rec 0x81 0x03 8]) 1000 = none
    ∧ new_dev_on (table_of [other_rec 9, other_rec 0, intf_rec 0 0x03 1, ep_rec 0x81 0x03 8])
        1000 (keyboard_attach 7) = none := by
  have hp : primary_body
      (table_of [other_rec 9, other_rec 0, intf_rec 0 0x03 1, ep_rec 0x81 0x03 8]) 9
      = Sum.inl 9 := by decide
  have h0 : primary_body
      (table_of [other_rec 9, other_rec 0, intf_rec 0 0x03 1, ep_rec 0x81 0x03 8]) 0
      = Sum.inl 9 := by decide
  have hr : run_loop (primary_body
      (table_of [other_rec 9, other_rec 0, intf_rec 0 0x03 1, ep_rec 0x81 0x03 8])) 1000 0
      = none := by
    show run_loop _ (999 + 1) 0 = none
    unfold run_loop
    rw [h0]
    exact run_loop_stuck _ 9 hp 999
  have hs : select_interface
      (table_of [other_rec 9, other_rec 0, intf_rec 0 0x03 1, ep_rec 0x81 0x03 8]) 1000
      = none := by
    unfold select_interface
    rw [hr]
  refine ⟨by decide, hp, hs, ?_⟩
  unfold new_dev_on
  rw [hs]

/-- C33 (amended): on a table laid out as records of non-zero length the two interface
walks are left, with `intf_desc` at the first record in table order that is an interface
descriptor of class 0x03 numbered 0, else at the first that is an interface descriptor
of class 0x03; for an accepted device with an endpoint found the interface claimed is
that one; and when no record is an interface descriptor of class 0x03 the handler claims
no interface and submits no transfer. -/
theorem primary_interface_selection (recs : List StdDesc) (fuel : Nat) (d : NewDev)
    (s : Session) (hpos : ∀ r ∈ recs, 0 < r.bLength) (hfuel : recs.length < fuel) :
    (∃ sel, select_interface (table_of recs) fuel = some sel
      ∧ sel.map (table_of recs).desc_at
        = (recs.find? is_hid_interface_0).orElse (fun _ => recs.find? is_hid_interface))
    ∧ ∃ d1, new_dev_on (table_of recs) fuel d = some d1
      ∧ d1.intf_desc = ((recs.find? is_hid_interface_0).orElse
          (fun _ => recs.find? is_hid_interface)).map intf_of
      ∧ (∀ hdl dd intf ep, d.open_result = some hdl → d.dev_desc = some dd →
          dd.bDeviceClass = 0x03 ∨ dd.bDeviceClass = 0x00 → d.config_ok = true →
          d1.intf_desc = some intf → d1.ep_desc = some ep →
          (claimed (client_event_new_dev s d1).2).head? = some intf.bInterfaceNumber)
      ∧ ((∀ r ∈ recs, is_hid_interface r = false) →
          d1.intf_desc = none
          ∧ claimed (client_event_new_dev s d1).2 = []
          ∧ submitted (client_event_new_dev s d1).2 = []) := by
  refine ⟨select_interface_record recs fuel hpos hfuel, ?_⟩
  obtain ⟨d1, h1, h2, -⟩ := new_dev_on_table recs fuel d hpos hfuel
  obtain ⟨f1, f2, f3, -, -, -⟩ := new_dev_on_fields _ _ _ _ h1
  refine ⟨d1, h1, h2, ?_, ?_⟩
  · intro hdl dd intf ep ho hd hcls hc hi he
    exact new_dev_claims_selected s d1 hdl dd intf ep (f1.trans ho) (f2.trans hd) hcls
      (f3.trans hc) hi he
  · intro hall
    have n1 := find_none_of_all_false is_hid_interface recs hall
    have n0 := find_none_of_all_false is_hid_interface_0 recs
      (fun r hr => hid_interface_0_is_hid r (hall r hr))
    have hnone : d1.intf_desc = none := by rw [h2, n0, n1]; rfl
    exact ⟨hnone, new_dev_unselected s d1 (Or.inl hnone)⟩

/-- Witness of C33 (amended): a table with a HID interface 1 before the HID interface 0 (the walk
selects interface 0, protocol 1), and a table with no HID interface (class 0x08). -/
theorem primary_interface_selection_witness :
    (∃ d1, new_dev_on (table_of [other_rec 9, intf_rec 1 0x03 0, ep_rec 0x82 0x03 8,
          intf_rec 0 0x03 1, ep_rec 0x81 0x03 8]) 6 (keyboard_attach 7) = some d1
      ∧ d1.intf_desc = some ⟨0, 1⟩)
    ∧ (∃ d1, new_dev_on (table_of [other_rec 9, intf_rec 0 0x08 0x50, ep_rec 0x81 0x02 64])
          4 (keyboard_attach 7) = some d1
      ∧ d1.intf_desc = none
      ∧ claimed (client_event_new_dev session_init d1).2 = []) := by
  obtain ⟨-, d1, a1, a2, -, -⟩ := primary_interface_selection
    [other_rec 9, intf_rec 1 0x03 0, ep_rec 0x82 0x03 8, intf_rec 0 0x03 1, ep_rec 0x81 0x03 8]
    6 (keyboard_attach 7) session_init (by decide) (by decide)
  obtain ⟨-, d2, b1, -, -, b4⟩ := primary_interface_selection
    [other_rec 9, intf_rec 0 0x08 0x50, ep_rec 0x81 0x02 64]
    4 (keyboard_attach 7) session_init (by decide) (by decide)
  exact ⟨⟨d1, a1, a2⟩, ⟨d2, b1, (b4 (by decide)).1, (b4 (by decide)).2.1⟩⟩

/-- C34 (code defect): the endpoint walk stores every endpoint descriptor it meets in
`ep_desc` before it tests it, so after a span whose only endpoint is not an interrupt
IN endpoint `ep_desc` is that endpoint, not the null pointer.  For the table header,
HID interface 0, HID class descriptor, endpoint: whatever the address and attributes of
an endpoint that fails the test, the walk is left with it, the handler claims interface
0 and submits the first transfer on it. -/
theorem unmatched_endpoint_bound (address attributes size : Nat)
    (hno : is_interrupt_in (ep_rec address attributes size) = false) :
    find_endpoint
        (table_of [other_rec 9, intf_rec 0 0x03 0, other_rec 9, ep_rec address attributes size])
        5 9 = some (some 27)
    ∧ (new_dev_on
        (table_of [other_rec 9, intf_rec 0 0x03 0, other_rec 9, ep_rec address attributes size])
        5 (gamepad_attach 7 0x0F0D 0x00C1)).map
          (fun d1 => (claimed (client_event_new_dev session_init d1).2,
            submitted (client_event_new_dev session_init d1).2,
            (client_event_new_dev session_init d1).1.active_transfers0))
        = some ([0], [⟨address, Callback.gamepad⟩], some ⟨address, Callback.gamepad⟩) := by
  have hno2 := hno
  unfold ep_rec at hno2
  have he : find_endpoint
      (table_of [other_rec 9, intf_rec 0 0x03 0, other_rec 9, ep_rec address attributes size])
      5 9 = some (some 27) := by
    simp [find_endpoint, run_loop, endpoint_body, view_at, table_of, other_rec, intf_rec,
      ep_rec, hno2]
  have hs : select_interface
      (table_of [other_rec 9, intf_rec 0 0x03 0, other_rec 9, ep_rec address attributes size])
      5 = some (some 9) := by
    simp [select_interface, run_loop, primary_body, view_at, table_of, other_rec, intf_rec,
      ep_rec]
  have hm : has_interface_1
      (table_of [other_rec 9, intf_rec 0 0x03 0, other_rec 9, ep_rec address attributes size])
      5 = some false := by
    simp [has_interface_1, run_loop, interface_1_body, view_at, table_of, other_rec, intf_rec,
      ep_rec]
  refine ⟨he, ?_⟩
  unfold new_dev_on
  rw [hs]
  simp only [he, hm]
  simp [table_of, view_at, other_rec, intf_rec, ep_rec, intf_of, ep_of, gamepad_attach,
    client_event_new_dev, session_init, attach_hid, after_first_submit, setup_media_interface,
    callback_of, claimed, submitted]

/-- Witness of C34: an interrupt OUT endpoint 0x01 as the only endpoint of the HID
interface: the handler binds the gamepad callback to endpoint 0x01. -/
theorem unmatched_endpoint_bound_witness :
    is_interrupt_in (ep_rec 0x01 0x03 64) = false
    ∧ (new_dev_on
        (table_of [other_rec 9, intf_rec 0 0x03 0, other_rec 9, ep_rec 0x01 0x03 64])
        5 (gamepad_attach 7 0x0F0D 0x00C1)).map
          (fun d1 => (claimed (client_event_new_dev session_init d1).2,
            submitted (client_event_new_dev session_init d1).2,
            (client_event_new_dev session_init d1).1.active_transfers0))
        = some ([0], [⟨0x01, Callback.gamepad⟩], some ⟨0x01, Callback.gamepad⟩) :=
  ⟨by decide, (unmatched_endpoint_bound 0x01 0x03 64 (by decide)).2⟩

/-- C36 (code defect): a completed report is decoded from the bytes below its actual
length, whatever lies behind them in the buffer, for every length but 6.  A report of 6
bytes that is not in official framing passes the guard `actual_num_bytes >= offset + 6`
and its right-stick Y is read at index 6, one past the report: two transfers of 6 bytes
with the same six bytes and a different byte behind them are decoded differently. -/
theorem pad_reads_index_six (h : Host) (now : Nat) (st : PadState) (sw : SwitchState)
    (t1 t2 : Transfer) (hc : t1.completed = t2.completed)
    (hn : t1.actual_num_bytes = t2.actual_num_bytes)
    (hb : ∀ i, i < t1.actual_num_bytes → t1.byte i = t2.byte i) :
    (t1.actual_num_bytes ≠ 6 →
        gamepad_transfer_cb h now st sw t1 = gamepad_transfer_cb h now st sw t2)
    ∧ (gamepad_transfer_cb host_ok 0 pad_init switch_init
          { completed := true, actual_num_bytes := 6, data_buffer := [0, 0, 0, 0, 0, 0, 0] }).2.2
        = [PadEvent.stick_center 0 0 0 0, PadEvent.resubmit]
    ∧ (gamepad_transfer_cb host_ok 0 pad_init switch_init
          { completed := true, actual_num_bytes := 6, data_buffer := [0, 0, 0, 0, 0, 0, 200] }).2.2
        = [PadEvent.stick_center 0 0 0 200, PadEvent.resubmit] := by
  refine ⟨?_, by decide, by decide⟩
  intro h6
  have ho := is_official_agree t1 t2 hn hb
  have hoff : pad_offset t1 = pad_offset t2 := by unfold pad_offset; rw [ho]
  unfold gamepad_transfer_cb
  rw [← hc, ← hn, ← hoff]
  by_cases hl : t1.actual_num_bytes ≥ pad_offset t1 + 6
  · obtain ⟨-, pb, sv⟩ := pad_reads_agree t1 t2 hn hb hl h6
    simp only [pad_decode, pb, sv]
  · simp only [if_neg hl]

/-- Witness of C36: two 8-byte third-party reports with the same eight bytes and
different bytes behind them. -/
theorem pad_reads_index_six_witness :
    gamepad_transfer_cb host_ok 0 pad_init switch_init
        { completed := true, actual_num_bytes := 8,
          data_buffer := [1, 2, 3, 4, 5, 6, 7, 8, 9, 10] }
      = gamepad_transfer_cb host_ok 0 pad_init switch_init
        { completed := true, actual_num_bytes := 8,
          data_buffer := [1, 2, 3, 4, 5, 6, 7, 8, 0, 0] } :=
  (pad_reads_index_six host_ok 0 pad_init switch_init
    { completed := true, actual_num_bytes := 8,
      data_buffer := [1, 2, 3, 4, 5, 6, 7, 8, 9, 10] }
    { completed := true, actual_num_bytes := 8,
      data_buffer := [1, 2, 3, 4, 5, 6, 7, 8, 0, 0] } rfl rfl
    (by intro i hi; have hi8 : i < 8 := hi; interval_cases i <;> rfl)).1 (by decide)

/-- C37 (code defect): in a run of completions that are all in third-party framing
(bytes below 256), started before the stick reference is taken or with byte values as
reference, no "Left Stick" or "Right Stick" line is written: two byte values never
differ by more than 300.  But the reference is a function-local static that no attach or
detach resets.  After a session of a controller in official framing, whose first report
left the reference (2048, 2048, 2048, 2048), the first report of a third-party session,
with both sticks at (128, 128), is compared with that reference and writes both stick
lines, whatever the handlers did to the engine statics in between. -/
theorem third_party_sticks_stale_reference (h h1 h2 : Host) (now1 now2 : Nat) (st : PadState)
    (sw sw1 sw2 : SwitchState) (inputs : List (Nat × Transfer))
    (hst : st.first_read = true
      ∨ (st.last_lx < 256 ∧ st.last_ly < 256 ∧ st.last_rx < 256 ∧ st.last_ry < 256))
    (hin : ∀ p ∈ inputs, is_official p.2 = false ∧ ∀ b ∈ p.2.data_buffer, b < 256) :
    stick_events (gamepad_run h st sw inputs).2.2 = []
    ∧ is_official (completed_report [0, 0, 0, 128, 128, 128, 128, 0]) = false
    ∧ stick_events (gamepad_transfer_cb h2 now2
        (gamepad_transfer_cb h1 now1 pad_init sw1
          (official_report 0 0 0 2048 2048 2048 2048)).1
        sw2 (completed_report [0, 0, 0, 128, 128, 128, 128, 0])).2.2
      = [PadEvent.left_stick 128 128, PadEvent.right_stick 128 128] := by
  refine ⟨third_party_run h inputs st sw hst hin, by decide, ?_⟩
  have e1 : (gamepad_transfer_cb h1 now1 pad_init sw1
      (official_report 0 0 0 2048 2048 2048 2048)).1
      = (gamepad_transfer_cb host_ok 0 pad_init switch_init
        (official_report 0 0 0 2048 2048 2048 2048)).1 := gamepad_cb_fst _ _ _ _ _ _ _ _
  rw [e1]
  have e2 := (gamepad_cb_sticks h2 now2
    (gamepad_transfer_cb host_ok 0 pad_init switch_init
      (official_report 0 0 0 2048 2048 2048 2048)).1 sw2
    (completed_report [0, 0, 0, 128, 128, 128, 128, 0]) rfl (by decide) (by decide)).1
  rw [e2]
  decide

/-- Witness of C37: from program start, three 8-byte reports with the left stick at
(128, 128), (0, 255) and (255, 0) write no stick line. -/
theorem third_party_sticks_stale_reference_witness :
    stick_events (gamepad_run host_ok pad_init switch_init
      [(0, completed_report [0, 0, 0, 128, 128, 128, 128, 0]),
       (10, completed_report [0, 0, 0, 0, 255, 128, 128, 0]),
       (20, completed_report [0, 0, 0, 255, 0, 128, 128, 0])]).2.2 = [] :=
  (third_party_sticks_stale_reference host_ok host_ok host_ok 0 0 pad_init switch_init
    switch_init switch_init _ (Or.inl rfl) (by decide)).1

/-- C38: when the shift state of a report differs from that of the report before it,
every used slot is handled again, held codes included.  For a report whose only used
slot is `k`: a code that maps to a printing character appends that character (mapped
under the new shift state) to the buffer left by the report before, and the Caps, Num
or Scroll Lock code toggles its lock state once more. -/
theorem shift_change_rehandles (h1 h2 : Host) (s : KbState) (r1 r2 : hid_keyboard_report_t)
    (k : Nat) (hs : shift_of r2 ≠ shift_of r1) :
    handled_keys (process_keyboard_report h2 (process_keyboard_report h1 s r1).1 r2).2
        = r2.keycode.toList.filter (fun c => c != 0)
    ∧ (r2.keycode = ⟨k, 0, 0, 0, 0, 0⟩ → k ≠ 0 →
        (hid_to_ascii (process_keyboard_report h1 s r1).1.caps_lock_state
              (process_keyboard_report h1 s r1).1.num_lock_state k (shift_of r2) ≠ 0
          → hid_to_ascii (process_keyboard_report h1 s r1).1.caps_lock_state
              (process_keyboard_report h1 s r1).1.num_lock_state k (shift_of r2) ≠ 8
          → hid_to_ascii (process_keyboard_report h1 s r1).1.caps_lock_state
              (process_keyboard_report h1 s r1).1.num_lock_state k (shift_of r2) ≠ 10
          → (process_keyboard_report h2 (process_keyboard_report h1 s r1).1 r2).1.keyboard_buffer
            = (process_keyboard_report h1 s r1).1.keyboard_buffer
              ++ [hid_to_ascii (process_keyboard_report h1 s r1).1.caps_lock_state
                    (process_keyboard_report h1 s r1).1.num_lock_state k (shift_of r2)])
        ∧ (k = 0x39 →
            (process_keyboard_report h2 (process_keyboard_report h1 s r1).1 r2).1.caps_lock_state
              = !(process_keyboard_report h1 s r1).1.caps_lock_state)
        ∧ (k = 0x53 →
            (process_keyboard_report h2 (process_keyboard_report h1 s r1).1 r2).1.num_lock_state
              = !(process_keyboard_report h1 s r1).1.num_lock_state)
        ∧ (k = 0x47 →
            (process_keyboard_report h2 (process_keyboard_report h1 s r1).1 r2).1.scroll_lock_state
              = !(process_keyboard_report h1 s r1).1.scroll_lock_state)) := by
  have hnew : ∀ c, is_new (process_keyboard_report h1 s r1).1 (shift_of r2) c = true := by
    intro c
    rw [is_new_iff]
    exact Or.inr hs
  refine ⟨?_, ?_⟩
  · rw [handled_keys_process]
    simp only [hnew, Bool.and_true]
  · intro hk h0
    obtain ⟨e1, e2, e3, e4⟩ := single_slot_report h2 (process_keyboard_report h1 s r1).1 r2 k
      hk h0 (hnew k)
    rw [e1, e2, e3, e4, handle_key_state]
    refine ⟨?_, ?_, ?_, ?_⟩
    · intro c0 c8 c10
      simp only [buffer_after, if_neg c0, if_neg c8, if_neg c10]
    · intro hk; subst hk; simp
    · intro hk; subst hk; simp
    · intro hk; subst hk; simp

/-- Witness of C38: 'a' is pressed, then held while left shift is pressed: the buffer
"a" becomes "aA"; Caps Lock is pressed, then held while left shift is pressed: the lock
state goes on and off again. -/
theorem shift_change_rehandles_witness :
    (process_keyboard_report host_ok kb_init (report_of 0 0 0x04 0 0 0 0 0)).1.keyboard_buffer
        = bytes "a"
    ∧ (process_keyboard_report host_ok
        (process_keyboard_report host_ok kb_init (report_of 0 0 0x04 0 0 0 0 0)).1
        (report_of 0x02 0 0x04 0 0 0 0 0)).1.keyboard_buffer
        = (process_keyboard_report host_ok kb_init
            (report_of 0 0 0x04 0 0 0 0 0)).1.keyboard_buffer
          ++ [hid_to_ascii
              (process_keyboard_report host_ok kb_init
                (report_of 0 0 0x04 0 0 0 0 0)).1.caps_lock_state
              (process_keyboard_report host_ok kb_init
                (report_of 0 0 0x04 0 0 0 0 0)).1.num_lock_state 0x04
              (shift_of (report_of 0x02 0 0x04 0 0 0 0 0))]
    ∧ (process_keyboard_report host_ok kb_init (report_of 0 0 0x39 0 0 0 0 0)).1.caps_lock_state
        = true
    ∧ (process_keyboard_report host_ok
        (process_keyboard_report host_ok kb_init (report_of 0 0 0x39 0 0 0 0 0)).1
        (report_of 0x02 0 0x39 0 0 0 0 0)).1.caps_lock_state
        = !(process_keyboard_report host_ok kb_init
            (report_of 0 0 0x39 0 0 0 0 0)).1.caps_lock_state :=
  ⟨rfl,
   ((shift_change_rehandles host_ok host_ok kb_init (report_of 0 0 0x04 0 0 0 0 0)
      (report_of 0x02 0 0x04 0 0 0 0 0) 0x04 (by decide)).2 rfl (by decide)).1
      (by decide) (by decide) (by decide),
   rfl,
   ((shift_change_rehandles host_ok host_ok kb_init (report_of 0 0 0x39 0 0 0 0 0)
      (report_of 0x02 0 0x39 0 0 0 0 0) 0x39 (by decide)).2 rfl (by decide)).2.1 rfl⟩

/-- C39: the D-pad value for a left-cluster byte whose low nibble has opposing bits or
more than two bits set: 0x3 gives 4 (Down), 0xC gives 2 (Right), 0x7 gives 1
(Up-Right), 0xB gives 7 (Up-Left), 0xD gives 5 (Down-Left), 0xE gives 7 (Up-Left) and
0xF gives 7 (Up-Left), whatever the bits 4-7 of the byte. -/
theorem dpad_opposing_bits (b : Nat) :
    (b % 16 = 0x3 → dpad_of b = 4)
    ∧ (b % 16 = 0xC → dpad_of b = 2)
    ∧ (b % 16 = 0x7 → dpad_of b = 1)
    ∧ (b % 16 = 0xB → dpad_of b = 7)
    ∧ (b % 16 = 0xD → dpad_of b = 5)
    ∧ (b % 16 = 0xE → dpad_of b = 7)
    ∧ (b % 16 = 0xF → dpad_of b = 7) := by
  have key : dpad_of b = dpad_of (b % 16) := by
    rw [← dpad_of_low b, and_0f_eq_mod]
  refine ⟨?_, ?_, ?_, ?_, ?_, ?_, ?_⟩ <;> intro hb <;> rw [key, hb] <;> decide

/-- Witness of C39: the byte 0xC3 (L and ZL held, Down and Up set) decodes to Down, and
the byte 0x0F to Up-Left. -/
theorem dpad_opposing_bits_witness : dpad_of 0xC3 = 4 ∧ dpad_of 0x0F = 7 :=
  ⟨(dpad_opposing_bits 0xC3).1 (by decide), (dpad_opposing_bits 0x0F).2.2.2.2.2.2 (by decide)⟩

/-- C40 (counterexample): a table with a record of length 0 behind the configuration
header.  At offset 9, below `wTotalLength`, the primary-interface walk goes on with
offset 9 again: the offset does not increase, and the walks over this table are still
running after 1000 iterations. -/
theorem zero_length_record_counterexample :
    9 < (table_of [other_rec 9, other_rec 0, intf_rec 0 0x03 0]).wTotalLength
    ∧ primary_body (table_of [other_rec 9, other_rec 0, intf_rec 0 0x03 0]) 9 = Sum.inl 9
    ∧ select_interface (table_of [other_rec 9, other_rec 0, intf_rec 0 0x03 0]) 1000 = none
    ∧ has_interface_1 (table_of [other_rec 9, other_rec 0, intf_rec 0 0x03 0]) 1000 = none
    ∧ find_interface_2 (table_of [other_rec 9, other_rec 0, intf_rec 0 0x03 0]) 1000
        = none := by
  have hp : primary_body (table_of [other_rec 9, other_rec 0, intf_rec 0 0x03 0]) 9
      = Sum.inl 9 := by decide
  have h0 : primary_body (table_of [other_rec 9, other_rec 0, intf_rec 0 0x03 0]) 0
      = Sum.inl 9 := by decide
  have h1 : interface_1_body (table_of [other_rec 9, other_rec 0, intf_rec 0 0x03 0]) 9
      = Sum.inl 9 := by decide
  have h10 : interface_1_body (table_of [other_rec 9, other_rec 0, intf_rec 0 0x03 0]) 0
      = Sum.inl 9 := by decide
  have h2 : interface_2_body (table_of [other_rec 9, other_rec 0, intf_rec 0 0x03 0])
      (9, none, none) = Sum.inl (9, none, none) := by decide
  have h20 : interface_2_body (table_of [other_rec 9, other_rec 0, intf_rec 0 0x03 0])
      (0, none, none) = Sum.inl (9, none, none) := by decide
  refine ⟨by decide, hp, ?_, ?_, ?_⟩
  · unfold select_interface
    have : run_loop (primary_body (table_of [other_rec 9, other_rec 0, intf_rec 0 0x03 0]))
        1000 0 = none := by
      show run_loop _ (999 + 1) 0 = none
      unfold run_loop
      rw [h0]
      exact run_loop_stuck _ 9 hp 999
    rw [this]
  · unfold has_interface_1
    show run_loop _ (999 + 1) 0 = none
    unfold run_loop
    rw [h10]
    exact run_loop_stuck _ 9 h1 999
  · unfold find_interface_2
    show run_loop _ (999 + 1) (0, none, none) = none
    unfold run_loop
    rw [h20]
    exact run_loop_stuck _ (9, none, none) h2 999

/-- C40 (amended): on a table laid out as records of non-zero length every walk is left
within one iteration per record and one more: the two interface walks, the endpoint walk
behind any record, the interface-1 probe and the interface-2 walk.  On any table, an
iteration that goes on advances the offset by the `bLength` read at the offset; so a
walk that goes on at a record of length 0 stays at its offset and is never left. -/
theorem walks_terminate (recs : List StdDesc) (fuel : Nat) (c : ConfigDesc)
    (hpos : ∀ r ∈ recs, 0 < r.bLength) (hfuel : recs.length < fuel) :
    ((∃ r, select_interface (table_of recs) fuel = some r)
      ∧ (∀ pre x suf, recs = pre ++ x :: suf →
          ∃ r, find_endpoint (table_of recs) fuel (pre.map (fun y => y.bLength)).sum = some r)
      ∧ (∃ r, has_interface_1 (table_of recs) fuel = some r)
      ∧ (∃ r, find_interface_2 (table_of recs) fuel = some r))
    ∧ ((∀ o o1, primary_body c o = Sum.inl o1 → o1 = o + (c.desc_at o).bLength)
      ∧ (∀ o o1, fallback_body c o = Sum.inl o1 → o1 = o + (c.desc_at o).bLength)
      ∧ (∀ s s1, endpoint_body c s = Sum.inl s1 → s1.1 = s.1 + (c.desc_at s.1).bLength)
      ∧ (∀ o o1, interface_1_body c o = Sum.inl o1 → o1 = o + (c.desc_at o).bLength)
      ∧ (∀ s s1, interface_2_body c s = Sum.inl s1 → s1.1 = s.1 + (c.desc_at s.1).bLength))
    ∧ ((∀ o, primary_body c o = Sum.inl o → ∀ n, run_loop (primary_body c) n o = none)
      ∧ (∀ o, fallback_body c o = Sum.inl o → ∀ n, run_loop (fallback_body c) n o = none)
      ∧ (∀ s, endpoint_body c s = Sum.inl s → ∀ n, run_loop (endpoint_body c) n s = none)
      ∧ (∀ o, interface_1_body c o = Sum.inl o →
          ∀ n, run_loop (interface_1_body c) n o = none)
      ∧ (∀ s, interface_2_body c s = Sum.inl s →
          ∀ n, run_loop (interface_2_body c) n s = none)) := by
  refine ⟨⟨⟨_, select_interface_table recs fuel hpos hfuel⟩, ?_,
      has_interface_1_table recs fuel hpos hfuel, find_interface_2_table recs fuel hpos hfuel⟩,
    ⟨primary_body_step c, fallback_body_step c, endpoint_body_step c, interface_1_body_step c,
      interface_2_body_step c⟩,
    ⟨fun o h => run_loop_stuck _ o h, fun o h => run_loop_stuck _ o h,
      fun s h => run_loop_stuck _ s h, fun o h => run_loop_stuck _ o h,
      fun s h => run_loop_stuck _ s h⟩⟩
  intro pre x suf hr
  subst hr
  exact find_endpoint_table pre suf x fuel hpos hfuel

/-- Witness of C40 (amended): the table of the composite device, 10 records, walked with
a bound of 11 iterations. -/
theorem walks_terminate_witness :
    (∃ r, select_interface (table_of composite_table) 11 = some r)
    ∧ (∃ r, has_interface_1 (table_of composite_table) 11 = some r)
    ∧ (∃ r, find_interface_2 (table_of composite_table) 11 = some r) :=
  ⟨(walks_terminate composite_table 11 (table_of composite_table) (by decide)
      (by decide)).1.1,
   (walks_terminate composite_table 11 (table_of composite_table) (by decide)
      (by decide)).1.2.2.1,
   (walks_terminate composite_table 11 (table_of composite_table) (by decide)
      (by decide)).1.2.2.2⟩

end UsbHidx
